import Mathlib

/-!
# SdfFonts (GLES2 demo): mesh regeneration and shader-uniform derivation

A shallow embedding of `DemoApps/GLES2/SdfFonts/source/SdfFonts.cpp`.

* C++ `float` is IEEE 754 binary32 with round-to-nearest, ties-to-even (`F32` below).
  A finite value is stored by its magnitude bit pattern (`0 .. 0x7F7FFFFF`) and a sign;
  all NaN payloads are identified.
* Framework code that the file only calls (`AppHelper`, `TextureAtlasSpriteFont`,
  `GLProgram`, ...) is taken as a parameter.  The font config type is a parameter `Cfg`
  whose `operator==` is a `BEq`, not assumed reflexive; `BitmapFontConfig`, a float scale
  and a kerning flag compared member by member, is the instance the application uses.
* GL side effects are returned as explicit values: the calls issued by `DrawTextMesh`
  and the vertex data handed to `GLVertexBuffer::SetData`.
-/

set_option maxRecDepth 100000

namespace Fsl

/-! ## IEEE 754 binary32 arithmetic -/

/-- Nearest natural number to the fraction `N / D`, a tie going to the even neighbour. -/
def rne (N D : Nat) : Nat :=
  if 2 * (N % D) < D then N / D
  else if D < 2 * (N % D) then N / D + 1
  else N / D + (N / D) % 2

/-- Search for the binade of `N / D` (counted in units of `2^-149`), starting at quantum `2^j`,
and round there.  The result is the magnitude bit pattern: exponent field times `2^23` plus
mantissa, a mantissa carry moving into the exponent field. -/
def roundMagAux : Nat → Nat → Nat → Nat → Nat
  | 0, j, _, _ => j * 8388608 + 8388608
  | fuel + 1, j, N, D =>
    if N / (D * 2 ^ j) < 16777216 then j * 8388608 + rne N (D * 2 ^ j)
    else roundMagAux fuel (j + 1) N D

/-- Magnitude bit pattern of the binary32 value nearest to `N / D * 2^-149`; any result of
`0x7F800000` or more stands for overflow. -/
def roundMag (N D : Nat) : Nat := roundMagAux 255 0 N D

/-- Value of a finite magnitude bit pattern, in units of `2^-149`. -/
def scaled (mag : Nat) : Nat :=
  if mag / 8388608 = 0 then mag % 8388608
  else (8388608 + mag % 8388608) * 2 ^ (mag / 8388608 - 1)

/-- A binary32 value: NaN, a signed infinity, or a signed finite magnitude pattern. -/
inductive F32 where
  | nan : F32
  | inf (neg : Bool) : F32
  | fin (neg : Bool) (mag : Fin 2139095040) : F32
deriving DecidableEq, Repr

namespace F32

/-- Pack a rounded magnitude, overflowing to infinity. -/
def ofMag (neg : Bool) (r : Nat) : F32 :=
  if h : r < 2139095040 then fin neg ⟨r, h⟩ else inf neg

/-- The literal `0.0f`. -/
def zero : F32 := fin false ⟨0, by decide⟩

/-- The literal `0.25f`. -/
def quarter : F32 := fin false ⟨1048576000, by decide⟩

/-- The literal `0.5f`. -/
def half : F32 := fin false ⟨1056964608, by decide⟩

/-- The literal `1.0f`. -/
def one : F32 := fin false ⟨1065353216, by decide⟩

/-- The value `2^-118`. -/
def twoPowNeg118 : F32 := fin false ⟨75497472, by decide⟩

/-- Position of a value in the numeric order; NaN has none, and both zeroes share one. -/
def key : F32 → Option Int
  | nan => none
  | inf neg => some (if neg then -2139095040 else 2139095040)
  | fin neg mag => some (if neg then -(mag.val : Int) else (mag.val : Int))

/-- The operator `a < b`. -/
def lt (a b : F32) : Bool :=
  match key a, key b with
  | some x, some y => decide (x < y)
  | _, _ => false

/-- The operator `a <= b`. -/
def le (a b : F32) : Bool :=
  match key a, key b with
  | some x, some y => decide (x ≤ y)
  | _, _ => false

/-- The operator `a > b`. -/
def gt (a b : F32) : Bool := lt b a

/-- The operator `a == b`. -/
def eq (a b : F32) : Bool :=
  match key a, key b with
  | some x, some y => decide (x = y)
  | _, _ => false

/-- The operator `a != b`. -/
def ne (a b : F32) : Bool := !(eq a b)

/-- Unary minus. -/
def neg : F32 → F32
  | nan => nan
  | inf s => inf (!s)
  | fin s mag => fin (!s) mag

/-- The operator `a * b`. -/
def mul : F32 → F32 → F32
  | nan, _ => nan
  | _, nan => nan
  | inf a, inf b => inf (xor a b)
  | inf a, fin b n => if n.val = 0 then nan else inf (xor a b)
  | fin a m, inf b => if m.val = 0 then nan else inf (xor a b)
  | fin a m, fin b n => ofMag (xor a b) (roundMag (scaled m.val * scaled n.val) (2 ^ 149))

/-- The operator `a / b`. -/
def div : F32 → F32 → F32
  | nan, _ => nan
  | _, nan => nan
  | inf _, inf _ => nan
  | inf a, fin b _ => inf (xor a b)
  | fin a _, inf b => fin (xor a b) ⟨0, by decide⟩
  | fin a m, fin b n =>
    if n.val = 0 then (if m.val = 0 then nan else inf (xor a b))
    else ofMag (xor a b) (roundMag (scaled m.val * 2 ^ 149) (scaled n.val))

/-- The call `std::max(a, b)`, which is `(a < b) ? b : a`. -/
def max (a b : F32) : F32 := if lt a b then b else a

/-- The conversion `static_cast<float>(n)` of a 32-bit integer. -/
def ofInt32 (n : Int) : F32 := ofMag (decide (n < 0)) (roundMag (n.natAbs * 2 ^ 149) 1)

/-- A value is NaN. -/
def isNaN : F32 → Bool
  | nan => true
  | _ => false

/-- A value is finite (neither NaN nor an infinity). -/
def isFinite : F32 → Bool
  | fin _ _ => true
  | _ => false

/-- The number a finite value stands for. -/
def toRat : F32 → Option ℚ
  | fin neg mag => some ((if neg then -1 else 1) * (scaled mag.val : ℚ) / 2 ^ 149)
  | _ => none

end F32

/-! ## Framework types used by the source -/

/-- Pixel position `PxPoint2` (two 32-bit integers). -/
structure PxPoint2 where
  X : Int
  Y : Int
deriving DecidableEq, Repr

/-- Pixel size `PxSize2D`; `RawWidth()` and `RawHeight()` are 32-bit integers. -/
structure PxSize2D where
  RawWidth : Int
  RawHeight : Int
deriving DecidableEq, Repr

/-- Two floats, `Vector2`. -/
structure Vector2 where
  X : F32
  Y : F32
deriving DecidableEq, Repr

/-- A `Matrix`, as handed to GL by `DirectAccess()`. -/
abbrev Matrix := List F32

/-- A `StringViewLite`; `size()` is the length. -/
abbrev StringViewLite := List Char

/-- The enum `SdfType`: the source names `Sdf` only, every other value is `Other`. -/
inductive SdfType where
  | Sdf : SdfType
  | Other (raw : Nat) : SdfType
deriving DecidableEq, Repr

/-- The enum `SdfFontMode`: the four values the source names in `case` labels, every other
value is `Other`. -/
inductive SdfFontMode where
  | Outline : SdfFontMode
  | Shadow : SdfFontMode
  | ShadowAndOutline : SdfFontMode
  | Contours : SdfFontMode
  | Other (raw : Nat) : SdfFontMode
deriving DecidableEq, Repr

/-- The fields of `FontDrawConfig` that the source reads; `SdfType` is the field the source
calls `Type`, a reserved word here. -/
structure FontDrawConfig where
  FontScale : F32
  OutlineDistance : F32
  ShadowOffset : Vector2
  ShadowSmoothing : F32
  ContourScale : F32
  SdfType : SdfType
deriving DecidableEq, Repr

/-- A `BitmapFontConfig` as `Draw` constructs it: the float scale and the kerning flag.  The
functions of the source take the font config type as a parameter `Cfg`; this is the instance
the application uses. -/
structure BitmapFontConfig where
  Scale : F32
  Kerning : Bool
deriving Repr

/-- The `operator==` of `BitmapFontConfig`, the members compared with `==`: the scale as a
float, so that a NaN scale differs from itself and the two zeroes are equal. -/
instance : BEq BitmapFontConfig where
  beq a b := F32.eq a.Scale b.Scale && a.Kerning == b.Kerning

/-- A `GLES2::GLTexture`: its GL name and its size. -/
structure GLTexture where
  Get : Nat
  GetSize : PxSize2D
deriving DecidableEq, Repr

/-- The font SDF parameters returned by `GetSdfParams()`, as far as the source reads them. -/
structure SdfParams where
  DistanceRange : F32
deriving DecidableEq, Repr

/-- A `TextureAtlasSpriteFont` seen through the members the source calls.  Both overloads of
`ExtractRenderRules` write into a span, so they return the success flag together with the
span contents afterwards, and cannot change the span size. -/
structure TextureAtlasSpriteFont (Pos Cfg : Type) where
  ExtractRenderRules : List Pos → StringViewLite → Bool × List Pos
  ExtractRenderRulesCfg : List Pos → StringViewLite → Cfg → Bool × List Pos
  GetSdfParams : SdfParams
  span_size : ∀ dst str, (ExtractRenderRules dst str).2.length = dst.length
  span_size_cfg : ∀ dst str cfg, (ExtractRenderRulesCfg dst str cfg).2.length = dst.length

/-- The record `FontRecord`. -/
structure FontRecord (Pos Cfg : Type) where
  Texture : GLTexture
  Font : TextureAtlasSpriteFont Pos Cfg

/-- A `GLES2::GLProgram`: its GL name and its attribute lookups. -/
structure GLProgram where
  Get : Nat
  GetAttribLocation : String → Int
  TryGetAttribLocation : String → Int

/-- The uniform locations of a shader record. -/
structure ShaderLocation where
  OutlineDistance : Int
  ProjMatrix : Int
  Smoothing : Int
  ShadowOffset : Int
  ShadowSmoothing : Int
  ContourScale : Int
  Texture : Int
deriving DecidableEq, Repr

/-- The record `ShaderRecord`. -/
structure ShaderRecord where
  Program : GLProgram
  Location : ShaderLocation

/-- The record `FontShaderRecord`: one shader per SDF effect. -/
structure FontShaderRecord where
  Normal : ShaderRecord
  Outline : ShaderRecord
  Shadow : ShaderRecord
  ShadowAndOutline : ShaderRecord
  Contours : ShaderRecord

/-- The part of `m_resources` that `SelectShaderRecord` reads. -/
structure Resources where
  ShadersSdf : FontShaderRecord
  ShadersMtsdf : FontShaderRecord

/-- The enum `VertexElementUsage`, as far as the source names it. -/
inductive VertexElementUsage where
  | Position : VertexElementUsage
  | TextureCoordinate : VertexElementUsage
deriving DecidableEq, Repr

/-- A `GLES2::GLVertexAttribLink`. -/
structure GLVertexAttribLink where
  AttribIndex : Int
  VertexElementIndex : Int
deriving DecidableEq, Repr

/-- A `GLES2::GLVertexBuffer`: its GL name and the vertex data it holds. -/
structure GLVertexBuffer (Vtx : Type) where
  Get : Nat
  Data : List Vtx
deriving DecidableEq, Repr

/-- The call `SetData(dstIndex, pVertices, elementCount)`: the elements overwrite the buffer
from `dstIndex` on. -/
def GLVertexBuffer.SetData {Vtx : Type} (vb : GLVertexBuffer Vtx) (dstIndex : Nat)
    (src : List Vtx) : GLVertexBuffer Vtx :=
  { vb with Data := vb.Data.take dstIndex ++ src ++ vb.Data.drop (dstIndex + src.length) }

/-- A `GLES2::GLIndexBuffer` of 16-bit indices; `GetGLCapacity()` is the number of entries. -/
structure GLIndexBuffer where
  Get : Nat
  Data : List Nat
deriving DecidableEq, Repr

/-- The call `GetGLCapacity()`. -/
def GLIndexBuffer.GetGLCapacity (ib : GLIndexBuffer) : Nat := ib.Data.length

/-- The record `MeshRecord`. -/
structure MeshRecord (Cfg Vtx : Type) where
  Offset : PxPoint2
  FontConfig : Cfg
  Vertices : List Vtx
  VB : GLVertexBuffer Vtx
  IB : GLIndexBuffer
  AttribLink : GLVertexAttribLink × GLVertexAttribLink
  CachedShader : Nat
deriving DecidableEq, Repr

/-- The helpers `AppHelper::GenerateVertices` and `AppHelper::GenerateIndices`.  Each writes
into the span it is given and returns nothing; here it returns the span contents afterwards,
whose size is that of the span. -/
structure AppHelper (Pos Vtx : Type) where
  GenerateVertices : List Vtx → PxPoint2 → List Pos → F32 → PxSize2D → List Vtx
  GenerateIndices : List Nat → List Pos → List Nat
  vertices_size : ∀ dst p ps z sz, (GenerateVertices dst p ps z sz).length = dst.length
  indices_size : ∀ dst ps, (GenerateIndices dst ps).length = dst.length

/-- What `GenerateMesh` takes from outside the file: the GL names of the two new buffers, and
the value-initialised `AttribLink` and `CachedShader` members of a new `MeshRecord`. -/
structure MeshInit where
  VBName : Nat
  IBName : Nat
  AttribLink : GLVertexAttribLink × GLVertexAttribLink
  CachedShader : Nat
deriving DecidableEq, Repr

namespace LocalConfig

/-- The constant `LocalConfig::DefaultZPos = 0.0f`. -/
def DefaultZPos : F32 := F32.zero

end LocalConfig

/-- A GL call issued by `DrawTextMesh`. -/
inductive GLCall where
  | UseProgram (program : Nat) : GLCall
  | ActiveTexture (texUnit : Nat) : GLCall
  | BindTexture (texture : Nat) : GLCall
  | UniformMatrix4fv (location : Int) (value : Matrix) : GLCall
  | Uniform1f (location : Int) (v0 : F32) : GLCall
  | Uniform2f (location : Int) (v0 v1 : F32) : GLCall
  | Uniform1i (location : Int) (v0 : Int) : GLCall
  | BindVertexBuffer (buffer : Nat) : GLCall
  | BindIndexBuffer (buffer : Nat) : GLCall
  | EnableAttribArrays (links : GLVertexAttribLink × GLVertexAttribLink) : GLCall
  | DrawElements (count : Nat) : GLCall
  | DisableAttribArrays (links : GLVertexAttribLink × GLVertexAttribLink) : GLCall
deriving DecidableEq, Repr

/-! ## The functions of `SdfFonts.cpp` -/

section Source

variable {Pos Cfg Vtx : Type}

/-- The local `outlineDistance` of `DrawTextMesh`. -/
def DrawTextMesh.outlineDistance (fontDrawConfig : FontDrawConfig) : F32 :=
  if F32.gt fontDrawConfig.OutlineDistance F32.zero then
    F32.mul F32.half fontDrawConfig.OutlineDistance
  else F32.zero

/-- The local `fontSdfSpread` of `DrawTextMesh`. -/
def DrawTextMesh.fontSdfSpread (fontRecord : FontRecord Pos Cfg) : F32 :=
  F32.max fontRecord.Font.GetSdfParams.DistanceRange F32.one

/-- The local `smoothing` of `DrawTextMesh`. -/
def DrawTextMesh.smoothing (fontRecord : FontRecord Pos Cfg)
    (fontDrawConfig : FontDrawConfig) : F32 :=
  F32.div F32.quarter (F32.mul (DrawTextMesh.fontSdfSpread fontRecord) fontDrawConfig.FontScale)

/-- The local `maxOffsetX` of `DrawTextMesh`. -/
def DrawTextMesh.maxOffsetX (fontRecord : FontRecord Pos Cfg) : F32 :=
  F32.div (DrawTextMesh.fontSdfSpread fontRecord)
    (F32.ofInt32 fontRecord.Texture.GetSize.RawWidth)

/-- The local `maxOffsetY` of `DrawTextMesh`. -/
def DrawTextMesh.maxOffsetY (fontRecord : FontRecord Pos Cfg) : F32 :=
  F32.div (DrawTextMesh.fontSdfSpread fontRecord)
    (F32.ofInt32 fontRecord.Texture.GetSize.RawHeight)

/-- The local `shadowOffsetX` of `DrawTextMesh`. -/
def DrawTextMesh.shadowOffsetX (fontRecord : FontRecord Pos Cfg)
    (fontDrawConfig : FontDrawConfig) : F32 :=
  if F32.ne fontDrawConfig.ShadowOffset.X F32.zero then
    F32.mul (DrawTextMesh.maxOffsetX fontRecord) fontDrawConfig.ShadowOffset.X
  else F32.zero

/-- The local `shadowOffsetY` of `DrawTextMesh`. -/
def DrawTextMesh.shadowOffsetY (fontRecord : FontRecord Pos Cfg)
    (fontDrawConfig : FontDrawConfig) : F32 :=
  if F32.ne fontDrawConfig.ShadowOffset.Y F32.zero then
    F32.neg (F32.mul (DrawTextMesh.maxOffsetY fontRecord) fontDrawConfig.ShadowOffset.Y)
  else F32.zero

/-- The local `shadowSmoothing` of `DrawTextMesh`. -/
def DrawTextMesh.shadowSmoothing (fontDrawConfig : FontDrawConfig) : F32 :=
  if F32.gt fontDrawConfig.ShadowSmoothing F32.zero then
    F32.mul F32.half fontDrawConfig.ShadowSmoothing
  else F32.zero

/-- The function `SdfFonts::DrawTextMesh`: the GL calls it issues, in order.  `ndebug` tells
whether `assert` is compiled out; with assertions compiled in, a failing one aborts the
program inside the call (`none`).  `invalidLocation` is `GLES2::GLValues::InvalidLocation`. -/
def DrawTextMesh (ndebug : Bool) (invalidLocation : Int) (mesh : MeshRecord Cfg Vtx)
    (fontRecord : FontRecord Pos Cfg) (shader : ShaderRecord) (projection : Matrix)
    (fontDrawConfig : FontDrawConfig) : Option (List GLCall) :=
  if ndebug = false ∧ (shader.Location.ProjMatrix = invalidLocation
      ∨ shader.Location.Texture = invalidLocation) then none
  else some (
    [GLCall.UseProgram shader.Program.Get,
     GLCall.ActiveTexture 0,
     GLCall.BindTexture fontRecord.Texture.Get,
     GLCall.UniformMatrix4fv shader.Location.ProjMatrix projection]
    ++ (if shader.Location.OutlineDistance ≠ invalidLocation then
          [GLCall.Uniform1f shader.Location.OutlineDistance
            (DrawTextMesh.outlineDistance fontDrawConfig)]
        else [])
    ++ (if shader.Location.Smoothing ≠ invalidLocation then
          [GLCall.Uniform1f shader.Location.Smoothing
            (DrawTextMesh.smoothing fontRecord fontDrawConfig)]
        else [])
    ++ (if shader.Location.ShadowOffset ≠ invalidLocation then
          [GLCall.Uniform2f shader.Location.ShadowOffset
            (DrawTextMesh.shadowOffsetX fontRecord fontDrawConfig)
            (DrawTextMesh.shadowOffsetY fontRecord fontDrawConfig)]
        else [])
    ++ (if shader.Location.ShadowSmoothing ≠ invalidLocation then
          [GLCall.Uniform1f shader.Location.ShadowSmoothing
            (DrawTextMesh.shadowSmoothing fontDrawConfig)]
        else [])
    ++ (if shader.Location.ContourScale ≠ invalidLocation then
          [GLCall.Uniform1f shader.Location.ContourScale fontDrawConfig.ContourScale]
        else [])
    ++ [GLCall.Uniform1i shader.Location.Texture 0,
        GLCall.BindVertexBuffer mesh.VB.Get,
        GLCall.BindIndexBuffer mesh.IB.Get,
        GLCall.EnableAttribArrays mesh.AttribLink,
        GLCall.DrawElements mesh.IB.GetGLCapacity,
        GLCall.DisableAttribArrays mesh.AttribLink])

/-- The scratchpad after `if (n > v.size()) v.resize(n)`. -/
def growScratchpad [Inhabited Pos] (n : Nat) (rPositionsScratchpad : List Pos) : List Pos :=
  if n > rPositionsScratchpad.length then
    rPositionsScratchpad ++ List.replicate (n - rPositionsScratchpad.length) default
  else rPositionsScratchpad

/-- The function `SdfFonts::GenerateMesh`: the new mesh record and the scratchpad afterwards. -/
def GenerateMesh [Inhabited Pos] [Inhabited Vtx] (helper : AppHelper Pos Vtx) (init : MeshInit)
    (dstPositionPx : PxPoint2) (fontRecord : FontRecord Pos Cfg) (fontConfig : Cfg)
    (strView : StringViewLite) (rPositionsScratchpad : List Pos) :
    MeshRecord Cfg Vtx × List Pos :=
  let font := fontRecord.Font
  let fontTextureSize := fontRecord.Texture.GetSize
  let vertices : List Vtx := List.replicate (strView.length * 4) default
  let indices : List Nat := List.replicate (strView.length * (3 * 2)) 0
  let scratchpad := growScratchpad strView.length rPositionsScratchpad
  let rules := font.ExtractRenderRules scratchpad strView
  let gotRules := rules.1
  let positionsSpan := rules.2.take (if gotRules then strView.length else 0)
  let vertices := helper.GenerateVertices vertices dstPositionPx positionsSpan
    LocalConfig.DefaultZPos fontTextureSize
  let indices := helper.GenerateIndices indices positionsSpan
  let vb : GLVertexBuffer Vtx := { Get := init.VBName, Data := vertices }
  ({ Offset := dstPositionPx, FontConfig := fontConfig, Vertices := vertices, VB := vb,
     IB := { Get := init.IBName, Data := indices }, AttribLink := init.AttribLink,
     CachedShader := init.CachedShader },
   rules.2)

/-- What a call of `RegenerateMeshOnDemand` leaves behind: the mesh record, the positions
scratchpad, and the vertex arrays handed to `VB.SetData` during the call. -/
structure RegenerateOutcome (Pos Cfg Vtx : Type) where
  Mesh : MeshRecord Cfg Vtx
  Positions : List Pos
  Uploads : List (List Vtx)

/-- The function `SdfFonts::RegenerateMeshOnDemand`.  `vertexElementIndex` is
`VB.GetVertexElementIndex`, fixed by the vertex declaration.  `Cfg` is the type of the font
config and `==` its `operator==`, which need not be reflexive: see `BitmapFontConfig`. -/
def RegenerateMeshOnDemand [Inhabited Pos] [BEq Cfg] (helper : AppHelper Pos Vtx)
    (vertexElementIndex : VertexElementUsage → Nat → Int)
    (rMeshRecord : MeshRecord Cfg Vtx) (dstPositionPx : PxPoint2) (shader : ShaderRecord)
    (fontRecord : FontRecord Pos Cfg) (fontConfig : Cfg) (strView : StringViewLite)
    (rPositionsScratchpad : List Pos) : RegenerateOutcome Pos Cfg Vtx :=
  let shaderChanged : Bool := rMeshRecord.CachedShader != shader.Program.Get
  if rMeshRecord.Offset = dstPositionPx ∧ (rMeshRecord.FontConfig == fontConfig) = true
      ∧ shaderChanged = false then
    { Mesh := rMeshRecord, Positions := rPositionsScratchpad, Uploads := [] }
  else
    let font := fontRecord.Font
    let fontTextureSize := fontRecord.Texture.GetSize
    let scratchpad := growScratchpad strView.length rPositionsScratchpad
    let rules := font.ExtractRenderRulesCfg scratchpad strView fontConfig
    let gotRules := rules.1
    let positionsSpan := rules.2.take (if gotRules then strView.length else 0)
    let vertices := helper.GenerateVertices rMeshRecord.Vertices dstPositionPx positionsSpan
      LocalConfig.DefaultZPos fontTextureSize
    let vb := rMeshRecord.VB.SetData 0 vertices
    let attribLink :=
      if shaderChanged then
        (GLVertexAttribLink.mk (shader.Program.GetAttribLocation "VertexPosition")
           (vertexElementIndex VertexElementUsage.Position 0),
         GLVertexAttribLink.mk (shader.Program.TryGetAttribLocation "VertexTextureCoord")
           (vertexElementIndex VertexElementUsage.TextureCoordinate 0))
      else rMeshRecord.AttribLink
    { Mesh := { Offset := dstPositionPx, FontConfig := fontConfig, Vertices := vertices,
                VB := vb, IB := rMeshRecord.IB, AttribLink := attribLink,
                CachedShader := shader.Program.Get },
      Positions := rules.2,
      Uploads := [vertices] }

/-- The function `SdfFonts::SelectShaderRecord`. -/
def SelectShaderRecord (m_resources : Resources) (fontSdfMode : SdfFontMode)
    (fontSdfType : SdfType) : ShaderRecord :=
  let shaders := if fontSdfType = SdfType.Sdf then m_resources.ShadersSdf
    else m_resources.ShadersMtsdf
  match fontSdfMode with
  | SdfFontMode.Outline => shaders.Outline
  | SdfFontMode.Shadow => shaders.Shadow
  | SdfFontMode.ShadowAndOutline => shaders.ShadowAndOutline
  | SdfFontMode.Contours => shaders.Contours
  | _ => shaders.Normal

end Source

/-! ## The frame: `Draw` and `DrawMeshes` -/

/-- The record `ExampleRecord`: a font and its unscaled and scaled mesh. -/
structure ExampleRecord (Pos Cfg Vtx : Type) where
  Font : FontRecord Pos Cfg
  Mesh : MeshRecord Cfg Vtx
  ScaledMesh : MeshRecord Cfg Vtx

/-- The members of `m_resources` that `Draw` and `DrawMeshes` read, beyond the two shader
families. -/
structure FrameResources (Pos Cfg Vtx : Type) extends Resources where
  ShaderNormal : ShaderRecord
  Normal : ExampleRecord Pos Cfg Vtx
  Sdf : ExampleRecord Pos Cfg Vtx
  Mtsdf : ExampleRecord Pos Cfg Vtx
  Projection : Matrix

/-- What `Draw` reads from `m_shared`. -/
structure Shared where
  GetContentOffset : PxPoint2
  GetFontDrawConfig : FontDrawConfig
  GetSdfMode : SdfFontMode
  GetKerningEnabled : Bool

/-- Framework operations `Draw` calls on values: the line spacing of a font, the pixel size
`UncheckedChangeTo<PxSize1D>(PxSize1DF(px) * PxSize1DF::Create(scale))`, and the constructor
`BitmapFontConfig(scale, kerning)`. -/
structure DrawFramework (Pos Cfg : Type) where
  LineSpacingPx : TextureAtlasSpriteFont Pos Cfg → Int
  ScalePx : Int → F32 → Int
  BitmapFontConfig : F32 → Bool → Cfg

/-- The capabilities `DrawMeshes` enables. -/
inductive GLCap where
  | CullFace : GLCap
  | Blend : GLCap
deriving DecidableEq, Repr

/-- The blend factors `DrawMeshes` uses. -/
inductive GLBlendFactor where
  | One : GLBlendFactor
  | SrcAlpha : GLBlendFactor
  | OneMinusSrcAlpha : GLBlendFactor
deriving DecidableEq, Repr

/-- A GL call issued during `DrawMeshes`: by the function itself or inside `DrawTextMesh`. -/
inductive DrawMeshesCall where
  | Enable (cap : GLCap) : DrawMeshesCall
  | BlendFunc (sfactor dfactor : GLBlendFactor) : DrawMeshesCall
  | InDrawTextMesh (call : GLCall) : DrawMeshesCall
  | UnbindArrayBuffer : DrawMeshesCall
  | UnbindElementArrayBuffer : DrawMeshesCall
  | UnbindTexture : DrawMeshesCall
  | UnuseProgram : DrawMeshesCall
deriving DecidableEq, Repr

/-- The arguments of one call of `DrawTextMesh`. -/
structure DrawTextMeshCall (Pos Cfg Vtx : Type) where
  mesh : MeshRecord Cfg Vtx
  fontRecord : FontRecord Pos Cfg
  shader : ShaderRecord
  projection : Matrix
  fontDrawConfig : FontDrawConfig

namespace LocalConfig

/-- The constant `LocalConfig::TextLine0`. -/
def TextLine0 : StringViewLite :=
  "The quick brown fox jumps over the lazy dog! Hello World.".toList

end LocalConfig

section Frame

variable {Pos Cfg Vtx : Type}

/-- The local `positionsSpan` of `GenerateMesh`: the glyph positions handed to
`GenerateVertices` and `GenerateIndices`. -/
def GenerateMesh.positionsSpan [Inhabited Pos] (fontRecord : FontRecord Pos Cfg)
    (strView : StringViewLite) (rPositionsScratchpad : List Pos) : List Pos :=
  let scratchpad := growScratchpad strView.length rPositionsScratchpad
  let rules := fontRecord.Font.ExtractRenderRules scratchpad strView
  let gotRules := rules.1
  rules.2.take (if gotRules then strView.length else 0)

/-- The local `positionsSpan` of `RegenerateMeshOnDemand` (past the early return): the glyph
positions handed to `GenerateVertices`. -/
def RegenerateMeshOnDemand.positionsSpan [Inhabited Pos] (fontRecord : FontRecord Pos Cfg)
    (fontConfig : Cfg) (strView : StringViewLite) (rPositionsScratchpad : List Pos) : List Pos :=
  let scratchpad := growScratchpad strView.length rPositionsScratchpad
  let rules := fontRecord.Font.ExtractRenderRulesCfg scratchpad strView fontConfig
  let gotRules := rules.1
  rules.2.take (if gotRules then strView.length else 0)

/-- The arguments of one call of `RegenerateMeshOnDemand` on a given mesh. -/
structure RegenerateArgs (Pos Cfg : Type) where
  dstPositionPx : PxPoint2
  shader : ShaderRecord
  fontRecord : FontRecord Pos Cfg
  fontConfig : Cfg
  strView : StringViewLite

/-- A mesh record and the scratchpad after a sequence of `RegenerateMeshOnDemand` calls. -/
def regenerateAll [Inhabited Pos] [BEq Cfg] (helper : AppHelper Pos Vtx)
    (vertexElementIndex : VertexElementUsage → Nat → Int) :
    MeshRecord Cfg Vtx × List Pos → List (RegenerateArgs Pos Cfg) → MeshRecord Cfg Vtx × List Pos
  | state, [] => state
  | state, a :: rest =>
    let out := RegenerateMeshOnDemand helper vertexElementIndex state.1 a.dstPositionPx a.shader
      a.fontRecord a.fontConfig a.strView state.2
    regenerateAll helper vertexElementIndex (out.Mesh, out.Positions) rest

/-- The local `drawConfig` of `DrawMeshes`: a copy of the config with `FontScale = 1.0f`. -/
def DrawMeshes.drawConfig (fontDrawConfig : FontDrawConfig) : FontDrawConfig :=
  { fontDrawConfig with FontScale := F32.one }

/-- The local `example` of the second block of `DrawMeshes`. -/
def DrawMeshes.example (m_resources : FrameResources Pos Cfg Vtx)
    (fontDrawConfig : FontDrawConfig) : ExampleRecord Pos Cfg Vtx :=
  if fontDrawConfig.SdfType = SdfType.Sdf then m_resources.Sdf else m_resources.Mtsdf

/-- The four calls of `DrawTextMesh` that `DrawMeshes` makes, in order, with their
arguments. -/
def DrawMeshes.calls (m_resources : FrameResources Pos Cfg Vtx)
    (fontDrawConfig : FontDrawConfig) (fontSdfShader : ShaderRecord) :
    List (DrawTextMeshCall Pos Cfg Vtx) :=
  let drawConfig := DrawMeshes.drawConfig fontDrawConfig
  let normal := m_resources.Normal
  let sdf := DrawMeshes.example m_resources fontDrawConfig
  [ { mesh := normal.Mesh, fontRecord := normal.Font, shader := m_resources.ShaderNormal,
      projection := m_resources.Projection, fontDrawConfig := drawConfig },
    { mesh := normal.ScaledMesh, fontRecord := normal.Font, shader := m_resources.ShaderNormal,
      projection := m_resources.Projection, fontDrawConfig := fontDrawConfig },
    { mesh := sdf.Mesh, fontRecord := sdf.Font, shader := fontSdfShader,
      projection := m_resources.Projection, fontDrawConfig := drawConfig },
    { mesh := sdf.ScaledMesh, fontRecord := sdf.Font, shader := fontSdfShader,
      projection := m_resources.Projection, fontDrawConfig := fontDrawConfig } ]

/-- One call of `DrawTextMesh` with the given arguments. -/
def DrawTextMeshCall.run (ndebug : Bool) (invalidLocation : Int)
    (c : DrawTextMeshCall Pos Cfg Vtx) : Option (List GLCall) :=
  DrawTextMesh ndebug invalidLocation c.mesh c.fontRecord c.shader c.projection c.fontDrawConfig

/-- The function `SdfFonts::DrawMeshes`: the GL calls of the frame, in order; `none` when an
assertion inside `DrawTextMesh` fails. -/
def DrawMeshes (ndebug : Bool) (invalidLocation : Int)
    (m_resources : FrameResources Pos Cfg Vtx) (fontDrawConfig : FontDrawConfig)
    (fontSdfShader : ShaderRecord) : Option (List DrawMeshesCall) :=
  let drawConfig := DrawMeshes.drawConfig fontDrawConfig
  let normal := m_resources.Normal
  let sdf := DrawMeshes.example m_resources fontDrawConfig
  match DrawTextMesh ndebug invalidLocation normal.Mesh normal.Font m_resources.ShaderNormal
      m_resources.Projection drawConfig,
    DrawTextMesh ndebug invalidLocation normal.ScaledMesh normal.Font m_resources.ShaderNormal
      m_resources.Projection fontDrawConfig,
    DrawTextMesh ndebug invalidLocation sdf.Mesh sdf.Font fontSdfShader
      m_resources.Projection drawConfig,
    DrawTextMesh ndebug invalidLocation sdf.ScaledMesh sdf.Font fontSdfShader
      m_resources.Projection fontDrawConfig with
  | some normalMesh, some normalScaled, some sdfMesh, some sdfScaled =>
    some (
      [DrawMeshesCall.Enable GLCap.CullFace,
       DrawMeshesCall.Enable GLCap.Blend,
       DrawMeshesCall.BlendFunc GLBlendFactor.One GLBlendFactor.OneMinusSrcAlpha]
      ++ normalMesh.map DrawMeshesCall.InDrawTextMesh
      ++ normalScaled.map DrawMeshesCall.InDrawTextMesh
      ++ [DrawMeshesCall.BlendFunc GLBlendFactor.SrcAlpha GLBlendFactor.OneMinusSrcAlpha]
      ++ sdfMesh.map DrawMeshesCall.InDrawTextMesh
      ++ sdfScaled.map DrawMeshesCall.InDrawTextMesh
      ++ [DrawMeshesCall.UnbindArrayBuffer,
          DrawMeshesCall.UnbindElementArrayBuffer,
          DrawMeshesCall.UnbindTexture,
          DrawMeshesCall.UnuseProgram])
  | _, _, _, _ => none

/-- The four calls of `RegenerateMeshOnDemand` in `Draw`, in order: the mesh each one is made
on (as it stands before the frame) and its arguments. -/
structure DrawRegenerations (Pos Cfg Vtx : Type) where
  NormalMesh : MeshRecord Cfg Vtx × RegenerateArgs Pos Cfg
  SdfMesh : MeshRecord Cfg Vtx × RegenerateArgs Pos Cfg
  NormalScaledMesh : MeshRecord Cfg Vtx × RegenerateArgs Pos Cfg
  SdfScaledMesh : MeshRecord Cfg Vtx × RegenerateArgs Pos Cfg

/-- The local `rSdfRecord` of `Draw`. -/
def Draw.rSdfRecord (m_shared : Shared) (m_resources : FrameResources Pos Cfg Vtx) :
    ExampleRecord Pos Cfg Vtx :=
  if m_shared.GetFontDrawConfig.SdfType = SdfType.Sdf then m_resources.Sdf
  else m_resources.Mtsdf

/-- The local `fontSdfShader` of `Draw`. -/
def Draw.fontSdfShader (m_shared : Shared) (m_resources : FrameResources Pos Cfg Vtx) :
    ShaderRecord :=
  SelectShaderRecord m_resources.toResources m_shared.GetSdfMode
    m_shared.GetFontDrawConfig.SdfType

/-- The four `RegenerateMeshOnDemand` calls of `Draw` with the arguments the source passes. -/
def Draw.regenerations (framework : DrawFramework Pos Cfg) (m_shared : Shared)
    (m_resources : FrameResources Pos Cfg Vtx) : DrawRegenerations Pos Cfg Vtx :=
  let contentOffset := m_shared.GetContentOffset
  let fontDrawConfig := m_shared.GetFontDrawConfig
  let fontSdfShader := Draw.fontSdfShader m_shared m_resources
  let rSdfRecord := Draw.rSdfRecord m_shared m_resources
  let line0Px : PxPoint2 := ⟨contentOffset.X, contentOffset.Y⟩
  let line1Px : PxPoint2 :=
    ⟨contentOffset.X, line0Px.Y + framework.LineSpacingPx m_resources.Normal.Font.Font⟩
  let line2Px : PxPoint2 :=
    ⟨contentOffset.X, line1Px.Y + framework.LineSpacingPx rSdfRecord.Font.Font⟩
  let line3Px : PxPoint2 :=
    ⟨contentOffset.X, line2Px.Y
      + framework.ScalePx (framework.LineSpacingPx m_resources.Normal.Font.Font)
          fontDrawConfig.FontScale⟩
  let enableKerning := m_shared.GetKerningEnabled
  let fontConfigNormal := framework.BitmapFontConfig F32.one enableKerning
  let fontConfigScaled := framework.BitmapFontConfig fontDrawConfig.FontScale enableKerning
  { NormalMesh := (m_resources.Normal.Mesh,
      { dstPositionPx := line0Px, shader := m_resources.ShaderNormal,
        fontRecord := m_resources.Normal.Font, fontConfig := fontConfigNormal,
        strView := LocalConfig.TextLine0 }),
    SdfMesh := (rSdfRecord.Mesh,
      { dstPositionPx := line1Px, shader := fontSdfShader, fontRecord := rSdfRecord.Font,
        fontConfig := fontConfigNormal, strView := LocalConfig.TextLine0 }),
    NormalScaledMesh := (m_resources.Normal.ScaledMesh,
      { dstPositionPx := line2Px, shader := fontSdfShader,
        fontRecord := m_resources.Normal.Font, fontConfig := fontConfigScaled,
        strView := LocalConfig.TextLine0 }),
    SdfScaledMesh := (rSdfRecord.ScaledMesh,
      { dstPositionPx := line3Px, shader := fontSdfShader, fontRecord := rSdfRecord.Font,
        fontConfig := fontConfigScaled, strView := LocalConfig.TextLine0 }) }

/-- One call of `RegenerateMeshOnDemand` on a mesh with the given arguments. -/
def RegenerateArgs.run [Inhabited Pos] [BEq Cfg] (helper : AppHelper Pos Vtx)
    (vertexElementIndex : VertexElementUsage → Nat → Int)
    (call : MeshRecord Cfg Vtx × RegenerateArgs Pos Cfg) (rPositionsScratchpad : List Pos) :
    RegenerateOutcome Pos Cfg Vtx :=
  RegenerateMeshOnDemand helper vertexElementIndex call.1 call.2.dstPositionPx call.2.shader
    call.2.fontRecord call.2.fontConfig call.2.strView rPositionsScratchpad

/-- The first call of `Draw`: `RegenerateMeshOnDemand` on `m_resources.Normal.Mesh`. -/
def Draw.normalMesh [Inhabited Pos] [BEq Cfg] (helper : AppHelper Pos Vtx)
    (vertexElementIndex : VertexElementUsage → Nat → Int) (framework : DrawFramework Pos Cfg)
    (m_shared : Shared) (m_resources : FrameResources Pos Cfg Vtx)
    (m_positionsScratchpad : List Pos) : RegenerateOutcome Pos Cfg Vtx :=
  RegenerateArgs.run helper vertexElementIndex
    (Draw.regenerations framework m_shared m_resources).NormalMesh m_positionsScratchpad

/-- The second call of `Draw`: `RegenerateMeshOnDemand` on `rSdfRecord.Mesh`. -/
def Draw.sdfMesh [Inhabited Pos] [BEq Cfg] (helper : AppHelper Pos Vtx)
    (vertexElementIndex : VertexElementUsage → Nat → Int) (framework : DrawFramework Pos Cfg)
    (m_shared : Shared) (m_resources : FrameResources Pos Cfg Vtx)
    (m_positionsScratchpad : List Pos) : RegenerateOutcome Pos Cfg Vtx :=
  RegenerateArgs.run helper vertexElementIndex
    (Draw.regenerations framework m_shared m_resources).SdfMesh
    (Draw.normalMesh helper vertexElementIndex framework m_shared m_resources
      m_positionsScratchpad).Positions

/-- The third call of `Draw`: `RegenerateMeshOnDemand` on `m_resources.Normal.ScaledMesh`. -/
def Draw.normalScaledMesh [Inhabited Pos] [BEq Cfg] (helper : AppHelper Pos Vtx)
    (vertexElementIndex : VertexElementUsage → Nat → Int) (framework : DrawFramework Pos Cfg)
    (m_shared : Shared) (m_resources : FrameResources Pos Cfg Vtx)
    (m_positionsScratchpad : List Pos) : RegenerateOutcome Pos Cfg Vtx :=
  RegenerateArgs.run helper vertexElementIndex
    (Draw.regenerations framework m_shared m_resources).NormalScaledMesh
    (Draw.sdfMesh helper vertexElementIndex framework m_shared m_resources
      m_positionsScratchpad).Positions

/-- The fourth call of `Draw`: `RegenerateMeshOnDemand` on `rSdfRecord.ScaledMesh`. -/
def Draw.sdfScaledMesh [Inhabited Pos] [BEq Cfg] (helper : AppHelper Pos Vtx)
    (vertexElementIndex : VertexElementUsage → Nat → Int) (framework : DrawFramework Pos Cfg)
    (m_shared : Shared) (m_resources : FrameResources Pos Cfg Vtx)
    (m_positionsScratchpad : List Pos) : RegenerateOutcome Pos Cfg Vtx :=
  RegenerateArgs.run helper vertexElementIndex
    (Draw.regenerations framework m_shared m_resources).SdfScaledMesh
    (Draw.normalScaledMesh helper vertexElementIndex framework m_shared m_resources
      m_positionsScratchpad).Positions

/-- What a frame leaves behind: `m_resources` and the scratchpad after the four
regenerations, and the GL calls of `DrawMeshes`. -/
structure Frame (Pos Cfg Vtx : Type) where
  Resources : FrameResources Pos Cfg Vtx
  Positions : List Pos
  Meshes : Option (List DrawMeshesCall)

/-- The function `SdfFonts::Draw`, from reading the shared state to the call of `DrawMeshes`:
the four meshes are regenerated in source order, each on the scratchpad the previous call
left, and stored back in `m_resources`; then the meshes are drawn.  The clear, the baseline
and bounding-box overlays and the UI are drawn by the framework and are left out. -/
def Draw [Inhabited Pos] [BEq Cfg] (ndebug : Bool) (invalidLocation : Int)
    (helper : AppHelper Pos Vtx) (vertexElementIndex : VertexElementUsage → Nat → Int)
    (framework : DrawFramework Pos Cfg) (m_shared : Shared)
    (m_resources : FrameResources Pos Cfg Vtx) (m_positionsScratchpad : List Pos) :
    Frame Pos Cfg Vtx :=
  let fontDrawConfig := m_shared.GetFontDrawConfig
  let fontSdfShader := Draw.fontSdfShader m_shared m_resources
  let rSdfRecord := Draw.rSdfRecord m_shared m_resources
  let normalMesh := Draw.normalMesh helper vertexElementIndex framework m_shared m_resources
    m_positionsScratchpad
  let sdfMesh := Draw.sdfMesh helper vertexElementIndex framework m_shared m_resources
    m_positionsScratchpad
  let normalScaled := Draw.normalScaledMesh helper vertexElementIndex framework m_shared
    m_resources m_positionsScratchpad
  let sdfScaled := Draw.sdfScaledMesh helper vertexElementIndex framework m_shared m_resources
    m_positionsScratchpad
  let normal : ExampleRecord Pos Cfg Vtx :=
    { m_resources.Normal with Mesh := normalMesh.Mesh, ScaledMesh := normalScaled.Mesh }
  let sdf : ExampleRecord Pos Cfg Vtx :=
    { rSdfRecord with Mesh := sdfMesh.Mesh, ScaledMesh := sdfScaled.Mesh }
  let resources : FrameResources Pos Cfg Vtx :=
    if fontDrawConfig.SdfType = SdfType.Sdf then
      { m_resources with Normal := normal, Sdf := sdf }
    else { m_resources with Normal := normal, Mtsdf := sdf }
  { Resources := resources,
    Positions := sdfScaled.Positions,
    Meshes := DrawMeshes ndebug invalidLocation resources fontDrawConfig fontSdfShader }

end Frame

/-! ## A small concrete font, used to run the functions on concrete inputs -/

namespace Sample

/-- Write `src` over the front of the span `dst`. -/
def overwrite {α : Type} (dst src : List α) : List α :=
  src.take dst.length ++ dst.drop src.length

/-- Glyph positions of a fixed-pitch font, eight pixels per glyph at scale one: the x offset
of every character, written into `dst`; fails when `dst` is too small. -/
def extract (scale : Nat) (dst : List Int) (str : StringViewLite) : Bool × List Int :=
  if str.length ≤ dst.length then
    (true, overwrite dst ((List.range str.length).map (fun i => 8 * (scale : Int) * (i : Int))))
  else (false, dst)

/-- Four corner positions per glyph, written into `dst`. -/
def generateVertices (dst : List (Int × Int)) (p : PxPoint2) (ps : List Int) (_z : F32)
    (_sz : PxSize2D) : List (Int × Int) :=
  overwrite dst (ps.flatMap (fun x =>
    [(p.X + x, p.Y), (p.X + x + 8, p.Y), (p.X + x, p.Y + 8), (p.X + x + 8, p.Y + 8)]))

/-- Six indices per glyph, written into `dst`. -/
def generateIndices (dst : List Nat) (ps : List Int) : List Nat :=
  overwrite dst ((List.range ps.length).flatMap (fun i =>
    [4 * i, 4 * i + 1, 4 * i + 2, 4 * i + 2, 4 * i + 1, 4 * i + 3]))

/-- The sample font: the two-argument overload lays out at scale one, the three-argument
overload at the scale of the font config `(scale, kerning)`. -/
def font : TextureAtlasSpriteFont Int (Nat × Bool) where
  ExtractRenderRules := fun dst str => extract 1 dst str
  ExtractRenderRulesCfg := fun dst str cfg => extract cfg.1 dst str
  GetSdfParams := { DistanceRange := F32.one }
  span_size := by
    intro dst str
    show (extract 1 dst str).2.length = dst.length
    unfold extract overwrite
    by_cases h : str.length ≤ dst.length
    · simp only [h, if_true, List.length_append, List.length_take, List.length_drop]
      omega
    · simp only [h, if_false]
  span_size_cfg := by
    intro dst str cfg
    show (extract cfg.1 dst str).2.length = dst.length
    unfold extract overwrite
    by_cases h : str.length ≤ dst.length
    · simp only [h, if_true, List.length_append, List.length_take, List.length_drop]
      omega
    · simp only [h, if_false]

/-- The sample font with a 256 x 128 atlas texture. -/
def fontRecord : FontRecord Int (Nat × Bool) :=
  { Texture := { Get := 7, GetSize := { RawWidth := 256, RawHeight := 128 } }, Font := font }

/-- The sample helpers. -/
def helper : AppHelper Int (Int × Int) where
  GenerateVertices := generateVertices
  GenerateIndices := generateIndices
  vertices_size := by
    intro dst p ps z sz
    simp only [generateVertices, overwrite, List.length_append, List.length_take,
      List.length_drop]
    omega
  indices_size := by
    intro dst ps
    simp only [generateIndices, overwrite, List.length_append, List.length_take,
      List.length_drop]
    omega

/-- Vertex element indices of a position-texture vertex. -/
def vertexElementIndex : VertexElementUsage → Nat → Int
  | VertexElementUsage.Position, _ => 0
  | VertexElementUsage.TextureCoordinate, _ => 1

/-- Initial values for a new mesh. -/
def init : MeshInit :=
  { VBName := 1, IBName := 2, AttribLink := (⟨-1, -1⟩, ⟨-1, -1⟩), CachedShader := 0 }

/-- A shader with every optional uniform present. -/
def shader : ShaderRecord :=
  { Program := { Get := 3, GetAttribLocation := fun _ => 0, TryGetAttribLocation := fun _ => 1 },
    Location := { OutlineDistance := 0, ProjMatrix := 1, Smoothing := 2, ShadowOffset := 3,
                  ShadowSmoothing := 4, ContourScale := 5, Texture := 6 } }

/-- A shader with no optional uniform (the plain text shader). -/
def shaderPlain : ShaderRecord :=
  { Program := { Get := 4, GetAttribLocation := fun _ => 0, TryGetAttribLocation := fun _ => 1 },
    Location := { OutlineDistance := -1, ProjMatrix := 1, Smoothing := -1, ShadowOffset := -1,
                  ShadowSmoothing := -1, ContourScale := -1, Texture := 6 } }

/-- The mesh of the two-character text `Hi` at the origin, font config of scale one. -/
def mesh : MeshRecord (Nat × Bool) (Int × Int) :=
  (GenerateMesh helper init ⟨0, 0⟩ fontRecord (1, true) ['H', 'i'] []).1

/-- A draw config: scale 1, outline distance 0.5, shadow offset (1, 1), shadow smoothing
0.25, contour scale 1. -/
def drawConfig : FontDrawConfig :=
  { FontScale := F32.one, OutlineDistance := F32.half, ShadowOffset := ⟨F32.one, F32.one⟩,
    ShadowSmoothing := F32.quarter, ContourScale := F32.one, SdfType := SdfType.Sdf }

/-- The draw config with font scale 2. -/
def drawConfigTwo : FontDrawConfig :=
  { drawConfig with FontScale := F32.fin false ⟨1073741824, by decide⟩ }

/-- The draw config with shadow offset `(2^-149, 2^-149)`, the least positive value. -/
def drawConfigTiny : FontDrawConfig :=
  { drawConfig with ShadowOffset := ⟨F32.fin false ⟨1, by decide⟩, F32.fin false ⟨1, by decide⟩⟩ }

/-- The sample font record with a font whose distance range is NaN. -/
def fontRecordNaN : FontRecord Int (Nat × Bool) :=
  { fontRecord with Font := { font with GetSdfParams := { DistanceRange := F32.nan } } }

/-- The sample font record with a font whose distance range is `2^127`. -/
def fontRecordHuge : FontRecord Int (Nat × Bool) :=
  { fontRecord with
    Font := { font with GetSdfParams := { DistanceRange := F32.fin false ⟨2130706432, by decide⟩ } } }

/-- The sample mesh after one frame drawn at scale two with the sample shader. -/
def meshDrawn : MeshRecord (Nat × Bool) (Int × Int) :=
  (RegenerateMeshOnDemand helper vertexElementIndex mesh ⟨0, 0⟩ shader fontRecord (2, true)
    ['H', 'i'] []).Mesh

/-- The outline shader of the sample: its program assigns the attribute locations 2 and 3. -/
def shaderOutline : ShaderRecord :=
  { Program := { Get := 5, GetAttribLocation := fun _ => 2, TryGetAttribLocation := fun _ => 3 },
    Location := { OutlineDistance := 0, ProjMatrix := 1, Smoothing := 2, ShadowOffset := -1,
                  ShadowSmoothing := -1, ContourScale := -1, Texture := 6 } }

/-- A shader family with its own outline shader. -/
def shaders : FontShaderRecord :=
  { Normal := shader, Outline := shaderOutline, Shadow := shader, ShadowAndOutline := shader,
    Contours := shader }

/-- The mesh of `TextLine0` as `PrepareExample` creates it. -/
def textMesh : MeshRecord (Nat × Bool) (Int × Int) :=
  (GenerateMesh helper init ⟨0, 0⟩ fontRecord (1, true) LocalConfig.TextLine0 []).1

/-- An example record of the sample font. -/
def exampleRecord : ExampleRecord Int (Nat × Bool) (Int × Int) :=
  { Font := fontRecord, Mesh := textMesh, ScaledMesh := textMesh }

/-- The resources of the sample application: the plain shader for normal text. -/
def resources : FrameResources Int (Nat × Bool) (Int × Int) :=
  { ShadersSdf := shaders, ShadersMtsdf := shaders, ShaderNormal := shaderPlain,
    Normal := exampleRecord, Sdf := exampleRecord, Mtsdf := exampleRecord, Projection := [] }

/-- The framework operations of the sample: line spacing 10, font configs of scale 1 or 2. -/
def framework : DrawFramework Int (Nat × Bool) :=
  { LineSpacingPx := fun _ => 10,
    ScalePx := fun px _ => px,
    BitmapFontConfig := fun scale kerning => (if F32.eq scale F32.one then 1 else 2, kerning) }

/-- The shared state of a frame in outline mode with an SDF font. -/
def shared : Shared :=
  { GetContentOffset := ⟨0, 0⟩, GetFontDrawConfig := drawConfig,
    GetSdfMode := SdfFontMode.Outline, GetKerningEnabled := true }

/-- The draw config with outline distance `2^-149`, the least positive value, and shadow
smoothing `3 * 2^-149`. -/
def drawConfigLeast : FontDrawConfig :=
  { drawConfig with OutlineDistance := F32.fin false ⟨1, by decide⟩,
                    ShadowSmoothing := F32.fin false ⟨3, by decide⟩ }

/-- The scale the sample font lays out with for a `BitmapFontConfig`: one for a scale equal
to `1.0f`, two for any other. -/
def pitch (cfg : BitmapFontConfig) : Nat := if F32.eq cfg.Scale F32.one then 1 else 2

/-- The sample font taking a `BitmapFontConfig` as its font config. -/
def fontBitmap : TextureAtlasSpriteFont Int BitmapFontConfig where
  ExtractRenderRules := fun dst str => extract 1 dst str
  ExtractRenderRulesCfg := fun dst str cfg => extract (pitch cfg) dst str
  GetSdfParams := { DistanceRange := F32.one }
  span_size := by
    intro dst str
    show (extract 1 dst str).2.length = dst.length
    unfold extract overwrite
    by_cases h : str.length ≤ dst.length
    · simp only [h, if_true, List.length_append, List.length_take, List.length_drop]
      omega
    · simp only [h, if_false]
  span_size_cfg := by
    intro dst str cfg
    show (extract (pitch cfg) dst str).2.length = dst.length
    unfold extract overwrite
    by_cases h : str.length ≤ dst.length
    · simp only [h, if_true, List.length_append, List.length_take, List.length_drop]
      omega
    · simp only [h, if_false]

/-- The sample font record over `BitmapFontConfig`, with the 256 x 128 atlas texture. -/
def fontRecordBitmap : FontRecord Int BitmapFontConfig :=
  { Texture := fontRecord.Texture, Font := fontBitmap }

/-- The font config `BitmapFontConfig(1.0f, true)`. -/
def configOne : BitmapFontConfig := { Scale := F32.one, Kerning := true }

/-- The font config `BitmapFontConfig(2.0f, true)`. -/
def configTwo : BitmapFontConfig :=
  { Scale := F32.fin false ⟨1073741824, by decide⟩, Kerning := true }

/-- A font config whose scale is NaN. -/
def configNaN : BitmapFontConfig := { Scale := F32.nan, Kerning := true }

/-- The mesh of the text `Hi` at the origin for the font over `BitmapFontConfig`. -/
def meshBitmap : MeshRecord BitmapFontConfig (Int × Int) :=
  (GenerateMesh helper init ⟨0, 0⟩ fontRecordBitmap configOne ['H', 'i'] []).1

/-- The first frame of the sample application. -/
def frame : Frame Int (Nat × Bool) (Int × Int) :=
  Draw true (-1) helper vertexElementIndex framework shared resources []

end Sample

/-! ## Mesh regeneration on demand (C1 - C3) -/

section Regenerate

variable {Pos Cfg Vtx : Type} [Inhabited Pos] [BEq Cfg]

/-- On a cache hit the function returns at once. -/
theorem regenerate_hit (helper : AppHelper Pos Vtx)
    (vertexElementIndex : VertexElementUsage → Nat → Int) (rMeshRecord : MeshRecord Cfg Vtx)
    (dstPositionPx : PxPoint2) (shader : ShaderRecord) (fontRecord : FontRecord Pos Cfg)
    (fontConfig : Cfg) (strView : StringViewLite) (rPositionsScratchpad : List Pos)
    (hOffset : rMeshRecord.Offset = dstPositionPx)
    (hConfig : (rMeshRecord.FontConfig == fontConfig) = true)
    (hShader : rMeshRecord.CachedShader = shader.Program.Get) :
    RegenerateMeshOnDemand helper vertexElementIndex rMeshRecord dstPositionPx shader fontRecord
      fontConfig strView rPositionsScratchpad
      = { Mesh := rMeshRecord, Positions := rPositionsScratchpad, Uploads := [] } := by
  simp [RegenerateMeshOnDemand, hOffset, hConfig, hShader]

/-- After any call the cached position and shader handle are those of the call, and the
cached font config compares equal to that of the call when that compares equal to itself. -/
theorem regenerate_key (helper : AppHelper Pos Vtx)
    (vertexElementIndex : VertexElementUsage → Nat → Int) (rMeshRecord : MeshRecord Cfg Vtx)
    (dstPositionPx : PxPoint2) (shader : ShaderRecord) (fontRecord : FontRecord Pos Cfg)
    (fontConfig : Cfg) (strView : StringViewLite) (rPositionsScratchpad : List Pos) :
    let out := RegenerateMeshOnDemand helper vertexElementIndex rMeshRecord dstPositionPx shader
      fontRecord fontConfig strView rPositionsScratchpad
    out.Mesh.Offset = dstPositionPx
      ∧ ((fontConfig == fontConfig) = true → (out.Mesh.FontConfig == fontConfig) = true)
      ∧ out.Mesh.CachedShader = shader.Program.Get := by
  intro out
  by_cases h : rMeshRecord.Offset = dstPositionPx
      ∧ (rMeshRecord.FontConfig == fontConfig) = true
      ∧ rMeshRecord.CachedShader = shader.Program.Get
  · obtain ⟨h1, h2, h3⟩ := h
    have e := regenerate_hit helper vertexElementIndex rMeshRecord dstPositionPx shader
      fontRecord fontConfig strView rPositionsScratchpad h1 h2 h3
    simp only [out, e, h1, h2, h3, and_self, implies_true]
  · have hc : ¬ (rMeshRecord.Offset = dstPositionPx
        ∧ (rMeshRecord.FontConfig == fontConfig) = true
        ∧ (rMeshRecord.CachedShader != shader.Program.Get) = false) := by
      simpa using h
    simp only [out, RegenerateMeshOnDemand, hc, if_false, and_self, imp_self]

/-- C1: a call of `RegenerateMeshOnDemand` in which the cached Offset equals `dstPositionPx`,
the cached FontConfig equals `fontConfig` (under its `operator==`) and CachedShader equals
the shader program handle changes nothing: the whole mesh record (Offset, FontConfig,
CachedShader, Vertices, AttribLink, and the two buffers) and the positions scratchpad are as
before, and no vertex data is handed to `VB.SetData`. -/
theorem regenerateMeshOnDemand_hit_changes_nothing (helper : AppHelper Pos Vtx)
    (vertexElementIndex : VertexElementUsage → Nat → Int) (rMeshRecord : MeshRecord Cfg Vtx)
    (dstPositionPx : PxPoint2) (shader : ShaderRecord) (fontRecord : FontRecord Pos Cfg)
    (fontConfig : Cfg) (strView : StringViewLite) (rPositionsScratchpad : List Pos)
    (hOffset : rMeshRecord.Offset = dstPositionPx)
    (hConfig : (rMeshRecord.FontConfig == fontConfig) = true)
    (hShader : rMeshRecord.CachedShader = shader.Program.Get) :
    (RegenerateMeshOnDemand helper vertexElementIndex rMeshRecord dstPositionPx shader
        fontRecord fontConfig strView rPositionsScratchpad).Mesh = rMeshRecord
    ∧ (RegenerateMeshOnDemand helper vertexElementIndex rMeshRecord dstPositionPx shader
        fontRecord fontConfig strView rPositionsScratchpad).Positions = rPositionsScratchpad
    ∧ (RegenerateMeshOnDemand helper vertexElementIndex rMeshRecord dstPositionPx shader
        fontRecord fontConfig strView rPositionsScratchpad).Uploads = [] := by
  rw [regenerate_hit helper vertexElementIndex rMeshRecord dstPositionPx shader fontRecord
    fontConfig strView rPositionsScratchpad hOffset hConfig hShader]
  exact ⟨rfl, rfl, rfl⟩

/-- C1 at the sample mesh drawn a second time with the same position, config and shader. -/
theorem regenerateMeshOnDemand_hit_changes_nothing_witness :
    (Sample.meshDrawn.Offset = ⟨0, 0⟩ ∧ (Sample.meshDrawn.FontConfig == (2, true)) = true
      ∧ Sample.meshDrawn.CachedShader = Sample.shader.Program.Get)
    ∧ ((RegenerateMeshOnDemand Sample.helper Sample.vertexElementIndex Sample.meshDrawn ⟨0, 0⟩
          Sample.shader Sample.fontRecord (2, true) ['H', 'i'] [0, 16]).Mesh = Sample.meshDrawn
      ∧ (RegenerateMeshOnDemand Sample.helper Sample.vertexElementIndex Sample.meshDrawn ⟨0, 0⟩
          Sample.shader Sample.fontRecord (2, true) ['H', 'i'] [0, 16]).Positions = [0, 16]
      ∧ (RegenerateMeshOnDemand Sample.helper Sample.vertexElementIndex Sample.meshDrawn ⟨0, 0⟩
          Sample.shader Sample.fontRecord (2, true) ['H', 'i'] [0, 16]).Uploads = []) :=
  ⟨by decide,
   regenerateMeshOnDemand_hit_changes_nothing Sample.helper Sample.vertexElementIndex
     Sample.meshDrawn ⟨0, 0⟩ Sample.shader Sample.fontRecord (2, true) ['H', 'i'] [0, 16]
     (by decide) (by decide) (by decide)⟩

/-- C2: a call of `RegenerateMeshOnDemand` in which the position, the font config or the shader
program handle differs from the cached one regenerates the vertices (over the old vertex array)
from the new position and the glyph positions extracted with the new font config, hands them
to `VB.SetData` at index 0, and leaves Offset, FontConfig and CachedShader equal to the
position, font config and shader program handle of the call. -/
theorem regenerateMeshOnDemand_miss_regenerates (helper : AppHelper Pos Vtx)
    (vertexElementIndex : VertexElementUsage → Nat → Int) (rMeshRecord : MeshRecord Cfg Vtx)
    (dstPositionPx : PxPoint2) (shader : ShaderRecord) (fontRecord : FontRecord Pos Cfg)
    (fontConfig : Cfg) (strView : StringViewLite) (rPositionsScratchpad : List Pos)
    (hDiffers : rMeshRecord.Offset ≠ dstPositionPx ∨ (rMeshRecord.FontConfig == fontConfig) = false
      ∨ rMeshRecord.CachedShader ≠ shader.Program.Get) :
    let out := RegenerateMeshOnDemand helper vertexElementIndex rMeshRecord dstPositionPx shader
      fontRecord fontConfig strView rPositionsScratchpad
    let rules := fontRecord.Font.ExtractRenderRulesCfg
      (growScratchpad strView.length rPositionsScratchpad) strView fontConfig
    out.Mesh.Vertices = helper.GenerateVertices rMeshRecord.Vertices dstPositionPx
        (rules.2.take (if rules.1 then strView.length else 0)) LocalConfig.DefaultZPos
        fontRecord.Texture.GetSize
    ∧ out.Uploads = [out.Mesh.Vertices]
    ∧ out.Mesh.VB = rMeshRecord.VB.SetData 0 out.Mesh.Vertices
    ∧ out.Mesh.Offset = dstPositionPx
    ∧ out.Mesh.FontConfig = fontConfig
    ∧ out.Mesh.CachedShader = shader.Program.Get := by
  intro out rules
  have hc : ¬ (rMeshRecord.Offset = dstPositionPx ∧ (rMeshRecord.FontConfig == fontConfig) = true
      ∧ (rMeshRecord.CachedShader != shader.Program.Get) = false) := by
    intro h
    obtain ⟨h1, h2, h3⟩ := h
    have h3' : rMeshRecord.CachedShader = shader.Program.Get := by simpa using h3
    rcases hDiffers with h | h | h
    · exact h h1
    · exact Bool.noConfusion (h2.symm.trans h)
    · exact h h3'
  simp only [out, rules, RegenerateMeshOnDemand, hc, if_false, and_self]

/-- C2 at the sample mesh, first drawn at scale two. -/
theorem regenerateMeshOnDemand_miss_regenerates_witness :
    (Sample.mesh.Offset ≠ ⟨0, 0⟩ ∨ (Sample.mesh.FontConfig == (2, true)) = false
      ∨ Sample.mesh.CachedShader ≠ Sample.shader.Program.Get)
    ∧ (let out := RegenerateMeshOnDemand Sample.helper Sample.vertexElementIndex Sample.mesh
        ⟨0, 0⟩ Sample.shader Sample.fontRecord (2, true) ['H', 'i'] []
      let rules := Sample.fontRecord.Font.ExtractRenderRulesCfg
        (growScratchpad (['H', 'i'] : StringViewLite).length []) ['H', 'i'] (2, true)
      out.Mesh.Vertices = Sample.helper.GenerateVertices Sample.mesh.Vertices ⟨0, 0⟩
          (rules.2.take (if rules.1 then (['H', 'i'] : StringViewLite).length else 0))
          LocalConfig.DefaultZPos Sample.fontRecord.Texture.GetSize
      ∧ out.Uploads = [out.Mesh.Vertices]
      ∧ out.Mesh.VB = Sample.mesh.VB.SetData 0 out.Mesh.Vertices
      ∧ out.Mesh.Offset = ⟨0, 0⟩
      ∧ out.Mesh.FontConfig = (2, true)
      ∧ out.Mesh.CachedShader = Sample.shader.Program.Get) :=
  ⟨by decide,
   regenerateMeshOnDemand_miss_regenerates Sample.helper Sample.vertexElementIndex Sample.mesh
     ⟨0, 0⟩ Sample.shader Sample.fontRecord (2, true) ['H', 'i'] [] (by decide)⟩

/-- The operator `==` on floats holds of a value and itself unless the value is NaN. -/
theorem F32.eq_self (x : F32) : F32.eq x x = !F32.isNaN x := by
  cases x with
  | nan => rfl
  | inf s => simp [F32.eq, F32.key, F32.isNaN]
  | fin s m => simp [F32.eq, F32.key, F32.isNaN]

/-- No float is equal to NaN. -/
theorem F32.eq_nan (x : F32) : F32.eq x F32.nan = false := by
  cases x <;> rfl

/-- Amended C3: `RegenerateMeshOnDemand` is idempotent for every font config that compares
equal to itself under `operator==`: a second call with the same position, shader, font, font
config and text, made on the state the first call left, leaves the mesh record and the
scratchpad as the first call left them and hands no vertex data to `VB.SetData`.  A
`BitmapFontConfig` compares equal to itself exactly when its scale is not NaN, and every call
with a `BitmapFontConfig` whose scale is NaN regenerates and uploads the vertices. -/
theorem regenerateMeshOnDemand_idempotent (helper : AppHelper Pos Vtx)
    (vertexElementIndex : VertexElementUsage → Nat → Int) (rMeshRecord : MeshRecord Cfg Vtx)
    (dstPositionPx : PxPoint2) (shader : ShaderRecord) (fontRecord : FontRecord Pos Cfg)
    (fontConfig : Cfg) (strView : StringViewLite) (rPositionsScratchpad : List Pos)
    (hSelf : (fontConfig == fontConfig) = true) :
    (let once := RegenerateMeshOnDemand helper vertexElementIndex rMeshRecord dstPositionPx
      shader fontRecord fontConfig strView rPositionsScratchpad
    let twice := RegenerateMeshOnDemand helper vertexElementIndex once.Mesh dstPositionPx
      shader fontRecord fontConfig strView once.Positions
    twice.Mesh = once.Mesh ∧ twice.Positions = once.Positions ∧ twice.Uploads = [])
    ∧ (∀ c : BitmapFontConfig, (c == c) = true ↔ F32.isNaN c.Scale = false)
    ∧ (∀ (mesh : MeshRecord BitmapFontConfig Vtx) (dst : PxPoint2) (shaderRecord : ShaderRecord)
        (font : FontRecord Pos BitmapFontConfig) (c : BitmapFontConfig) (str : StringViewLite)
        (scratchpad : List Pos), F32.isNaN c.Scale = true →
        (RegenerateMeshOnDemand helper vertexElementIndex mesh dst shaderRecord font c str
            scratchpad).Uploads
          = [(RegenerateMeshOnDemand helper vertexElementIndex mesh dst shaderRecord font c str
              scratchpad).Mesh.Vertices]
        ∧ (RegenerateMeshOnDemand helper vertexElementIndex mesh dst shaderRecord font c str
            scratchpad).Uploads ≠ []) := by
  refine ⟨?_, ?_, ?_⟩
  · intro once twice
    obtain ⟨h1, h2, h3⟩ := regenerate_key helper vertexElementIndex rMeshRecord dstPositionPx
      shader fontRecord fontConfig strView rPositionsScratchpad
    have e := regenerate_hit helper vertexElementIndex once.Mesh dstPositionPx shader
      fontRecord fontConfig strView once.Positions h1 (h2 hSelf) h3
    simp only [twice, e, and_self]
  · intro c
    show (F32.eq c.Scale c.Scale && c.Kerning == c.Kerning) = true ↔ _
    rw [F32.eq_self]
    cases F32.isNaN c.Scale <;> simp
  · intro mesh dst shaderRecord font c str scratchpad hNaN
    have hc : c.Scale = F32.nan := by
      cases hs : c.Scale with
      | nan => rfl
      | inf n => rw [hs] at hNaN; exact Bool.noConfusion hNaN
      | fin n m => rw [hs] at hNaN; exact Bool.noConfusion hNaN
    have hne : (mesh.FontConfig == c) = false := by
      show (F32.eq mesh.FontConfig.Scale c.Scale && mesh.FontConfig.Kerning == c.Kerning)
        = false
      rw [hc, F32.eq_nan, Bool.false_and]
    have hg : ¬ (mesh.Offset = dst ∧ (mesh.FontConfig == c) = true
        ∧ (mesh.CachedShader != shaderRecord.Program.Get) = false) := by
      rintro ⟨_, h2, _⟩
      exact Bool.noConfusion (h2.symm.trans hne)
    simp only [RegenerateMeshOnDemand, hg, if_false, ne_eq, List.cons_ne_nil,
      not_false_eq_true, and_self]

/-- Amended C3 at the sample mesh and the font config `BitmapFontConfig(2.0f, true)`. -/
theorem regenerateMeshOnDemand_idempotent_witness :
    (Sample.configTwo == Sample.configTwo) = true
    ∧ (let once := RegenerateMeshOnDemand Sample.helper Sample.vertexElementIndex
          Sample.meshBitmap ⟨0, 0⟩ Sample.shader Sample.fontRecordBitmap Sample.configTwo
          ['H', 'i'] []
        let twice := RegenerateMeshOnDemand Sample.helper Sample.vertexElementIndex once.Mesh
          ⟨0, 0⟩ Sample.shader Sample.fontRecordBitmap Sample.configTwo ['H', 'i']
          once.Positions
        twice.Mesh = once.Mesh ∧ twice.Positions = once.Positions ∧ twice.Uploads = []) :=
  ⟨by decide,
   (regenerateMeshOnDemand_idempotent Sample.helper Sample.vertexElementIndex Sample.meshBitmap
     ⟨0, 0⟩ Sample.shader Sample.fontRecordBitmap Sample.configTwo ['H', 'i'] []
     (by decide)).1⟩

/-- C3 fails as stated: a font config whose scale is NaN does not compare equal to itself, so
the second of two calls with the same arguments does not find the cached config equal: it
regenerates the vertices and hands them to `VB.SetData` again. -/
theorem regenerateMeshOnDemand_nan_regenerates_again :
    (Sample.configNaN == Sample.configNaN) = false
    ∧ (RegenerateMeshOnDemand Sample.helper Sample.vertexElementIndex
        (RegenerateMeshOnDemand Sample.helper Sample.vertexElementIndex Sample.meshBitmap
          ⟨0, 0⟩ Sample.shader Sample.fontRecordBitmap Sample.configNaN ['H', 'i'] []).Mesh
        ⟨0, 0⟩ Sample.shader Sample.fontRecordBitmap Sample.configNaN ['H', 'i']
        (RegenerateMeshOnDemand Sample.helper Sample.vertexElementIndex Sample.meshBitmap
          ⟨0, 0⟩ Sample.shader Sample.fontRecordBitmap Sample.configNaN ['H', 'i']
          []).Positions).Uploads
      = [[(0, 0), (8, 0), (0, 8), (8, 8), (16, 0), (24, 0), (16, 8), (24, 8)]]
    ∧ (RegenerateMeshOnDemand Sample.helper Sample.vertexElementIndex
        (RegenerateMeshOnDemand Sample.helper Sample.vertexElementIndex Sample.meshBitmap
          ⟨0, 0⟩ Sample.shader Sample.fontRecordBitmap Sample.configNaN ['H', 'i'] []).Mesh
        ⟨0, 0⟩ Sample.shader Sample.fontRecordBitmap Sample.configNaN ['H', 'i']
        (RegenerateMeshOnDemand Sample.helper Sample.vertexElementIndex Sample.meshBitmap
          ⟨0, 0⟩ Sample.shader Sample.fontRecordBitmap Sample.configNaN ['H', 'i']
          []).Positions).Uploads
      ≠ [] := by
  decide

end Regenerate

/-! ## Shader selection and mesh generation (C4, C5) -/

/-- C4: `SelectShaderRecord` is defined for every `SdfType` and every `SdfFontMode`, and
returns the record of the family chosen by the type (`ShadersSdf` for `Sdf`, `ShadersMtsdf`
for every other type): `Outline`, `Shadow`, `ShadowAndOutline` and `Contours` for the modes of
the same name, `Normal` for every other mode. -/
theorem selectShaderRecord_mapping (m_resources : Resources) (fontSdfMode : SdfFontMode)
    (fontSdfType : SdfType) :
    ∃ shaders : FontShaderRecord,
      (fontSdfType = SdfType.Sdf → shaders = m_resources.ShadersSdf)
      ∧ (fontSdfType ≠ SdfType.Sdf → shaders = m_resources.ShadersMtsdf)
      ∧ (fontSdfMode = SdfFontMode.Outline →
          SelectShaderRecord m_resources fontSdfMode fontSdfType = shaders.Outline)
      ∧ (fontSdfMode = SdfFontMode.Shadow →
          SelectShaderRecord m_resources fontSdfMode fontSdfType = shaders.Shadow)
      ∧ (fontSdfMode = SdfFontMode.ShadowAndOutline →
          SelectShaderRecord m_resources fontSdfMode fontSdfType = shaders.ShadowAndOutline)
      ∧ (fontSdfMode = SdfFontMode.Contours →
          SelectShaderRecord m_resources fontSdfMode fontSdfType = shaders.Contours)
      ∧ (fontSdfMode ≠ SdfFontMode.Outline → fontSdfMode ≠ SdfFontMode.Shadow →
          fontSdfMode ≠ SdfFontMode.ShadowAndOutline → fontSdfMode ≠ SdfFontMode.Contours →
          SelectShaderRecord m_resources fontSdfMode fontSdfType = shaders.Normal) := by
  refine ⟨if fontSdfType = SdfType.Sdf then m_resources.ShadersSdf
    else m_resources.ShadersMtsdf, ?_, ?_, ?_, ?_, ?_, ?_, ?_⟩
  · intro h
    simp only [h, if_true]
  · intro h
    simp only [h, if_false]
  · intro h
    subst h
    rfl
  · intro h
    subst h
    rfl
  · intro h
    subst h
    rfl
  · intro h
    subst h
    rfl
  · intro h1 h2 h3 h4
    cases fontSdfMode with
    | Outline => exact absurd rfl h1
    | Shadow => exact absurd rfl h2
    | ShadowAndOutline => exact absurd rfl h3
    | Contours => exact absurd rfl h4
    | Other raw => rfl

/-- C5: for a text of `n` characters `GenerateMesh` returns a mesh whose vertex list has
exactly `4 * n` entries and whose index buffer has exactly `6 * n` entries, whatever
`ExtractRenderRules` reports. -/
theorem generateMesh_sizes {Pos Cfg Vtx : Type} [Inhabited Pos] [Inhabited Vtx]
    (helper : AppHelper Pos Vtx) (init : MeshInit) (dstPositionPx : PxPoint2)
    (fontRecord : FontRecord Pos Cfg) (fontConfig : Cfg) (strView : StringViewLite)
    (rPositionsScratchpad : List Pos) :
    (GenerateMesh helper init dstPositionPx fontRecord fontConfig strView
        rPositionsScratchpad).1.Vertices.length = 4 * strView.length
    ∧ (GenerateMesh helper init dstPositionPx fontRecord fontConfig strView
        rPositionsScratchpad).1.IB.GetGLCapacity = 6 * strView.length := by
  constructor
  · simp only [GenerateMesh, helper.vertices_size, List.length_replicate]
    omega
  · simp only [GenerateMesh, GLIndexBuffer.GetGLCapacity, helper.indices_size,
      List.length_replicate]
    omega

/-! ## Uniforms set by `DrawTextMesh` (C6) -/

/-- C6: a call of `DrawTextMesh` is aborted only by a failing assertion; otherwise, for each
of the optional uniforms OutlineDistance, Smoothing, ShadowOffset, ShadowSmoothing and
ContourScale a value is sent to the location of that uniform if and only if the location is
not `InvalidLocation`, while the projection matrix and the texture unit 0 are sent always. -/
theorem drawTextMesh_conditional_uniforms {Pos Cfg Vtx : Type} (ndebug : Bool)
    (invalidLocation : Int) (mesh : MeshRecord Cfg Vtx) (fontRecord : FontRecord Pos Cfg)
    (shader : ShaderRecord) (projection : Matrix) (fontDrawConfig : FontDrawConfig) :
    (DrawTextMesh ndebug invalidLocation mesh fontRecord shader projection fontDrawConfig = none
      ↔ (ndebug = false ∧ (shader.Location.ProjMatrix = invalidLocation
          ∨ shader.Location.Texture = invalidLocation)))
    ∧ ∀ calls, DrawTextMesh ndebug invalidLocation mesh fontRecord shader projection
        fontDrawConfig = some calls →
      ((∃ v, GLCall.Uniform1f shader.Location.OutlineDistance v ∈ calls)
          ↔ shader.Location.OutlineDistance ≠ invalidLocation)
      ∧ ((∃ v, GLCall.Uniform1f shader.Location.Smoothing v ∈ calls)
          ↔ shader.Location.Smoothing ≠ invalidLocation)
      ∧ ((∃ x y, GLCall.Uniform2f shader.Location.ShadowOffset x y ∈ calls)
          ↔ shader.Location.ShadowOffset ≠ invalidLocation)
      ∧ ((∃ v, GLCall.Uniform1f shader.Location.ShadowSmoothing v ∈ calls)
          ↔ shader.Location.ShadowSmoothing ≠ invalidLocation)
      ∧ ((∃ v, GLCall.Uniform1f shader.Location.ContourScale v ∈ calls)
          ↔ shader.Location.ContourScale ≠ invalidLocation)
      ∧ GLCall.UniformMatrix4fv shader.Location.ProjMatrix projection ∈ calls
      ∧ GLCall.Uniform1i shader.Location.Texture 0 ∈ calls := by
  constructor
  · unfold DrawTextMesh
    split <;> simp_all
  · intro calls h
    unfold DrawTextMesh at h
    split at h
    · exact absurd h (by simp)
    · injection h with h
      subst h
      simp only [List.mem_append, List.mem_cons, List.mem_singleton, List.mem_ite_nil_right,
        List.not_mem_nil, GLCall.Uniform1f.injEq, GLCall.Uniform2f.injEq,
        GLCall.UniformMatrix4fv.injEq, GLCall.Uniform1i.injEq, reduceCtorEq, false_or, or_false,
        and_false, false_and, and_self, true_or, or_true, and_true, true_and]
      refine ⟨⟨?_, fun h => ⟨_, Or.inl (Or.inl (Or.inl ⟨h, rfl⟩))⟩⟩,
        ⟨?_, fun h => ⟨_, Or.inl (Or.inl (Or.inr ⟨h, rfl⟩))⟩⟩,
        ⟨?_, fun h => ⟨_, _, h, rfl, rfl⟩⟩,
        ⟨?_, fun h => ⟨_, Or.inl (Or.inr ⟨h, rfl⟩)⟩⟩,
        ⟨?_, fun h => ⟨_, Or.inr ⟨h, rfl⟩⟩⟩⟩
      · rintro ⟨v, ((h | h) | h) | h⟩
        · exact h.1
        · rw [h.2.1]; exact h.1
        · rw [h.2.1]; exact h.1
        · rw [h.2.1]; exact h.1
      · rintro ⟨v, ((h | h) | h) | h⟩
        · rw [h.2.1]; exact h.1
        · exact h.1
        · rw [h.2.1]; exact h.1
        · rw [h.2.1]; exact h.1
      · rintro ⟨x, y, h⟩
        exact h.1
      · rintro ⟨v, ((h | h) | h) | h⟩
        · rw [h.2.1]; exact h.1
        · rw [h.2.1]; exact h.1
        · exact h.1
        · rw [h.2.1]; exact h.1
      · rintro ⟨v, ((h | h) | h) | h⟩
        · rw [h.2.1]; exact h.1
        · rw [h.2.1]; exact h.1
        · rw [h.2.1]; exact h.1
        · exact h.1

/-! ## Rounding lemmas -/

/-- The arithmetic on known values: `0.5 * 3 = 1.5`, `1 / 3 = 0x3EAAAAAB`,
`1 / 10 = 0x3DCCCCCD`, `(float)16777217 = 16777216`, `(float)(-3) = -3`, the largest finite
value squared is infinite, half the least positive value is zero, and `0 / 0` is NaN. -/
theorem F32.arithmetic_samples :
    F32.mul F32.half (F32.fin false ⟨1077936128, by decide⟩) = F32.fin false ⟨1069547520, by decide⟩
    ∧ F32.div F32.one (F32.fin false ⟨1077936128, by decide⟩)
        = F32.fin false ⟨1051372203, by decide⟩
    ∧ F32.div F32.one (F32.fin false ⟨1092616192, by decide⟩)
        = F32.fin false ⟨1036831949, by decide⟩
    ∧ F32.ofInt32 16777217 = F32.fin false ⟨1266679808, by decide⟩
    ∧ F32.ofInt32 (-3) = F32.fin true ⟨1077936128, by decide⟩
    ∧ F32.mul (F32.fin false ⟨2139095039, by decide⟩) (F32.fin false ⟨2139095039, by decide⟩)
        = F32.inf false
    ∧ F32.mul F32.half (F32.fin false ⟨1, by decide⟩) = F32.zero
    ∧ F32.div F32.zero F32.zero = F32.nan := by
  decide

/-- Floor division is monotone along the order of fractions. -/
theorem div_le_div_of_cross {N D N' D' : Nat} (hD : 0 < D) (hD' : 0 < D')
    (h : N * D' ≤ N' * D) : N / D ≤ N' / D' := by
  rw [Nat.le_div_iff_mul_le hD']
  have h1 : N / D * D ≤ N := Nat.div_mul_le_self N D
  have h2 : N / D * D' * D ≤ N' * D := by
    calc N / D * D' * D = N / D * D * D' := by ring
      _ ≤ N * D' := Nat.mul_le_mul_right _ h1
      _ ≤ N' * D := h
  exact Nat.le_of_mul_le_mul_right h2 hD

theorem le_rne (N D : Nat) : N / D ≤ rne N D := by
  unfold rne
  split
  · exact le_rfl
  · split <;> omega

theorem rne_le_succ (N D : Nat) : rne N D ≤ N / D + 1 := by
  unfold rne
  split
  · omega
  · split <;> omega

/-- A multiple is rounded to itself. -/
theorem rne_mul_self (M D : Nat) (hD : 0 < D) : rne (M * D) D = M := by
  unfold rne
  have h1 : M * D % D = 0 := Nat.mul_mod_left M D
  have h2 : M * D / D = M := Nat.mul_div_cancel M hD
  simp only [h1, h2, Nat.mul_zero, hD, if_true]

/-- Rounding a fraction does not depend on a common factor. -/
theorem rne_mul_left (k a b : Nat) (hk : 0 < k) : rne (k * a) (k * b) = rne a b := by
  unfold rne
  have e : 2 * (k * a % (k * b)) = k * (2 * (a % b)) := by
    rw [Nat.mul_mod_mul_left]
    ring
  rw [e, Nat.mul_div_mul_left _ _ hk]
  simp only [Nat.mul_lt_mul_left hk]

/-- Half of a count, rounded to nearest even, is within one half of the exact half. -/
theorem rne_two_bounds (m : Nat) : 2 * rne m 2 ≤ m + 1 ∧ m ≤ 2 * rne m 2 + 1 := by
  unfold rne
  split
  · omega
  · split <;> omega

/-- Rounding to nearest is monotone along the order of fractions. -/
theorem rne_mono {N D N' D' : Nat} (hD : 0 < D) (hD' : 0 < D') (h : N * D' ≤ N' * D) :
    rne N D ≤ rne N' D' := by
  have hq : N / D ≤ N' / D' := div_le_div_of_cross hD hD' h
  rcases Nat.lt_or_eq_of_le hq with hlt | heq
  · calc rne N D ≤ N / D + 1 := rne_le_succ N D
      _ ≤ N' / D' := hlt
      _ ≤ rne N' D' := le_rne N' D'
  · have e1 : D * (N / D) + N % D = N := Nat.div_add_mod N D
    have e2 : D' * (N' / D') + N' % D' = N' := Nat.div_add_mod N' D'
    have r1 : N % D < D := Nat.mod_lt N hD
    have r2 : N' % D' < D' := Nat.mod_lt N' hD'
    have hr : N % D * D' ≤ N' % D' * D := by
      have h' : (D * (N / D) + N % D) * D' ≤ (D' * (N' / D') + N' % D') * D := by
        rw [e1, e2]; exact h
      rw [← heq] at h'
      nlinarith
    unfold rne
    rw [← heq]
    by_cases c1 : 2 * (N % D) < D
    · simp only [c1, if_true]
      split
      · exact le_rfl
      · split <;> omega
    · simp only [c1, if_false]
      have c1' : D ≤ 2 * (N % D) := Nat.le_of_not_lt c1
      have k : D' * D ≤ 2 * (N' % D') * D := by nlinarith
      have k' : D' ≤ 2 * (N' % D') := Nat.le_of_mul_le_mul_right k hD
      by_cases c2 : D < 2 * (N % D)
      · have k2 : D' * D < 2 * (N' % D') * D := by nlinarith
        have k2' : D' < 2 * (N' % D') := Nat.lt_of_mul_lt_mul_right k2
        have n1 : ¬ 2 * (N' % D') < D' := by omega
        simp only [c2, if_true, n1, if_false, k2', le_refl]
      · simp only [c2, if_false]
        have n1 : ¬ 2 * (N' % D') < D' := by omega
        simp only [n1, if_false]
        split <;> omega

theorem roundMagAux_lower (fuel : Nat) : ∀ (j N D : Nat), 0 < D →
    8388608 ≤ N / (D * 2 ^ j) → j * 8388608 + 8388608 ≤ roundMagAux fuel j N D := by
  induction fuel with
  | zero =>
    intro j N D _ _
    exact le_rfl
  | succ fuel ih =>
    intro j N D hD h
    unfold roundMagAux
    split
    · have := le_rne N (D * 2 ^ j)
      omega
    · rename_i hbig
      have h2 : 8388608 ≤ N / (D * 2 ^ (j + 1)) := by
        rw [pow_succ, ← Nat.mul_assoc, ← Nat.div_div_eq_div_mul]
        omega
      have := ih (j + 1) N D hD h2
      omega

/-- The rounded magnitude is monotone along the order of fractions. -/
theorem roundMagAux_mono (fuel : Nat) : ∀ (j N D N' D' : Nat), 0 < D → 0 < D' →
    N * D' ≤ N' * D → roundMagAux fuel j N D ≤ roundMagAux fuel j N' D' := by
  induction fuel with
  | zero =>
    intro j N D N' D' _ _ _
    exact le_rfl
  | succ fuel ih =>
    intro j N D N' D' hD hD' h
    have hp : 0 < 2 ^ j := Nat.two_pow_pos _
    have hDj : 0 < D * 2 ^ j := Nat.mul_pos hD hp
    have hDj' : 0 < D' * 2 ^ j := Nat.mul_pos hD' hp
    have hc : N * (D' * 2 ^ j) ≤ N' * (D * 2 ^ j) := by
      calc N * (D' * 2 ^ j) = N * D' * 2 ^ j := by ring
        _ ≤ N' * D * 2 ^ j := Nat.mul_le_mul_right _ h
        _ = N' * (D * 2 ^ j) := by ring
    have hq : N / (D * 2 ^ j) ≤ N' / (D' * 2 ^ j) := div_le_div_of_cross hDj hDj' hc
    unfold roundMagAux
    by_cases c1 : N / (D * 2 ^ j) < 16777216
    · simp only [c1, if_true]
      by_cases c2 : N' / (D' * 2 ^ j) < 16777216
      · simp only [c2, if_true]
        have := rne_mono hDj hDj' hc
        omega
      · simp only [c2, if_false]
        have h2 : 8388608 ≤ N' / (D' * 2 ^ (j + 1)) := by
          rw [pow_succ, ← Nat.mul_assoc, ← Nat.div_div_eq_div_mul]
          omega
        have l := roundMagAux_lower fuel (j + 1) N' D' hD' h2
        have u := rne_le_succ N (D * 2 ^ j)
        omega
    · have c2 : ¬ N' / (D' * 2 ^ j) < 16777216 := by omega
      simp only [c1, c2, if_false]
      exact ih (j + 1) N D N' D' hD hD' h

theorem roundMag_mono {N D N' D' : Nat} (hD : 0 < D) (hD' : 0 < D') (h : N * D' ≤ N' * D) :
    roundMag N D ≤ roundMag N' D' :=
  roundMagAux_mono 255 0 N D N' D' hD hD' h

/-- The search passes every quantum that is too fine and stops at the binade of the value. -/
theorem roundMagAux_exact (M D : Nat) (hD : 0 < D) (hM1 : 8388608 ≤ M) (hM2 : M < 16777216) :
    ∀ (k j fuel : Nat), k < fuel →
      roundMagAux fuel j (M * 2 ^ (j + k) * D) D = (j + k) * 8388608 + M := by
  intro k
  induction k with
  | zero =>
    intro j fuel hf
    obtain ⟨f, rfl⟩ : ∃ f, fuel = f + 1 := ⟨fuel - 1, by omega⟩
    have e : M * 2 ^ (j + 0) * D = M * (D * 2 ^ j) := by simp only [Nat.add_zero]; ring
    have hDj : 0 < D * 2 ^ j := Nat.mul_pos hD (Nat.two_pow_pos _)
    unfold roundMagAux
    rw [e, Nat.mul_div_cancel M hDj, rne_mul_self M _ hDj]
    simp only [hM2, if_true, Nat.add_zero]
  | succ k ih =>
    intro j fuel hf
    obtain ⟨f, rfl⟩ : ∃ f, fuel = f + 1 := ⟨fuel - 1, by omega⟩
    have hDj : 0 < D * 2 ^ j := Nat.mul_pos hD (Nat.two_pow_pos _)
    have e : M * 2 ^ (j + (k + 1)) * D = M * 2 ^ (k + 1) * (D * 2 ^ j) := by
      rw [pow_add]; ring
    have hbig : ¬ M * 2 ^ (j + (k + 1)) * D / (D * 2 ^ j) < 16777216 := by
      rw [e, Nat.mul_div_cancel _ hDj, pow_succ]
      have : 1 ≤ 2 ^ k := Nat.one_le_two_pow
      nlinarith
    unfold roundMagAux
    simp only [hbig, if_false]
    have := ih (j + 1) f (by omega)
    have e2 : j + 1 + k = j + (k + 1) := by omega
    rw [e2] at this
    exact this

theorem scaled_of_small {m : Nat} (h : m < 16777216) : scaled m = m := by
  unfold scaled
  split
  · omega
  · have : m / 8388608 = 1 := by omega
    rw [this]
    omega

/-- Rounding the value of a bit pattern gives the bit pattern back. -/
theorem roundMag_scaled (m D : Nat) (hD : 0 < D) (hm : m < 2139095040) :
    roundMag (scaled m * D) D = m := by
  by_cases hs : m < 16777216
  · rw [scaled_of_small hs]
    unfold roundMag roundMagAux
    simp only [pow_zero, Nat.mul_one]
    rw [Nat.mul_div_cancel m hD, rne_mul_self m _ hD]
    simp only [hs, if_true]
    omega
  · have hE : m / 8388608 ≠ 0 := by omega
    have h := roundMagAux_exact (8388608 + m % 8388608) D hD (by omega) (by omega)
      (m / 8388608 - 1) 0 255 (by omega)
    unfold roundMag
    unfold scaled
    simp only [hE, if_false]
    simp only [Nat.zero_add] at h
    rw [h]
    omega

theorem scaled_mono {a b : Nat} (h : a ≤ b) : scaled a ≤ scaled b := by
  unfold scaled
  have hE : a / 8388608 ≤ b / 8388608 := Nat.div_le_div_right h
  by_cases ha : a / 8388608 = 0
  · simp only [ha, if_true]
    by_cases hb : b / 8388608 = 0
    · simp only [hb, if_true]
      omega
    · simp only [hb, if_false]
      have h1 : 1 ≤ 2 ^ (b / 8388608 - 1) := Nat.one_le_two_pow
      have h2 : a % 8388608 < 8388608 := Nat.mod_lt _ (by decide)
      calc a % 8388608 ≤ 8388608 * 1 := by omega
        _ ≤ (8388608 + b % 8388608) * 2 ^ (b / 8388608 - 1) :=
            Nat.mul_le_mul (by omega) h1
  · have hb : b / 8388608 ≠ 0 := by omega
    simp only [ha, hb, if_false]
    rcases Nat.lt_or_eq_of_le hE with hlt | heq
    · have e : b / 8388608 - 1 = (a / 8388608 - 1) + (b / 8388608 - a / 8388608) := by omega
      rw [e, pow_add]
      have h2 : 2 ≤ 2 ^ (b / 8388608 - a / 8388608) := by
        calc 2 = 2 ^ 1 := rfl
          _ ≤ 2 ^ (b / 8388608 - a / 8388608) := Nat.pow_le_pow_right (by decide) (by omega)
      have : a % 8388608 < 8388608 := Nat.mod_lt _ (by decide)
      have hp : 0 < 2 ^ (a / 8388608 - 1) := Nat.two_pow_pos _
      calc (8388608 + a % 8388608) * 2 ^ (a / 8388608 - 1)
          ≤ (8388608 * 2) * 2 ^ (a / 8388608 - 1) := Nat.mul_le_mul_right _ (by omega)
        _ = 8388608 * (2 ^ (a / 8388608 - 1) * 2) := by ring
        _ ≤ 8388608 * (2 ^ (a / 8388608 - 1) * 2 ^ (b / 8388608 - a / 8388608)) :=
            Nat.mul_le_mul_left _ (Nat.mul_le_mul_left _ h2)
        _ ≤ (8388608 + b % 8388608) * (2 ^ (a / 8388608 - 1) * 2 ^ (b / 8388608 - a / 8388608)) :=
            Nat.mul_le_mul_right _ (by omega)
    · rw [← heq]
      exact Nat.mul_le_mul_right _ (by omega)

theorem scaled_pos {m : Nat} (h : 0 < m) : 0 < scaled m := by
  have := scaled_mono (show 1 ≤ m from h)
  have e : scaled 1 = 1 := by decide
  omega

theorem scaled_lt (m : Nat) (hm : m < 2139095040) : scaled m < 2 ^ 128 * 2 ^ 149 := by
  have h := scaled_mono (show m ≤ 2139095039 by omega)
  have e : scaled 2139095039 < 2 ^ 128 * 2 ^ 149 := by decide
  omega

namespace F32

theorem gt_zero_iff (x : F32) :
    gt x zero = true ↔ x = inf false ∨ ∃ m, x = fin false m ∧ 0 < m.val := by
  cases x with
  | nan => simp [gt, lt, key, zero]
  | inf s => cases s <;> simp [gt, lt, key, zero]
  | fin s m =>
    cases s
    · simp [gt, lt, key, zero]
    · simp only [gt, lt, key, zero, if_true]
      simp

theorem lt_zero_iff (x : F32) :
    lt x zero = true ↔ x = inf true ∨ ∃ m, x = fin true m ∧ 0 < m.val := by
  cases x with
  | nan => simp [lt, key, zero]
  | inf s => cases s <;> simp [lt, key, zero]
  | fin s m =>
    cases s
    · simp only [lt, key, zero]
      simp
    · simp [lt, key, zero]

theorem key_ofMag (s : Bool) (r : Nat) :
    key (ofMag s r) = some (if s then -((min r 2139095040 : Nat) : Int)
      else ((min r 2139095040 : Nat) : Int)) := by
  unfold ofMag
  split
  · rename_i h
    simp only [key, Nat.min_eq_left (Nat.le_of_lt h)]
  · rename_i h
    have h' : 2139095040 ≤ r := Nat.le_of_not_lt h
    simp only [key, Nat.min_eq_right h']
    cases s <;> simp

theorem key_zero : key zero = some 0 := rfl

theorem le_zero_ofMag (r : Nat) : le zero (ofMag false r) = true := by
  unfold le
  rw [key_ofMag, key_zero]
  simp

theorem le_ofMag_zero (r : Nat) : le (ofMag true r) zero = true := by
  unfold le
  rw [key_ofMag, key_zero]
  simp

theorem lt_zero_ofMag {r : Nat} (h : 0 < r) : lt zero (ofMag false r) = true := by
  unfold lt
  rw [key_ofMag, key_zero]
  simp
  omega

theorem lt_ofMag_zero {r : Nat} (h : 0 < r) : lt (ofMag true r) zero = true := by
  unfold lt
  rw [key_ofMag, key_zero]
  simp
  omega

theorem le_ofMag_ofMag {a b : Nat} (h : a ≤ b) : le (ofMag false a) (ofMag false b) = true := by
  unfold le
  rw [key_ofMag, key_ofMag]
  simp
  omega

theorem lt_false_of_le_zero {x : F32} (h : le zero x = true) : lt x zero = false := by
  cases x with
  | nan => simp [lt, key]
  | inf s => cases s <;> simp_all [lt, le, key, zero]
  | fin s m =>
    cases s
    · simp [lt, key, zero]
    · simp only [lt, le, key, zero] at h ⊢
      simp at h ⊢
      omega

theorem scaled_double {m : Nat} (h : 16777216 ≤ m) : scaled m = scaled (m - 8388608) * 2 := by
  have e1 : (m - 8388608) / 8388608 = m / 8388608 - 1 := by omega
  have e2 : (m - 8388608) % 8388608 = m % 8388608 := by omega
  have n1 : m / 8388608 ≠ 0 := by omega
  have n2 : m / 8388608 - 1 ≠ 0 := by omega
  unfold scaled
  simp only [e1, e2, n1, n2, if_false]
  have e3 : m / 8388608 - 1 = (m / 8388608 - 1 - 1) + 1 := by omega
  rw [e3, pow_succ]
  simp only [Nat.add_sub_cancel]
  ring

/-- Times one half below `2^-125`: the count of units of `2^-149` is halved and rounded to
nearest, a tie going to the even count. -/
theorem mul_half_small (m : Fin 2139095040) (h : m.val < 16777216) :
    mul half (fin false m) = ofMag false (rne m.val 2) := by
  have e : scaled 1056964608 = 2 ^ 148 := by decide
  have e2 : scaled 1056964608 * scaled m.val = 2 ^ 148 * m.val := by
    rw [e, scaled_of_small h]
  have e3 : (2 : Nat) ^ 149 * 2 ^ 0 = 2 ^ 148 * 2 := by norm_num
  have hlt : 2 ^ 148 * m.val / (2 ^ 148 * 2) < 16777216 := by
    rw [Nat.mul_div_mul_left _ _ (Nat.two_pow_pos 148)]
    omega
  have hr : roundMag (2 ^ 148 * m.val) (2 ^ 149) = rne m.val 2 := by
    unfold roundMag roundMagAux
    rw [e3]
    simp only [hlt, if_true, Nat.zero_mul, Nat.zero_add]
    exact rne_mul_left _ _ _ (Nat.two_pow_pos 148)
  simp only [mul, half, Bool.xor_false, e2, hr]

/-- Times one half is exact when the value is at least `2^-125`: the exponent field drops
by one. -/
theorem mul_half_exact (m : Fin 2139095040) (h : 16777216 ≤ m.val) :
    mul half (fin false m) = fin false ⟨m.val - 8388608, by omega⟩ := by
  have e : scaled 1056964608 = 2 ^ 148 := by decide
  have e2 : scaled 1056964608 * scaled m.val = scaled (m.val - 8388608) * 2 ^ 149 := by
    rw [e, scaled_double h]
    ring
  have hm : m.val - 8388608 < 2139095040 := by omega
  simp only [mul, half, Bool.xor_false, e2, roundMag_scaled _ _ (Nat.two_pow_pos 149) hm, ofMag,
    hm, dif_pos]

end F32

/-! ## Uniform values derived by `DrawTextMesh` (C7 - C9) -/

/-- Half of a positive value is not negative and not NaN. -/
theorem F32.le_zero_mul_half {x : F32} (h : F32.gt x F32.zero = true) :
    F32.le F32.zero (F32.mul F32.half x) = true := by
  rcases (F32.gt_zero_iff x).1 h with rfl | ⟨m, rfl, _⟩
  · decide
  · simp only [F32.mul, F32.half, Bool.xor_false]
    exact F32.le_zero_ofMag _

theorem F32.le_zero_zero : F32.le F32.zero F32.zero = true := by decide

/-- Amended C7: the outline distance `DrawTextMesh` derives is the binary32 product
`0.5f * OutlineDistance` when `OutlineDistance > 0` and `0` otherwise, the shadow smoothing
is derived from `ShadowSmoothing` by the same rule, and neither value is negative (nor NaN).
The product is exactly half the configured value when that is at least `2^-125` (and
infinite when that is infinite); below `2^-125` it is the half rounded to a multiple of
`2^-149`, a tie going to the even multiple, so it is within `2^-150` of the half.  These are
the values sent when the uniform is present. -/
theorem drawTextMesh_outline_shadowSmoothing_halved (fontDrawConfig : FontDrawConfig) :
    (F32.gt fontDrawConfig.OutlineDistance F32.zero = true →
      DrawTextMesh.outlineDistance fontDrawConfig
        = F32.mul F32.half fontDrawConfig.OutlineDistance)
    ∧ (F32.gt fontDrawConfig.OutlineDistance F32.zero = false →
      DrawTextMesh.outlineDistance fontDrawConfig = F32.zero)
    ∧ (F32.gt fontDrawConfig.ShadowSmoothing F32.zero = true →
      DrawTextMesh.shadowSmoothing fontDrawConfig
        = F32.mul F32.half fontDrawConfig.ShadowSmoothing)
    ∧ (F32.gt fontDrawConfig.ShadowSmoothing F32.zero = false →
      DrawTextMesh.shadowSmoothing fontDrawConfig = F32.zero)
    ∧ F32.le F32.zero (DrawTextMesh.outlineDistance fontDrawConfig) = true
    ∧ F32.lt (DrawTextMesh.outlineDistance fontDrawConfig) F32.zero = false
    ∧ F32.le F32.zero (DrawTextMesh.shadowSmoothing fontDrawConfig) = true
    ∧ F32.lt (DrawTextMesh.shadowSmoothing fontDrawConfig) F32.zero = false
    ∧ (∀ m : Fin 2139095040, 16777216 ≤ m.val →
        ∀ q : ℚ, F32.toRat (F32.fin false m) = some q →
          F32.toRat (F32.mul F32.half (F32.fin false m)) = some (q / 2))
    ∧ F32.mul F32.half (F32.inf false) = F32.inf false
    ∧ (∀ m : Fin 2139095040, m.val < 16777216 →
        ∃ r : Fin 2139095040, F32.mul F32.half (F32.fin false m) = F32.fin false r
          ∧ r.val = rne m.val 2 ∧ scaled r.val = rne (scaled m.val) 2
          ∧ 2 * scaled r.val ≤ scaled m.val + 1 ∧ scaled m.val ≤ 2 * scaled r.val + 1
          ∧ (∀ q : ℚ, F32.toRat (F32.fin false m) = some q →
              ∃ p : ℚ, F32.toRat (F32.mul F32.half (F32.fin false m)) = some p
                ∧ |p - q / 2| ≤ 1 / 2 ^ 150))
    ∧ (∀ (Pos Cfg Vtx : Type) (ndebug : Bool) (invalidLocation : Int)
        (mesh : MeshRecord Cfg Vtx) (fontRecord : FontRecord Pos Cfg) (shader : ShaderRecord)
        (projection : Matrix) (calls : List GLCall),
        DrawTextMesh ndebug invalidLocation mesh fontRecord shader projection fontDrawConfig
          = some calls →
        (shader.Location.OutlineDistance ≠ invalidLocation →
          GLCall.Uniform1f shader.Location.OutlineDistance
            (DrawTextMesh.outlineDistance fontDrawConfig) ∈ calls)
        ∧ (shader.Location.ShadowSmoothing ≠ invalidLocation →
          GLCall.Uniform1f shader.Location.ShadowSmoothing
            (DrawTextMesh.shadowSmoothing fontDrawConfig) ∈ calls)) := by
  have ho : F32.le F32.zero (DrawTextMesh.outlineDistance fontDrawConfig) = true := by
    unfold DrawTextMesh.outlineDistance
    split
    · rename_i h
      exact F32.le_zero_mul_half h
    · exact F32.le_zero_zero
  have hs : F32.le F32.zero (DrawTextMesh.shadowSmoothing fontDrawConfig) = true := by
    unfold DrawTextMesh.shadowSmoothing
    split
    · rename_i h
      exact F32.le_zero_mul_half h
    · exact F32.le_zero_zero
  refine ⟨?_, ?_, ?_, ?_, ho, F32.lt_false_of_le_zero ho, hs, F32.lt_false_of_le_zero hs, ?_,
    by decide, ?_, ?_⟩
  · intro h
    simp only [DrawTextMesh.outlineDistance, h, if_true]
  · intro h
    simp [DrawTextMesh.outlineDistance, h]
  · intro h
    simp only [DrawTextMesh.shadowSmoothing, h, if_true]
  · intro h
    simp [DrawTextMesh.shadowSmoothing, h]
  · intro m hm q hq
    rw [F32.mul_half_exact m hm]
    simp only [F32.toRat, Option.some.injEq] at hq ⊢
    rw [← hq, F32.scaled_double hm]
    push_cast
    ring
  · intro m hm
    have hb := rne_two_bounds m.val
    have hr : rne m.val 2 < 2139095040 := by omega
    have hs : scaled (rne m.val 2) = rne m.val 2 := scaled_of_small (by omega)
    have hm' : scaled m.val = m.val := scaled_of_small hm
    refine ⟨⟨rne m.val 2, hr⟩, ?_, rfl, ?_, ?_, ?_, ?_⟩
    · rw [F32.mul_half_small m hm]
      simp only [F32.ofMag, hr, dif_pos]
    · simp only [hs, hm']
    · simp only [hs, hm']
      exact hb.1
    · simp only [hs, hm']
      exact hb.2
    · intro q hq
      refine ⟨(rne m.val 2 : ℚ) / 2 ^ 149, ?_, ?_⟩
      · rw [F32.mul_half_small m hm]
        simp only [F32.ofMag, hr, dif_pos, F32.toRat, hs]
        simp
      · simp only [F32.toRat, Option.some.injEq, hm'] at hq
        have h1 : (2 : ℚ) * (rne m.val 2 : ℚ) ≤ (m.val : ℚ) + 1 := by exact_mod_cast hb.1
        have h2 : (m.val : ℚ) ≤ 2 * (rne m.val 2 : ℚ) + 1 := by exact_mod_cast hb.2
        have e : (rne m.val 2 : ℚ) / 2 ^ 149 - q / 2
            = (2 * (rne m.val 2 : ℚ) - (m.val : ℚ)) / 2 ^ 150 := by
          rw [← hq]
          simp only [Bool.false_eq_true, if_false, one_mul]
          rw [show (2 : ℚ) ^ 150 = 2 ^ 149 * 2 by norm_num]
          field_simp
          ring
        rw [e, abs_div, abs_of_pos (by positivity : (0 : ℚ) < 2 ^ 150)]
        apply (div_le_div_iff_of_pos_right (by positivity : (0 : ℚ) < 2 ^ 150)).2
        rw [abs_le]
        constructor <;> linarith
  · intro Pos Cfg Vtx ndebug invalidLocation mesh fontRecord shader projection calls h
    unfold DrawTextMesh at h
    split at h
    · exact absurd h (by simp)
    · injection h with h
      subst h
      constructor
      · intro hne
        simp [hne]
      · intro hne
        simp [hne]

/-- C7 fails as stated: the outline distance `2^-149` is greater than 0 and the value derived
from it is `0`, not its half `2^-150`; the shadow smoothing `3 * 2^-149` gives `2 * 2^-149`,
not `1.5 * 2^-149`; and these are the values sent. -/
theorem drawTextMesh_outlineDistance_not_half :
    F32.gt Sample.drawConfigLeast.OutlineDistance F32.zero = true
    ∧ DrawTextMesh.outlineDistance Sample.drawConfigLeast = F32.zero
    ∧ F32.toRat Sample.drawConfigLeast.OutlineDistance = some (1 / 2 ^ 149)
    ∧ F32.toRat (DrawTextMesh.outlineDistance Sample.drawConfigLeast) = some 0
    ∧ F32.gt Sample.drawConfigLeast.ShadowSmoothing F32.zero = true
    ∧ DrawTextMesh.shadowSmoothing Sample.drawConfigLeast = F32.fin false ⟨2, by decide⟩
    ∧ F32.toRat Sample.drawConfigLeast.ShadowSmoothing = some (3 / 2 ^ 149)
    ∧ F32.toRat (DrawTextMesh.shadowSmoothing Sample.drawConfigLeast) = some (2 / 2 ^ 149)
    ∧ (DrawTextMesh true (-1) Sample.mesh Sample.fontRecord Sample.shader []
          Sample.drawConfigLeast).map
        (fun calls => calls.filter (fun call => decide (call = GLCall.Uniform1f 0 F32.zero)
          || decide (call = GLCall.Uniform1f 4 (F32.fin false ⟨2, by decide⟩))))
      = some [GLCall.Uniform1f 0 F32.zero, GLCall.Uniform1f 4 (F32.fin false ⟨2, by decide⟩)] := by
  have ho : DrawTextMesh.outlineDistance Sample.drawConfigLeast = F32.zero := by decide
  have hs : DrawTextMesh.shadowSmoothing Sample.drawConfigLeast
      = F32.fin false ⟨2, by decide⟩ := by decide
  have s1 : scaled 1 = 1 := by decide
  have s2 : scaled 2 = 2 := by decide
  have s3 : scaled 3 = 3 := by decide
  have s0 : scaled 0 = 0 := by decide
  refine ⟨by decide, ho, ?_, ?_, by decide, hs, ?_, ?_, by decide⟩
  · simp [Sample.drawConfigLeast, F32.toRat, s1]
  · rw [ho]
    simp [F32.zero, F32.toRat, s0]
  · show some ((if false = true then (-1 : ℚ) else 1) * ((scaled 3 : ℕ) : ℚ) / 2 ^ 149) = _
    rw [s3]
    norm_num
  · rw [hs]
    simp [F32.toRat, s2]

/-- The spread `std::max(d, 1.0f)` of a distance range that is not NaN is at least one. -/
theorem F32.max_one_cases {d : F32} (h : F32.isNaN d = false) :
    F32.max d F32.one = F32.inf false
      ∨ ∃ m, F32.max d F32.one = F32.fin false m ∧ 1065353216 ≤ m.val := by
  cases d with
  | nan => simp [F32.isNaN] at h
  | inf s =>
    cases s
    · left
      decide
    · right
      exact ⟨⟨1065353216, by decide⟩, by decide, le_rfl⟩
  | fin s m =>
    by_cases hlt : F32.lt (F32.fin s m) F32.one = true
    · right
      refine ⟨⟨1065353216, by decide⟩, ?_, le_rfl⟩
      simp only [F32.max, hlt, if_true]
      rfl
    · right
      cases s
      · refine ⟨m, ?_, ?_⟩
        · simp only [F32.max, hlt, if_false]
          simp
        · simp only [F32.lt, F32.key, F32.one] at hlt
          simp at hlt
          omega
      · exfalso
        apply hlt
        simp only [F32.lt, F32.key, F32.one]
        simp
        omega

theorem F32.scaled_one : scaled 1065353216 = 2 ^ 149 := by decide

theorem F32.scaled_quarter : scaled 1048576000 = 2 ^ 147 := by decide

/-- A finite product of a spread of at least one and a positive scale. -/
theorem F32.spread_mul_cases {s f : F32}
    (hs : s = F32.inf false ∨ ∃ m, s = F32.fin false m ∧ 1065353216 ≤ m.val)
    (hf : F32.gt f F32.zero = true) (hfin : F32.isFinite (F32.mul s f) = true) :
    ∃ (n r : Fin 2139095040), f = F32.fin false n ∧ F32.mul s f = F32.fin false r
      ∧ 0 < n.val ∧ n.val ≤ r.val := by
  rcases (F32.gt_zero_iff f).1 hf with rfl | ⟨n, rfl, hn⟩
  · rcases hs with rfl | ⟨m, rfl, hm⟩
    · simp [F32.mul, F32.isFinite] at hfin
    · have : m.val ≠ 0 := by omega
      simp [F32.mul, F32.isFinite, this] at hfin
  · rcases hs with rfl | ⟨m, rfl, hm⟩
    · have : n.val ≠ 0 := by omega
      simp [F32.mul, F32.isFinite, this] at hfin
    · have hmono : n.val ≤ roundMag (scaled m.val * scaled n.val) (2 ^ 149) := by
        have e := roundMag_scaled n.val (2 ^ 149) (Nat.two_pow_pos 149) n.isLt
        have h1 : scaled 1065353216 ≤ scaled m.val := scaled_mono hm
        rw [F32.scaled_one] at h1
        have h2 := @roundMag_mono (scaled n.val * 2 ^ 149) (2 ^ 149)
          (scaled m.val * scaled n.val) (2 ^ 149) (Nat.two_pow_pos 149) (Nat.two_pow_pos 149)
          (by
            have : scaled n.val * 2 ^ 149 ≤ scaled m.val * scaled n.val := by
              rw [Nat.mul_comm (scaled m.val)]
              exact Nat.mul_le_mul_left _ h1
            exact Nat.mul_le_mul_right _ this)
        omega
      simp only [F32.mul, Bool.xor_false, F32.ofMag] at hfin ⊢
      split at hfin
      · rename_i hr
        refine ⟨n, ⟨_, hr⟩, rfl, ?_, hn, hmono⟩
        simp only [hr, dif_pos]
      · simp [F32.isFinite] at hfin

/-- Amended C8: the smoothing `DrawTextMesh` derives is `0.25f / (max(DistanceRange, 1.0f) *
FontScale)` in binary32 arithmetic; for every font whose distance range is not NaN (be it
zero, negative or infinite) and every `FontScale > 0` for which the product is finite, the
divisor is at least `FontScale`, so positive and non-zero, and
`0 < smoothing <= 0.25f / FontScale`. -/
theorem drawTextMesh_smoothing_bounds {Pos Cfg : Type} (fontRecord : FontRecord Pos Cfg)
    (fontDrawConfig : FontDrawConfig)
    (hRange : F32.isNaN fontRecord.Font.GetSdfParams.DistanceRange = false)
    (hScale : F32.gt fontDrawConfig.FontScale F32.zero = true)
    (hFinite : F32.isFinite
      (F32.mul (F32.max fontRecord.Font.GetSdfParams.DistanceRange F32.one) fontDrawConfig.FontScale) = true) :
    DrawTextMesh.smoothing fontRecord fontDrawConfig
      = F32.div F32.quarter
          (F32.mul (F32.max fontRecord.Font.GetSdfParams.DistanceRange F32.one) fontDrawConfig.FontScale)
    ∧ F32.le fontDrawConfig.FontScale
        (F32.mul (F32.max fontRecord.Font.GetSdfParams.DistanceRange F32.one) fontDrawConfig.FontScale) = true
    ∧ F32.lt F32.zero
        (F32.mul (F32.max fontRecord.Font.GetSdfParams.DistanceRange F32.one) fontDrawConfig.FontScale) = true
    ∧ F32.ne
        (F32.mul (F32.max fontRecord.Font.GetSdfParams.DistanceRange F32.one) fontDrawConfig.FontScale)
        F32.zero = true
    ∧ F32.lt F32.zero (DrawTextMesh.smoothing fontRecord fontDrawConfig) = true
    ∧ F32.le (DrawTextMesh.smoothing fontRecord fontDrawConfig)
        (F32.div F32.quarter fontDrawConfig.FontScale) = true := by
  obtain ⟨n, r, hf, hp, hn, hnr⟩ :=
    F32.spread_mul_cases (F32.max_one_cases hRange) hScale hFinite
  have hr0 : r.val ≠ 0 := by omega
  have hn0 : n.val ≠ 0 := by omega
  have hsm : DrawTextMesh.smoothing fontRecord fontDrawConfig
      = F32.ofMag false (roundMag (scaled 1048576000 * 2 ^ 149) (scaled r.val)) := by
    simp only [DrawTextMesh.smoothing, DrawTextMesh.fontSdfSpread, hp, F32.div, F32.quarter,
      Bool.xor_false, hr0, if_false]
  have hbd : F32.div F32.quarter fontDrawConfig.FontScale
      = F32.ofMag false (roundMag (scaled 1048576000 * 2 ^ 149) (scaled n.val)) := by
    simp only [hf, F32.div, F32.quarter, Bool.xor_false, hn0, if_false]
  have hsr : 0 < scaled r.val := scaled_pos (by omega)
  have hsn : 0 < scaled n.val := scaled_pos hn
  refine ⟨rfl, ?_, ?_, ?_, ?_, ?_⟩
  · rw [hp, hf]
    simp only [F32.le, F32.key]
    simp
    omega
  · rw [hp]
    simp only [F32.lt, F32.key, F32.zero]
    simp
    omega
  · rw [hp]
    simp only [F32.ne, F32.eq, F32.key, F32.zero]
    simp
    omega
  · rw [hsm]
    apply F32.lt_zero_ofMag
    have h1 : roundMag 1 1 ≤ roundMag (scaled 1048576000 * 2 ^ 149) (scaled r.val) := by
      apply roundMag_mono (by decide) hsr
      rw [F32.scaled_quarter]
      have := scaled_lt r.val r.isLt
      have e : (2 : Nat) ^ 147 * 2 ^ 149 * 1 = 2 ^ 19 * (2 ^ 128 * 2 ^ 149) := by
        rw [Nat.mul_one, ← pow_add, ← pow_add, ← pow_add]
      rw [e]
      have : 1 ≤ (2 : Nat) ^ 19 := Nat.one_le_two_pow
      nlinarith
    have e1 : roundMag 1 1 = 1 := by decide
    omega
  · rw [hsm, hbd]
    apply F32.le_ofMag_ofMag
    apply roundMag_mono hsr hsn
    exact Nat.mul_le_mul_left _ (scaled_mono hnr)

/-- Amended C8 at the sample font (distance range 1) and font scale 2. -/
theorem drawTextMesh_smoothing_bounds_witness :
    (F32.isNaN Sample.fontRecord.Font.GetSdfParams.DistanceRange = false
      ∧ F32.gt Sample.drawConfigTwo.FontScale F32.zero = true
      ∧ F32.isFinite (F32.mul (F32.max Sample.fontRecord.Font.GetSdfParams.DistanceRange F32.one)
          Sample.drawConfigTwo.FontScale) = true)
    ∧ (DrawTextMesh.smoothing Sample.fontRecord Sample.drawConfigTwo
        = F32.div F32.quarter (F32.mul (F32.max Sample.fontRecord.Font.GetSdfParams.DistanceRange F32.one)
            Sample.drawConfigTwo.FontScale)
      ∧ F32.le Sample.drawConfigTwo.FontScale
          (F32.mul (F32.max Sample.fontRecord.Font.GetSdfParams.DistanceRange F32.one)
            Sample.drawConfigTwo.FontScale) = true
      ∧ F32.lt F32.zero
          (F32.mul (F32.max Sample.fontRecord.Font.GetSdfParams.DistanceRange F32.one)
            Sample.drawConfigTwo.FontScale) = true
      ∧ F32.ne
          (F32.mul (F32.max Sample.fontRecord.Font.GetSdfParams.DistanceRange F32.one)
            Sample.drawConfigTwo.FontScale) F32.zero = true
      ∧ F32.lt F32.zero (DrawTextMesh.smoothing Sample.fontRecord Sample.drawConfigTwo) = true
      ∧ F32.le (DrawTextMesh.smoothing Sample.fontRecord Sample.drawConfigTwo)
          (F32.div F32.quarter Sample.drawConfigTwo.FontScale) = true) :=
  ⟨by decide,
   drawTextMesh_smoothing_bounds Sample.fontRecord Sample.drawConfigTwo (by decide) (by decide)
     (by decide)⟩

/-- C8 fails as stated: with a NaN distance range the smoothing is NaN, and with distance
range `2^127` and font scale 2 the divisor overflows to infinity and the smoothing is zero;
in both cases `FontScale > 0` and `0 < smoothing` is false. -/
theorem drawTextMesh_smoothing_not_positive :
    F32.gt Sample.drawConfig.FontScale F32.zero = true
    ∧ DrawTextMesh.smoothing Sample.fontRecordNaN Sample.drawConfig = F32.nan
    ∧ F32.lt F32.zero (DrawTextMesh.smoothing Sample.fontRecordNaN Sample.drawConfig) = false
    ∧ F32.gt Sample.drawConfigTwo.FontScale F32.zero = true
    ∧ DrawTextMesh.smoothing Sample.fontRecordHuge Sample.drawConfigTwo = F32.zero
    ∧ F32.lt F32.zero (DrawTextMesh.smoothing Sample.fontRecordHuge Sample.drawConfigTwo)
        = false := by
  decide

/-- A positive 32-bit integer converts to a finite value between `1` and `2^31`. -/
theorem F32.ofInt32_cases {n : Int} (h0 : 0 < n) (h1 : n ≤ 2147483647) :
    ∃ w : Fin 2139095040, F32.ofInt32 n = F32.fin false w ∧ 1065353216 ≤ w.val
      ∧ w.val ≤ 1325400064 := by
  have hneg : decide (n < 0) = false := by simp; omega
  have hk1 : 1 ≤ n.natAbs := by omega
  have hk2 : n.natAbs ≤ 2147483648 := by omega
  have lo : roundMag (1 * 2 ^ 149) 1 ≤ roundMag (n.natAbs * 2 ^ 149) 1 :=
    roundMag_mono (by decide) (by decide)
      (Nat.mul_le_mul_right _ (Nat.mul_le_mul_right _ hk1))
  have hi : roundMag (n.natAbs * 2 ^ 149) 1 ≤ roundMag (2147483648 * 2 ^ 149) 1 :=
    roundMag_mono (by decide) (by decide)
      (Nat.mul_le_mul_right _ (Nat.mul_le_mul_right _ hk2))
  have e1 : roundMag (1 * 2 ^ 149) 1 = 1065353216 := by decide
  have e2 : roundMag (2147483648 * 2 ^ 149) 1 = 1325400064 := by decide
  have hr : roundMag (n.natAbs * 2 ^ 149) 1 < 2139095040 := by omega
  refine ⟨⟨roundMag (n.natAbs * 2 ^ 149) 1, hr⟩, ?_, by simp only; omega, by simp only; omega⟩
  simp only [F32.ofInt32, hneg, F32.ofMag, hr, dif_pos]

/-- The largest shadow shift `spread / size` is at least `2^-31`, or infinite. -/
theorem F32.div_spread_cases {s : F32} {w : Fin 2139095040}
    (hs : s = F32.inf false ∨ ∃ m, s = F32.fin false m ∧ 1065353216 ≤ m.val)
    (hw1 : 1065353216 ≤ w.val) (hw2 : w.val ≤ 1325400064) :
    F32.div s (F32.fin false w) = F32.inf false
      ∨ ∃ r : Fin 2139095040, F32.div s (F32.fin false w) = F32.fin false r
          ∧ 805306368 ≤ r.val := by
  rcases hs with rfl | ⟨m, rfl, hm⟩
  · left
    simp [F32.div]
  · have hw0 : w.val ≠ 0 := by omega
    have hsw : 0 < scaled w.val := scaled_pos (by omega)
    have hsd : 0 < scaled 1325400064 := scaled_pos (by decide)
    have hmono : roundMag (2 ^ 149 * 2 ^ 149) (scaled 1325400064)
        ≤ roundMag (scaled m.val * 2 ^ 149) (scaled w.val) := by
      apply roundMag_mono hsd hsw
      have h1 : scaled 1065353216 ≤ scaled m.val := scaled_mono hm
      rw [F32.scaled_one] at h1
      have h2 : scaled w.val ≤ scaled 1325400064 := scaled_mono hw2
      exact Nat.mul_le_mul (Nat.mul_le_mul_right _ h1) h2
    have e : roundMag (2 ^ 149 * 2 ^ 149) (scaled 1325400064) = 805306368 := by decide
    simp only [F32.div, Bool.xor_false, hw0, if_false, F32.ofMag]
    split
    · rename_i hr
      right
      exact ⟨⟨_, hr⟩, rfl, by simp only; omega⟩
    · left
      rfl

/-- The sign of `a * x` for a shift `a` of at least `2^-31`: the sign of `x`, and no
underflow to zero when `x` is at least `2^-118` in magnitude. -/
theorem F32.mul_shift_cases {a x : F32} (sgn : Bool)
    (ha : a = F32.inf false ∨ ∃ r : Fin 2139095040, a = F32.fin false r ∧ 805306368 ≤ r.val)
    (hx : x = F32.inf sgn ∨ ∃ n : Fin 2139095040, x = F32.fin sgn n ∧ 0 < n.val) :
    ∃ R : Nat, F32.mul a x = F32.ofMag sgn R
      ∧ ((x = F32.inf sgn ∨ ∃ n : Fin 2139095040, x = F32.fin sgn n ∧ 75497472 ≤ n.val)
          → 0 < R) := by
  have hinf : F32.inf sgn = F32.ofMag sgn 2139095040 := by
    simp [F32.ofMag]
  rcases ha with rfl | ⟨r, rfl, hr⟩
  · rcases hx with rfl | ⟨n, rfl, hn⟩
    · exact ⟨2139095040, by simp [F32.mul, hinf], fun _ => by decide⟩
    · have : n.val ≠ 0 := by omega
      exact ⟨2139095040, by simp [F32.mul, hinf, this], fun _ => by decide⟩
  · rcases hx with rfl | ⟨n, rfl, hn⟩
    · have : r.val ≠ 0 := by omega
      exact ⟨2139095040, by simp [F32.mul, hinf, this], fun _ => by decide⟩
    · refine ⟨roundMag (scaled r.val * scaled n.val) (2 ^ 149), by simp [F32.mul], ?_⟩
      intro h
      rcases h with h | ⟨n', h, hn'⟩
      · exact absurd h (by simp)
      · have hnn : n = n' := by
          injection h
        subst hnn
        have h1 : scaled 805306368 ≤ scaled r.val := scaled_mono hr
        have h2 : scaled 75497472 ≤ scaled n.val := scaled_mono hn'
        have hmono : roundMag (scaled 805306368 * scaled 75497472) (2 ^ 149)
            ≤ roundMag (scaled r.val * scaled n.val) (2 ^ 149) :=
          roundMag_mono (Nat.two_pow_pos 149) (Nat.two_pow_pos 149)
            (Nat.mul_le_mul_right _ (Nat.mul_le_mul h1 h2))
        have e : roundMag (scaled 805306368 * scaled 75497472) (2 ^ 149) = 1 := by decide
        omega

theorem F32.key_neg (x : F32) : F32.key (F32.neg x) = (F32.key x).map (fun k => -k) := by
  cases x with
  | nan => rfl
  | inf s => cases s <;> simp [F32.neg, F32.key]
  | fin s m => cases s <;> simp [F32.neg, F32.key]

theorem F32.le_neg_zero {x : F32} (h : F32.le F32.zero x = true) :
    F32.le (F32.neg x) F32.zero = true := by
  unfold F32.le at h ⊢
  rw [F32.key_neg, F32.key_zero] at *
  cases hk : F32.key x with
  | none => simp [hk] at h
  | some k =>
    simp only [hk, decide_eq_true_eq, Option.map_some'] at h ⊢
    omega

theorem F32.le_zero_neg {x : F32} (h : F32.le x F32.zero = true) :
    F32.le F32.zero (F32.neg x) = true := by
  unfold F32.le at h ⊢
  rw [F32.key_neg, F32.key_zero] at *
  cases hk : F32.key x with
  | none => simp [hk] at h
  | some k =>
    simp only [hk, decide_eq_true_eq, Option.map_some'] at h ⊢
    omega

theorem F32.lt_neg_zero {x : F32} (h : F32.lt F32.zero x = true) :
    F32.lt (F32.neg x) F32.zero = true := by
  unfold F32.lt at h ⊢
  rw [F32.key_neg, F32.key_zero] at *
  cases hk : F32.key x with
  | none => simp [hk] at h
  | some k =>
    simp only [hk, decide_eq_true_eq, Option.map_some'] at h ⊢
    omega

theorem F32.lt_zero_neg {x : F32} (h : F32.lt x F32.zero = true) :
    F32.lt F32.zero (F32.neg x) = true := by
  unfold F32.lt at h ⊢
  rw [F32.key_neg, F32.key_zero] at *
  cases hk : F32.key x with
  | none => simp [hk] at h
  | some k =>
    simp only [hk, decide_eq_true_eq, Option.map_some'] at h ⊢
    omega

theorem F32.key_tiny : F32.key F32.twoPowNeg118 = some 75497472 := rfl

theorem F32.key_neg_tiny : F32.key (F32.neg F32.twoPowNeg118) = some (-75497472) := rfl

theorem F32.le_tiny_iff (x : F32) :
    F32.le F32.twoPowNeg118 x = true
      ↔ x = F32.inf false ∨ ∃ n : Fin 2139095040, x = F32.fin false n ∧ 75497472 ≤ n.val := by
  unfold F32.le
  rw [F32.key_tiny]
  cases x with
  | nan => simp [F32.key]
  | inf s => cases s <;> simp [F32.key]
  | fin s m =>
    cases s
    · simp [F32.key]
    · simp [F32.key]
      omega

theorem F32.le_neg_tiny_iff (x : F32) :
    F32.le x (F32.neg F32.twoPowNeg118) = true
      ↔ x = F32.inf true ∨ ∃ n : Fin 2139095040, x = F32.fin true n ∧ 75497472 ≤ n.val := by
  unfold F32.le
  rw [F32.key_neg_tiny]
  cases x with
  | nan => simp [F32.key]
  | inf s => cases s <;> simp [F32.key]
  | fin s m =>
    cases s
    · simp [F32.key]
      omega
    · simp [F32.key]

theorem F32.ne_zero_of_gt {x : F32} (h : F32.gt x F32.zero = true) :
    F32.ne x F32.zero = true := by
  rcases (F32.gt_zero_iff x).1 h with rfl | ⟨m, rfl, hm⟩
  · decide
  · simp only [F32.ne, F32.eq, F32.key, F32.zero]
    simp
    omega

theorem F32.ne_zero_of_lt {x : F32} (h : F32.lt x F32.zero = true) :
    F32.ne x F32.zero = true := by
  rcases (F32.lt_zero_iff x).1 h with rfl | ⟨m, rfl, hm⟩
  · decide
  · simp only [F32.ne, F32.eq, F32.key, F32.zero]
    simp
    omega

/-- Sign of one component `a * x` of the shadow offset. -/
theorem F32.mul_shift_sign {a x : F32}
    (ha : a = F32.inf false ∨ ∃ r : Fin 2139095040, a = F32.fin false r ∧ 805306368 ≤ r.val) :
    (F32.gt x F32.zero = true → F32.le F32.zero (F32.mul a x) = true)
    ∧ (F32.lt x F32.zero = true → F32.le (F32.mul a x) F32.zero = true)
    ∧ (F32.le F32.twoPowNeg118 x = true → F32.lt F32.zero (F32.mul a x) = true)
    ∧ (F32.le x (F32.neg F32.twoPowNeg118) = true → F32.lt (F32.mul a x) F32.zero = true) := by
  refine ⟨?_, ?_, ?_, ?_⟩
  · intro h
    obtain ⟨R, hR, _⟩ := F32.mul_shift_cases false ha ((F32.gt_zero_iff x).1 h)
    rw [hR]
    exact F32.le_zero_ofMag R
  · intro h
    obtain ⟨R, hR, _⟩ := F32.mul_shift_cases true ha ((F32.lt_zero_iff x).1 h)
    rw [hR]
    exact F32.le_ofMag_zero R
  · intro h
    have hx := (F32.le_tiny_iff x).1 h
    have hx' : x = F32.inf false ∨ ∃ n : Fin 2139095040, x = F32.fin false n ∧ 0 < n.val := by
      rcases hx with h | ⟨n, h, hn⟩
      · exact Or.inl h
      · exact Or.inr ⟨n, h, by omega⟩
    obtain ⟨R, hR, hpos⟩ := F32.mul_shift_cases false ha hx'
    rw [hR]
    exact F32.lt_zero_ofMag (hpos hx)
  · intro h
    have hx := (F32.le_neg_tiny_iff x).1 h
    have hx' : x = F32.inf true ∨ ∃ n : Fin 2139095040, x = F32.fin true n ∧ 0 < n.val := by
      rcases hx with h | ⟨n, h, hn⟩
      · exact Or.inl h
      · exact Or.inr ⟨n, h, by omega⟩
    obtain ⟨R, hR, hpos⟩ := F32.mul_shift_cases true ha hx'
    rw [hR]
    exact F32.lt_ofMag_zero (hpos hx)

theorem F32.ne_of_le_tiny {x : F32} (h : F32.le F32.twoPowNeg118 x = true) :
    F32.ne x F32.zero = true := by
  rcases (F32.le_tiny_iff x).1 h with rfl | ⟨m, rfl, hm⟩
  · decide
  · simp only [F32.ne, F32.eq, F32.key, F32.zero]
    simp
    omega

theorem F32.ne_of_le_neg_tiny {x : F32} (h : F32.le x (F32.neg F32.twoPowNeg118) = true) :
    F32.ne x F32.zero = true := by
  rcases (F32.le_neg_tiny_iff x).1 h with rfl | ⟨m, rfl, hm⟩
  · decide
  · simp only [F32.ne, F32.eq, F32.key, F32.zero]
    simp
    omega

theorem F32.ne_false_of_eq {x : F32} (h : F32.eq x F32.zero = true) :
    F32.ne x F32.zero = false := by
  simp [F32.ne, h]

/-- The shift `maxOffsetX`, `maxOffsetY` for a positive texture size and a distance range that
is not NaN. -/
theorem maxOffset_cases {d : F32} {n : Int} (hd : F32.isNaN d = false) (h0 : 0 < n)
    (h1 : n ≤ 2147483647) :
    F32.div (F32.max d F32.one) (F32.ofInt32 n) = F32.inf false
      ∨ ∃ r : Fin 2139095040, F32.div (F32.max d F32.one) (F32.ofInt32 n) = F32.fin false r
          ∧ 805306368 ≤ r.val := by
  obtain ⟨w, hw, hw1, hw2⟩ := F32.ofInt32_cases h0 h1
  rw [hw]
  exact F32.div_spread_cases (F32.max_one_cases hd) hw1 hw2

/-- Amended C9: for every atlas texture with positive (32-bit) width `W` and height `H`, every
configured shadow offset `(x, y)` and every font whose distance range is not NaN, with
`s = max(DistanceRange, 1.0f)` in binary32 arithmetic: the offset sent is `(s / W) * x` and
`-((s / H) * y)` for non-zero `x`, `y`, and a zero component gives a zero component; the X
component never has the sign opposite to `x` and the Y component never the sign of `y`; and
they have exactly that sign (are not zero) when the magnitude of `x`, `y` is at least
`2^-118`. -/
theorem drawTextMesh_shadowOffset_signs {Pos Cfg : Type} (fontRecord : FontRecord Pos Cfg)
    (fontDrawConfig : FontDrawConfig)
    (hRange : F32.isNaN fontRecord.Font.GetSdfParams.DistanceRange = false)
    (hW : 0 < fontRecord.Texture.GetSize.RawWidth)
    (hWmax : fontRecord.Texture.GetSize.RawWidth ≤ 2147483647)
    (hH : 0 < fontRecord.Texture.GetSize.RawHeight)
    (hHmax : fontRecord.Texture.GetSize.RawHeight ≤ 2147483647) :
    (F32.ne fontDrawConfig.ShadowOffset.X F32.zero = true →
      DrawTextMesh.shadowOffsetX fontRecord fontDrawConfig
        = F32.mul (F32.div (F32.max fontRecord.Font.GetSdfParams.DistanceRange F32.one)
            (F32.ofInt32 fontRecord.Texture.GetSize.RawWidth)) fontDrawConfig.ShadowOffset.X)
    ∧ (F32.ne fontDrawConfig.ShadowOffset.Y F32.zero = true →
      DrawTextMesh.shadowOffsetY fontRecord fontDrawConfig
        = F32.neg (F32.mul (F32.div (F32.max fontRecord.Font.GetSdfParams.DistanceRange F32.one)
            (F32.ofInt32 fontRecord.Texture.GetSize.RawHeight)) fontDrawConfig.ShadowOffset.Y))
    ∧ (F32.eq fontDrawConfig.ShadowOffset.X F32.zero = true →
      DrawTextMesh.shadowOffsetX fontRecord fontDrawConfig = F32.zero)
    ∧ (F32.eq fontDrawConfig.ShadowOffset.Y F32.zero = true →
      DrawTextMesh.shadowOffsetY fontRecord fontDrawConfig = F32.zero)
    ∧ (F32.gt fontDrawConfig.ShadowOffset.X F32.zero = true →
      F32.le F32.zero (DrawTextMesh.shadowOffsetX fontRecord fontDrawConfig) = true)
    ∧ (F32.lt fontDrawConfig.ShadowOffset.X F32.zero = true →
      F32.le (DrawTextMesh.shadowOffsetX fontRecord fontDrawConfig) F32.zero = true)
    ∧ (F32.gt fontDrawConfig.ShadowOffset.Y F32.zero = true →
      F32.le (DrawTextMesh.shadowOffsetY fontRecord fontDrawConfig) F32.zero = true)
    ∧ (F32.lt fontDrawConfig.ShadowOffset.Y F32.zero = true →
      F32.le F32.zero (DrawTextMesh.shadowOffsetY fontRecord fontDrawConfig) = true)
    ∧ (F32.le F32.twoPowNeg118 fontDrawConfig.ShadowOffset.X = true →
      F32.lt F32.zero (DrawTextMesh.shadowOffsetX fontRecord fontDrawConfig) = true)
    ∧ (F32.le fontDrawConfig.ShadowOffset.X (F32.neg F32.twoPowNeg118) = true →
      F32.lt (DrawTextMesh.shadowOffsetX fontRecord fontDrawConfig) F32.zero = true)
    ∧ (F32.le F32.twoPowNeg118 fontDrawConfig.ShadowOffset.Y = true →
      F32.lt (DrawTextMesh.shadowOffsetY fontRecord fontDrawConfig) F32.zero = true)
    ∧ (F32.le fontDrawConfig.ShadowOffset.Y (F32.neg F32.twoPowNeg118) = true →
      F32.lt F32.zero (DrawTextMesh.shadowOffsetY fontRecord fontDrawConfig) = true)
    ∧ (∀ (Vtx : Type) (ndebug : Bool) (invalidLocation : Int) (mesh : MeshRecord Cfg Vtx)
        (shader : ShaderRecord) (projection : Matrix),
        (ndebug = true ∨ (shader.Location.ProjMatrix ≠ invalidLocation
            ∧ shader.Location.Texture ≠ invalidLocation) →
          ∃ calls, DrawTextMesh ndebug invalidLocation mesh fontRecord shader projection
            fontDrawConfig = some calls)
        ∧ ∀ calls : List GLCall,
          DrawTextMesh ndebug invalidLocation mesh fontRecord shader projection fontDrawConfig
            = some calls →
          (shader.Location.ShadowOffset ≠ invalidLocation →
            GLCall.Uniform2f shader.Location.ShadowOffset
              (DrawTextMesh.shadowOffsetX fontRecord fontDrawConfig)
              (DrawTextMesh.shadowOffsetY fontRecord fontDrawConfig) ∈ calls)
          ∧ (∀ (l : Int) (x y : F32), GLCall.Uniform2f l x y ∈ calls →
              l = shader.Location.ShadowOffset
              ∧ x = DrawTextMesh.shadowOffsetX fontRecord fontDrawConfig
              ∧ y = DrawTextMesh.shadowOffsetY fontRecord fontDrawConfig)) := by
  obtain ⟨x1, x2, x3, x4⟩ := @F32.mul_shift_sign _ fontDrawConfig.ShadowOffset.X
    (maxOffset_cases hRange hW hWmax)
  obtain ⟨y1, y2, y3, y4⟩ := @F32.mul_shift_sign _ fontDrawConfig.ShadowOffset.Y
    (maxOffset_cases hRange hH hHmax)
  have ex : ∀ h : F32.ne fontDrawConfig.ShadowOffset.X F32.zero = true,
      DrawTextMesh.shadowOffsetX fontRecord fontDrawConfig
        = F32.mul (F32.div (F32.max fontRecord.Font.GetSdfParams.DistanceRange F32.one)
            (F32.ofInt32 fontRecord.Texture.GetSize.RawWidth)) fontDrawConfig.ShadowOffset.X := by
    intro h
    simp only [DrawTextMesh.shadowOffsetX, DrawTextMesh.maxOffsetX, DrawTextMesh.fontSdfSpread,
      h, if_true]
  have ey : ∀ h : F32.ne fontDrawConfig.ShadowOffset.Y F32.zero = true,
      DrawTextMesh.shadowOffsetY fontRecord fontDrawConfig
        = F32.neg (F32.mul (F32.div (F32.max fontRecord.Font.GetSdfParams.DistanceRange F32.one)
            (F32.ofInt32 fontRecord.Texture.GetSize.RawHeight))
            fontDrawConfig.ShadowOffset.Y) := by
    intro h
    simp only [DrawTextMesh.shadowOffsetY, DrawTextMesh.maxOffsetY, DrawTextMesh.fontSdfSpread,
      h, if_true]
  refine ⟨ex, ey, ?_, ?_, ?_, ?_, ?_, ?_, ?_, ?_, ?_, ?_, ?_⟩
  · intro h
    simp [DrawTextMesh.shadowOffsetX, F32.ne_false_of_eq h]
  · intro h
    simp [DrawTextMesh.shadowOffsetY, F32.ne_false_of_eq h]
  · intro h
    rw [ex (F32.ne_zero_of_gt h)]
    exact x1 h
  · intro h
    rw [ex (F32.ne_zero_of_lt h)]
    exact x2 h
  · intro h
    rw [ey (F32.ne_zero_of_gt h)]
    exact F32.le_neg_zero (y1 h)
  · intro h
    rw [ey (F32.ne_zero_of_lt h)]
    exact F32.le_zero_neg (y2 h)
  · intro h
    rw [ex (F32.ne_of_le_tiny h)]
    exact x3 h
  · intro h
    rw [ex (F32.ne_of_le_neg_tiny h)]
    exact x4 h
  · intro h
    rw [ey (F32.ne_of_le_tiny h)]
    exact F32.lt_neg_zero (y3 h)
  · intro h
    rw [ey (F32.ne_of_le_neg_tiny h)]
    exact F32.lt_zero_neg (y4 h)
  · intro Vtx ndebug invalidLocation mesh shader projection
    refine ⟨?_, ?_⟩
    · intro hok
      have hc : ¬ (ndebug = false ∧ (shader.Location.ProjMatrix = invalidLocation
          ∨ shader.Location.Texture = invalidLocation)) := by
        rintro ⟨hn, hl⟩
        rcases hok with hd | ⟨hp, ht⟩
        · rw [hn] at hd
          exact Bool.noConfusion hd
        · rcases hl with hl | hl
          · exact hp hl
          · exact ht hl
      unfold DrawTextMesh
      simp only [hc, if_false]
      exact ⟨_, rfl⟩
    · intro calls h
      unfold DrawTextMesh at h
      split at h
      · exact absurd h (by simp)
      · injection h with h
        subst h
        constructor
        · intro hne
          simp [hne]
        · intro l x y hmem
          simp only [List.mem_append, List.mem_cons, List.mem_singleton,
            List.mem_ite_nil_right, List.not_mem_nil, GLCall.Uniform2f.injEq, reduceCtorEq,
            or_false, false_or, and_false, false_and] at hmem
          exact hmem.2

/-- Amended C9 at the sample font (distance range 1, atlas 256 x 128) and the shadow offset
`(1, 1)`: the X component is positive and the Y component negative. -/
theorem drawTextMesh_shadowOffset_signs_witness :
    (F32.isNaN Sample.fontRecord.Font.GetSdfParams.DistanceRange = false
      ∧ 0 < Sample.fontRecord.Texture.GetSize.RawWidth
      ∧ Sample.fontRecord.Texture.GetSize.RawWidth ≤ 2147483647
      ∧ 0 < Sample.fontRecord.Texture.GetSize.RawHeight
      ∧ Sample.fontRecord.Texture.GetSize.RawHeight ≤ 2147483647
      ∧ F32.le F32.twoPowNeg118 Sample.drawConfig.ShadowOffset.X = true
      ∧ F32.le F32.twoPowNeg118 Sample.drawConfig.ShadowOffset.Y = true)
    ∧ F32.lt F32.zero (DrawTextMesh.shadowOffsetX Sample.fontRecord Sample.drawConfig) = true
    ∧ F32.lt (DrawTextMesh.shadowOffsetY Sample.fontRecord Sample.drawConfig) F32.zero = true :=
  ⟨by decide,
   (drawTextMesh_shadowOffset_signs Sample.fontRecord Sample.drawConfig (by decide) (by decide)
     (by decide) (by decide) (by decide)).2.2.2.2.2.2.2.2.1 (by decide),
   (drawTextMesh_shadowOffset_signs Sample.fontRecord Sample.drawConfig (by decide) (by decide)
     (by decide) (by decide) (by decide)).2.2.2.2.2.2.2.2.2.2.1 (by decide)⟩

/-- C9 fails as stated: on a 256 x 128 atlas, with a NaN distance range the offset `(1, 1)` is
sent as `(NaN, NaN)`, which has no sign; and with distance range 1 the positive offset
`(2^-149, 2^-149)` is sent as `(0, 0)`. -/
theorem drawTextMesh_shadowOffset_sign_lost :
    0 < Sample.fontRecordNaN.Texture.GetSize.RawWidth
    ∧ 0 < Sample.fontRecordNaN.Texture.GetSize.RawHeight
    ∧ F32.gt Sample.drawConfig.ShadowOffset.X F32.zero = true
    ∧ F32.gt Sample.drawConfig.ShadowOffset.Y F32.zero = true
    ∧ DrawTextMesh.shadowOffsetX Sample.fontRecordNaN Sample.drawConfig = F32.nan
    ∧ DrawTextMesh.shadowOffsetY Sample.fontRecordNaN Sample.drawConfig = F32.nan
    ∧ F32.lt F32.zero (DrawTextMesh.shadowOffsetX Sample.fontRecordNaN Sample.drawConfig) = false
    ∧ F32.lt (DrawTextMesh.shadowOffsetY Sample.fontRecordNaN Sample.drawConfig) F32.zero = false
    ∧ F32.gt Sample.drawConfigTiny.ShadowOffset.X F32.zero = true
    ∧ F32.gt Sample.drawConfigTiny.ShadowOffset.Y F32.zero = true
    ∧ DrawTextMesh.shadowOffsetX Sample.fontRecord Sample.drawConfigTiny = F32.zero
    ∧ F32.lt F32.zero (DrawTextMesh.shadowOffsetX Sample.fontRecord Sample.drawConfigTiny) = false
    ∧ F32.lt (DrawTextMesh.shadowOffsetY Sample.fontRecord Sample.drawConfigTiny) F32.zero
        = false := by
  decide

/-! ## Cache coherence of a mesh record (C10) -/

section RegenerateMore

variable {Pos Cfg Vtx : Type} [Inhabited Pos] [BEq Cfg]

/-- Past the early return, the outcome of `RegenerateMeshOnDemand` written out. -/
theorem regenerate_miss (helper : AppHelper Pos Vtx)
    (vertexElementIndex : VertexElementUsage → Nat → Int) (rMeshRecord : MeshRecord Cfg Vtx)
    (dstPositionPx : PxPoint2) (shader : ShaderRecord) (fontRecord : FontRecord Pos Cfg)
    (fontConfig : Cfg) (strView : StringViewLite) (rPositionsScratchpad : List Pos)
    (hDiffers : rMeshRecord.Offset ≠ dstPositionPx ∨ (rMeshRecord.FontConfig == fontConfig) = false
      ∨ rMeshRecord.CachedShader ≠ shader.Program.Get) :
    RegenerateMeshOnDemand helper vertexElementIndex rMeshRecord dstPositionPx shader fontRecord
      fontConfig strView rPositionsScratchpad
      = { Mesh :=
            { Offset := dstPositionPx, FontConfig := fontConfig,
              Vertices := helper.GenerateVertices rMeshRecord.Vertices dstPositionPx
                (RegenerateMeshOnDemand.positionsSpan fontRecord fontConfig strView
                  rPositionsScratchpad)
                LocalConfig.DefaultZPos fontRecord.Texture.GetSize,
              VB := rMeshRecord.VB.SetData 0
                (helper.GenerateVertices rMeshRecord.Vertices dstPositionPx
                  (RegenerateMeshOnDemand.positionsSpan fontRecord fontConfig strView
                    rPositionsScratchpad)
                  LocalConfig.DefaultZPos fontRecord.Texture.GetSize),
              IB := rMeshRecord.IB,
              AttribLink :=
                if (rMeshRecord.CachedShader != shader.Program.Get) = true then
                  (GLVertexAttribLink.mk (shader.Program.GetAttribLocation "VertexPosition")
                     (vertexElementIndex VertexElementUsage.Position 0),
                   GLVertexAttribLink.mk
                     (shader.Program.TryGetAttribLocation "VertexTextureCoord")
                     (vertexElementIndex VertexElementUsage.TextureCoordinate 0))
                else rMeshRecord.AttribLink,
              CachedShader := shader.Program.Get },
          Positions := (fontRecord.Font.ExtractRenderRulesCfg
            (growScratchpad strView.length rPositionsScratchpad) strView fontConfig).2,
          Uploads := [helper.GenerateVertices rMeshRecord.Vertices dstPositionPx
            (RegenerateMeshOnDemand.positionsSpan fontRecord fontConfig strView
              rPositionsScratchpad)
            LocalConfig.DefaultZPos fontRecord.Texture.GetSize] } := by
  have hc : ¬ (rMeshRecord.Offset = dstPositionPx ∧ (rMeshRecord.FontConfig == fontConfig) = true
      ∧ (rMeshRecord.CachedShader != shader.Program.Get) = false) := by
    intro h
    obtain ⟨h1, h2, h3⟩ := h
    have h3' : rMeshRecord.CachedShader = shader.Program.Get := by simpa using h3
    rcases hDiffers with h | h | h
    · exact h h1
    · exact Bool.noConfusion (h2.symm.trans h)
    · exact h h3'
  simp only [RegenerateMeshOnDemand, hc, if_false, RegenerateMeshOnDemand.positionsSpan]

/-- A call either hits the cache or differs in one of the three keys. -/
theorem regenerate_hit_or_miss (rMeshRecord : MeshRecord Cfg Vtx) (dstPositionPx : PxPoint2)
    (shader : ShaderRecord) (fontConfig : Cfg) :
    (rMeshRecord.Offset = dstPositionPx ∧ (rMeshRecord.FontConfig == fontConfig) = true
        ∧ rMeshRecord.CachedShader = shader.Program.Get)
      ∨ (rMeshRecord.Offset ≠ dstPositionPx ∨ (rMeshRecord.FontConfig == fontConfig) = false
        ∨ rMeshRecord.CachedShader ≠ shader.Program.Get) := by
  by_cases h1 : rMeshRecord.Offset = dstPositionPx
  · by_cases h2 : (rMeshRecord.FontConfig == fontConfig) = true
    · by_cases h3 : rMeshRecord.CachedShader = shader.Program.Get
      · exact Or.inl ⟨h1, h2, h3⟩
      · exact Or.inr (Or.inr (Or.inr h3))
    · exact Or.inr (Or.inr (Or.inl (Bool.eq_false_iff.2 h2)))
  · exact Or.inr (Or.inl h1)

theorem growScratchpad_length (n : Nat) (scratchpad : List Pos) :
    (growScratchpad n scratchpad).length = max n scratchpad.length := by
  unfold growScratchpad
  split
  · rename_i h
    simp only [List.length_append, List.length_replicate]
    omega
  · rename_i h
    omega

/-- C12: `RegenerateMeshOnDemand` rebuilds the attribute links exactly when the shader program
handle differs from `CachedShader`: when the handle is the cached one (so at most the position
or the font config changed) `AttribLink` is as before, and when it differs `AttribLink` is the
pair of links for the `VertexPosition` and `VertexTextureCoord` attributes of the new shader
program; `GenerateMesh` leaves `AttribLink` value-initialised. -/
theorem regenerateMeshOnDemand_attribLink (helper : AppHelper Pos Vtx)
    (vertexElementIndex : VertexElementUsage → Nat → Int) (rMeshRecord : MeshRecord Cfg Vtx)
    (dstPositionPx : PxPoint2) (shader : ShaderRecord) (fontRecord : FontRecord Pos Cfg)
    (fontConfig : Cfg) (strView : StringViewLite) (rPositionsScratchpad : List Pos) :
    (rMeshRecord.CachedShader = shader.Program.Get →
      (RegenerateMeshOnDemand helper vertexElementIndex rMeshRecord dstPositionPx shader
        fontRecord fontConfig strView rPositionsScratchpad).Mesh.AttribLink
        = rMeshRecord.AttribLink)
    ∧ (rMeshRecord.CachedShader ≠ shader.Program.Get →
      (RegenerateMeshOnDemand helper vertexElementIndex rMeshRecord dstPositionPx shader
        fontRecord fontConfig strView rPositionsScratchpad).Mesh.AttribLink
        = (GLVertexAttribLink.mk (shader.Program.GetAttribLocation "VertexPosition")
             (vertexElementIndex VertexElementUsage.Position 0),
           GLVertexAttribLink.mk (shader.Program.TryGetAttribLocation "VertexTextureCoord")
             (vertexElementIndex VertexElementUsage.TextureCoordinate 0)))
    ∧ (∀ [Inhabited Vtx] (init : MeshInit),
        (GenerateMesh helper init dstPositionPx fontRecord fontConfig strView
          rPositionsScratchpad).1.AttribLink = init.AttribLink) := by
  refine ⟨?_, ?_, ?_⟩
  · intro hs
    rcases regenerate_hit_or_miss rMeshRecord dstPositionPx shader fontConfig with h | h
    · rw [regenerate_hit helper vertexElementIndex rMeshRecord dstPositionPx shader fontRecord
        fontConfig strView rPositionsScratchpad h.1 h.2.1 h.2.2]
    · rw [regenerate_miss helper vertexElementIndex rMeshRecord dstPositionPx shader fontRecord
        fontConfig strView rPositionsScratchpad h]
      simp [hs]
  · intro hs
    rw [regenerate_miss helper vertexElementIndex rMeshRecord dstPositionPx shader fontRecord
      fontConfig strView rPositionsScratchpad (Or.inr (Or.inr hs))]
    simp [hs]
  · intro _ init
    rfl

/-- C13: in `GenerateMesh` and in `RegenerateMeshOnDemand` (past the early return) the glyph
positions handed to vertex generation, and in `GenerateMesh` to index generation, are as many
as the text has characters when `ExtractRenderRules` reports success and none when it reports
failure; the scratchpad is first grown to the larger of its size and the text length, keeps
that size, and so is never shorter than the positions handed on or than it was before. -/
theorem positionsSpan_length [Inhabited Vtx] (helper : AppHelper Pos Vtx) (init : MeshInit)
    (vertexElementIndex : VertexElementUsage → Nat → Int) (rMeshRecord : MeshRecord Cfg Vtx)
    (dstPositionPx : PxPoint2) (shader : ShaderRecord) (fontRecord : FontRecord Pos Cfg)
    (fontConfig : Cfg) (strView : StringViewLite) (rPositionsScratchpad : List Pos) :
    ((GenerateMesh helper init dstPositionPx fontRecord fontConfig strView
          rPositionsScratchpad).1.Vertices
        = helper.GenerateVertices (List.replicate (strView.length * 4) default) dstPositionPx
            (GenerateMesh.positionsSpan fontRecord strView rPositionsScratchpad)
            LocalConfig.DefaultZPos fontRecord.Texture.GetSize
      ∧ (GenerateMesh helper init dstPositionPx fontRecord fontConfig strView
          rPositionsScratchpad).1.IB.Data
        = helper.GenerateIndices (List.replicate (strView.length * (3 * 2)) 0)
            (GenerateMesh.positionsSpan fontRecord strView rPositionsScratchpad)
      ∧ ((fontRecord.Font.ExtractRenderRules
            (growScratchpad strView.length rPositionsScratchpad) strView).1 = true →
          (GenerateMesh.positionsSpan fontRecord strView rPositionsScratchpad).length
            = strView.length)
      ∧ ((fontRecord.Font.ExtractRenderRules
            (growScratchpad strView.length rPositionsScratchpad) strView).1 = false →
          (GenerateMesh.positionsSpan fontRecord strView rPositionsScratchpad).length = 0)
      ∧ (GenerateMesh.positionsSpan fontRecord strView rPositionsScratchpad).length
          ≤ (growScratchpad strView.length rPositionsScratchpad).length
      ∧ (GenerateMesh helper init dstPositionPx fontRecord fontConfig strView
          rPositionsScratchpad).2.length
          = (growScratchpad strView.length rPositionsScratchpad).length)
    ∧ ((rMeshRecord.Offset ≠ dstPositionPx ∨ (rMeshRecord.FontConfig == fontConfig) = false
          ∨ rMeshRecord.CachedShader ≠ shader.Program.Get →
        (RegenerateMeshOnDemand helper vertexElementIndex rMeshRecord dstPositionPx shader
            fontRecord fontConfig strView rPositionsScratchpad).Mesh.Vertices
          = helper.GenerateVertices rMeshRecord.Vertices dstPositionPx
              (RegenerateMeshOnDemand.positionsSpan fontRecord fontConfig strView
                rPositionsScratchpad)
              LocalConfig.DefaultZPos fontRecord.Texture.GetSize
        ∧ (RegenerateMeshOnDemand helper vertexElementIndex rMeshRecord dstPositionPx shader
            fontRecord fontConfig strView rPositionsScratchpad).Positions.length
          = (growScratchpad strView.length rPositionsScratchpad).length)
      ∧ ((fontRecord.Font.ExtractRenderRulesCfg
            (growScratchpad strView.length rPositionsScratchpad) strView fontConfig).1 = true →
          (RegenerateMeshOnDemand.positionsSpan fontRecord fontConfig strView
            rPositionsScratchpad).length = strView.length)
      ∧ ((fontRecord.Font.ExtractRenderRulesCfg
            (growScratchpad strView.length rPositionsScratchpad) strView fontConfig).1 = false →
          (RegenerateMeshOnDemand.positionsSpan fontRecord fontConfig strView
            rPositionsScratchpad).length = 0)
      ∧ (RegenerateMeshOnDemand.positionsSpan fontRecord fontConfig strView
            rPositionsScratchpad).length
          ≤ (growScratchpad strView.length rPositionsScratchpad).length
      ∧ rPositionsScratchpad.length
          ≤ (RegenerateMeshOnDemand helper vertexElementIndex rMeshRecord dstPositionPx shader
              fontRecord fontConfig strView rPositionsScratchpad).Positions.length)
    ∧ (growScratchpad strView.length rPositionsScratchpad).length
        = max strView.length rPositionsScratchpad.length
    ∧ strView.length ≤ (growScratchpad strView.length rPositionsScratchpad).length
    ∧ rPositionsScratchpad.length
        ≤ (growScratchpad strView.length rPositionsScratchpad).length := by
  have hg := growScratchpad_length strView.length rPositionsScratchpad
  have hg1 : strView.length ≤ (growScratchpad strView.length rPositionsScratchpad).length := by
    rw [hg]; omega
  have hg2 : rPositionsScratchpad.length
      ≤ (growScratchpad strView.length rPositionsScratchpad).length := by
    rw [hg]; omega
  have s1 := fontRecord.Font.span_size (growScratchpad strView.length rPositionsScratchpad)
    strView
  have s2 := fontRecord.Font.span_size_cfg (growScratchpad strView.length rPositionsScratchpad)
    strView fontConfig
  refine ⟨⟨rfl, rfl, ?_, ?_, ?_, ?_⟩, ⟨?_, ?_, ?_, ?_, ?_⟩, hg, hg1, hg2⟩
  · intro h
    simp only [GenerateMesh.positionsSpan, h, if_true, List.length_take, s1]
    omega
  · intro h
    simp [GenerateMesh.positionsSpan, h]
  · simp only [GenerateMesh.positionsSpan, List.length_take, s1]
    omega
  · simp only [GenerateMesh, s1]
  · intro h
    rw [regenerate_miss helper vertexElementIndex rMeshRecord dstPositionPx shader fontRecord
      fontConfig strView rPositionsScratchpad h]
    exact ⟨rfl, s2⟩
  · intro h
    simp only [RegenerateMeshOnDemand.positionsSpan, h, if_true, List.length_take, s2]
    omega
  · intro h
    simp [RegenerateMeshOnDemand.positionsSpan, h]
  · simp only [RegenerateMeshOnDemand.positionsSpan, List.length_take, s2]
    omega
  · rcases regenerate_hit_or_miss rMeshRecord dstPositionPx shader fontConfig with h | h
    · rw [regenerate_hit helper vertexElementIndex rMeshRecord dstPositionPx shader fontRecord
        fontConfig strView rPositionsScratchpad h.1 h.2.1 h.2.2]
    · rw [regenerate_miss helper vertexElementIndex rMeshRecord dstPositionPx shader fontRecord
        fontConfig strView rPositionsScratchpad h]
      simp only [s2]
      exact hg2

/-- One call keeps the number of vertices and the index buffer. -/
theorem regenerate_size (helper : AppHelper Pos Vtx)
    (vertexElementIndex : VertexElementUsage → Nat → Int) (rMeshRecord : MeshRecord Cfg Vtx)
    (dstPositionPx : PxPoint2) (shader : ShaderRecord) (fontRecord : FontRecord Pos Cfg)
    (fontConfig : Cfg) (strView : StringViewLite) (rPositionsScratchpad : List Pos) :
    (RegenerateMeshOnDemand helper vertexElementIndex rMeshRecord dstPositionPx shader
        fontRecord fontConfig strView rPositionsScratchpad).Mesh.Vertices.length
      = rMeshRecord.Vertices.length
    ∧ (RegenerateMeshOnDemand helper vertexElementIndex rMeshRecord dstPositionPx shader
        fontRecord fontConfig strView rPositionsScratchpad).Mesh.IB = rMeshRecord.IB := by
  rcases regenerate_hit_or_miss rMeshRecord dstPositionPx shader fontConfig with h | h
  · rw [regenerate_hit helper vertexElementIndex rMeshRecord dstPositionPx shader fontRecord
      fontConfig strView rPositionsScratchpad h.1 h.2.1 h.2.2]
    exact ⟨rfl, rfl⟩
  · rw [regenerate_miss helper vertexElementIndex rMeshRecord dstPositionPx shader fontRecord
      fontConfig strView rPositionsScratchpad h]
    exact ⟨helper.vertices_size _ _ _ _ _, rfl⟩

/-- Any sequence of calls keeps the number of vertices and the index buffer. -/
theorem regenerateAll_size (helper : AppHelper Pos Vtx)
    (vertexElementIndex : VertexElementUsage → Nat → Int)
    (calls : List (RegenerateArgs Pos Cfg)) :
    ∀ state : MeshRecord Cfg Vtx × List Pos,
      (regenerateAll helper vertexElementIndex state calls).1.Vertices.length
        = state.1.Vertices.length
      ∧ (regenerateAll helper vertexElementIndex state calls).1.IB = state.1.IB := by
  induction calls with
  | nil =>
    intro state
    exact ⟨rfl, rfl⟩
  | cons a rest ih =>
    intro state
    have h1 := regenerate_size helper vertexElementIndex state.1 a.dstPositionPx a.shader
      a.fontRecord a.fontConfig a.strView state.2
    have h2 := ih ((RegenerateMeshOnDemand helper vertexElementIndex state.1 a.dstPositionPx
      a.shader a.fontRecord a.fontConfig a.strView state.2).Mesh,
      (RegenerateMeshOnDemand helper vertexElementIndex state.1 a.dstPositionPx
      a.shader a.fontRecord a.fontConfig a.strView state.2).Positions)
    simp only [regenerateAll]
    exact ⟨h2.1.trans h1.1, h2.2.trans h1.2⟩

/-- C14: `RegenerateMeshOnDemand` never changes the size of a mesh: after every call the
record has as many vertices as before and the same index buffer; so for a mesh created by
`GenerateMesh` for a text of `n` characters and regenerated any number of times, the vertex
count stays `4 * n` and the element count `DrawTextMesh` passes to `glDrawElements`, the
index buffer capacity, stays `6 * n`. -/
theorem regenerateMeshOnDemand_keeps_size [Inhabited Vtx] (helper : AppHelper Pos Vtx)
    (vertexElementIndex : VertexElementUsage → Nat → Int) (rMeshRecord : MeshRecord Cfg Vtx)
    (dstPositionPx : PxPoint2) (shader : ShaderRecord) (fontRecord : FontRecord Pos Cfg)
    (fontConfig : Cfg) (strView : StringViewLite) (rPositionsScratchpad : List Pos) :
    (RegenerateMeshOnDemand helper vertexElementIndex rMeshRecord dstPositionPx shader
        fontRecord fontConfig strView rPositionsScratchpad).Mesh.Vertices.length
      = rMeshRecord.Vertices.length
    ∧ (RegenerateMeshOnDemand helper vertexElementIndex rMeshRecord dstPositionPx shader
        fontRecord fontConfig strView rPositionsScratchpad).Mesh.IB.Data.length
      = rMeshRecord.IB.Data.length
    ∧ (RegenerateMeshOnDemand helper vertexElementIndex rMeshRecord dstPositionPx shader
        fontRecord fontConfig strView rPositionsScratchpad).Mesh.IB.GetGLCapacity
      = rMeshRecord.IB.GetGLCapacity
    ∧ (∀ (init : MeshInit) (calls : List (RegenerateArgs Pos Cfg)),
        (regenerateAll helper vertexElementIndex
          (GenerateMesh helper init dstPositionPx fontRecord fontConfig strView
            rPositionsScratchpad) calls).1.Vertices.length = 4 * strView.length
        ∧ (regenerateAll helper vertexElementIndex
          (GenerateMesh helper init dstPositionPx fontRecord fontConfig strView
            rPositionsScratchpad) calls).1.IB.GetGLCapacity = 6 * strView.length)
    ∧ (∀ (ndebug : Bool) (invalidLocation : Int) (font : FontRecord Pos Cfg)
        (drawShader : ShaderRecord) (projection : Matrix) (fontDrawConfig : FontDrawConfig)
        (glCalls : List GLCall),
        DrawTextMesh ndebug invalidLocation rMeshRecord font drawShader projection
          fontDrawConfig = some glCalls →
        (GLCall.DrawElements rMeshRecord.IB.GetGLCapacity ∈ glCalls
          ∧ ∀ count, GLCall.DrawElements count ∈ glCalls →
              count = rMeshRecord.IB.GetGLCapacity)) := by
  have h := regenerate_size helper vertexElementIndex rMeshRecord dstPositionPx shader
    fontRecord fontConfig strView rPositionsScratchpad
  refine ⟨h.1, by rw [h.2], by rw [h.2], ?_, ?_⟩
  · intro init calls
    have ha := regenerateAll_size helper vertexElementIndex calls
      (GenerateMesh helper init dstPositionPx fontRecord fontConfig strView
        rPositionsScratchpad)
    constructor
    · rw [ha.1]
      simp only [GenerateMesh, helper.vertices_size, List.length_replicate]
      omega
    · rw [ha.2]
      simp only [GenerateMesh, GLIndexBuffer.GetGLCapacity, helper.indices_size,
        List.length_replicate]
      omega
  · intro ndebug invalidLocation font drawShader projection fontDrawConfig glCalls hd
    unfold DrawTextMesh at hd
    split at hd
    · exact absurd hd (by simp)
    · injection hd with hd
      subst hd
      simp only [List.mem_append, List.mem_cons, List.mem_singleton, List.mem_ite_nil_right,
        List.not_mem_nil, GLCall.DrawElements.injEq, reduceCtorEq, false_or, or_false,
        and_false, false_and, or_true, true_and, true_or]
      intro count hc
      exact hc

end RegenerateMore

/-! ## Cache coherence of a mesh record, continued (C10) -/

section Coherence

variable {Pos Cfg Vtx : Type} [Inhabited Pos] [BEq Cfg]

end Coherence

/-! ## The frame (C11, C15, C16) -/

section FrameTheorems

variable {Pos Cfg Vtx : Type}

/-- The GL calls of `DrawMeshes` are those of its four `DrawTextMesh` calls, framed by the
state changes of the function itself. -/
theorem drawMeshes_some (ndebug : Bool) (invalidLocation : Int)
    (m_resources : FrameResources Pos Cfg Vtx) (fontDrawConfig : FontDrawConfig)
    (fontSdfShader : ShaderRecord) (glCalls : List DrawMeshesCall)
    (h : DrawMeshes ndebug invalidLocation m_resources fontDrawConfig fontSdfShader
      = some glCalls) :
    ∃ normalMesh normalScaled sdfMesh sdfScaled : List GLCall,
      (DrawMeshes.calls m_resources fontDrawConfig fontSdfShader).map
          (DrawTextMeshCall.run ndebug invalidLocation)
        = [some normalMesh, some normalScaled, some sdfMesh, some sdfScaled]
      ∧ glCalls =
        [DrawMeshesCall.Enable GLCap.CullFace,
         DrawMeshesCall.Enable GLCap.Blend,
         DrawMeshesCall.BlendFunc GLBlendFactor.One GLBlendFactor.OneMinusSrcAlpha]
        ++ normalMesh.map DrawMeshesCall.InDrawTextMesh
        ++ normalScaled.map DrawMeshesCall.InDrawTextMesh
        ++ [DrawMeshesCall.BlendFunc GLBlendFactor.SrcAlpha GLBlendFactor.OneMinusSrcAlpha]
        ++ sdfMesh.map DrawMeshesCall.InDrawTextMesh
        ++ sdfScaled.map DrawMeshesCall.InDrawTextMesh
        ++ [DrawMeshesCall.UnbindArrayBuffer,
            DrawMeshesCall.UnbindElementArrayBuffer,
            DrawMeshesCall.UnbindTexture,
            DrawMeshesCall.UnuseProgram] := by
  dsimp only [DrawMeshes] at h
  split at h
  · rename_i a b c d h1 h2 h3 h4
    injection h with h
    refine ⟨a, b, c, d, ?_, h.symm⟩
    simp only [DrawMeshes.calls, DrawTextMeshCall.run, List.map_cons, List.map_nil, h1, h2, h3,
      h4]
  · exact absurd h (by simp)

/-- A call of `DrawTextMesh` is cut short exactly by a failing assertion. -/
theorem drawTextMesh_eq_none (ndebug : Bool) (invalidLocation : Int)
    (mesh : MeshRecord Cfg Vtx) (fontRecord : FontRecord Pos Cfg) (shader : ShaderRecord)
    (projection : Matrix) (fontDrawConfig : FontDrawConfig) :
    DrawTextMesh ndebug invalidLocation mesh fontRecord shader projection fontDrawConfig = none
      ↔ ndebug = false ∧ (shader.Location.ProjMatrix = invalidLocation
          ∨ shader.Location.Texture = invalidLocation) := by
  unfold DrawTextMesh
  split
  · rename_i h
    simp only [true_iff]
    exact h
  · rename_i h
    simp only [reduceCtorEq, false_iff]
    exact h

/-- A call of `DrawTextMesh` that passes its assertions issues GL calls. -/
theorem drawTextMesh_some (ndebug : Bool) (invalidLocation : Int)
    (mesh : MeshRecord Cfg Vtx) (fontRecord : FontRecord Pos Cfg) (shader : ShaderRecord)
    (projection : Matrix) (fontDrawConfig : FontDrawConfig)
    (h : ¬ (ndebug = false ∧ (shader.Location.ProjMatrix = invalidLocation
          ∨ shader.Location.Texture = invalidLocation))) :
    ∃ calls, DrawTextMesh ndebug invalidLocation mesh fontRecord shader projection
      fontDrawConfig = some calls := by
  cases e : DrawTextMesh ndebug invalidLocation mesh fontRecord shader projection
    fontDrawConfig with
  | none =>
    exact absurd ((drawTextMesh_eq_none ndebug invalidLocation mesh fontRecord shader
      projection fontDrawConfig).1 e) h
  | some calls => exact ⟨calls, rfl⟩

/-- The smoothing uniform is among the GL calls of `DrawTextMesh` when the shader has it. -/
theorem drawTextMesh_smoothing_mem (ndebug : Bool) (invalidLocation : Int)
    (mesh : MeshRecord Cfg Vtx) (fontRecord : FontRecord Pos Cfg) (shader : ShaderRecord)
    (projection : Matrix) (fontDrawConfig : FontDrawConfig) (calls : List GLCall)
    (h : DrawTextMesh ndebug invalidLocation mesh fontRecord shader projection fontDrawConfig
      = some calls) (hne : shader.Location.Smoothing ≠ invalidLocation) :
    GLCall.Uniform1f shader.Location.Smoothing
      (DrawTextMesh.smoothing fontRecord fontDrawConfig) ∈ calls := by
  unfold DrawTextMesh at h
  split at h
  · exact absurd h (by simp)
  · injection h with h
    subst h
    simp [hne]

/-- The GL calls `DrawMeshes` issues when its four `DrawTextMesh` calls issue theirs. -/
theorem drawMeshes_of_some (ndebug : Bool) (invalidLocation : Int)
    (m_resources : FrameResources Pos Cfg Vtx) (fontDrawConfig : FontDrawConfig)
    (fontSdfShader : ShaderRecord) (normalMesh normalScaled sdfMesh sdfScaled : List GLCall)
    (h1 : DrawTextMesh ndebug invalidLocation m_resources.Normal.Mesh m_resources.Normal.Font
      m_resources.ShaderNormal m_resources.Projection (DrawMeshes.drawConfig fontDrawConfig)
      = some normalMesh)
    (h2 : DrawTextMesh ndebug invalidLocation m_resources.Normal.ScaledMesh
      m_resources.Normal.Font m_resources.ShaderNormal m_resources.Projection fontDrawConfig
      = some normalScaled)
    (h3 : DrawTextMesh ndebug invalidLocation
      (DrawMeshes.example m_resources fontDrawConfig).Mesh
      (DrawMeshes.example m_resources fontDrawConfig).Font fontSdfShader
      m_resources.Projection (DrawMeshes.drawConfig fontDrawConfig) = some sdfMesh)
    (h4 : DrawTextMesh ndebug invalidLocation
      (DrawMeshes.example m_resources fontDrawConfig).ScaledMesh
      (DrawMeshes.example m_resources fontDrawConfig).Font fontSdfShader
      m_resources.Projection fontDrawConfig = some sdfScaled) :
    DrawMeshes ndebug invalidLocation m_resources fontDrawConfig fontSdfShader
      = some (
        [DrawMeshesCall.Enable GLCap.CullFace,
         DrawMeshesCall.Enable GLCap.Blend,
         DrawMeshesCall.BlendFunc GLBlendFactor.One GLBlendFactor.OneMinusSrcAlpha]
        ++ normalMesh.map DrawMeshesCall.InDrawTextMesh
        ++ normalScaled.map DrawMeshesCall.InDrawTextMesh
        ++ [DrawMeshesCall.BlendFunc GLBlendFactor.SrcAlpha GLBlendFactor.OneMinusSrcAlpha]
        ++ sdfMesh.map DrawMeshesCall.InDrawTextMesh
        ++ sdfScaled.map DrawMeshesCall.InDrawTextMesh
        ++ [DrawMeshesCall.UnbindArrayBuffer,
            DrawMeshesCall.UnbindElementArrayBuffer,
            DrawMeshesCall.UnbindTexture,
            DrawMeshesCall.UnuseProgram]) := by
  simp only [DrawMeshes, h1, h2, h3, h4]

/-- C15: for every font draw config `c`, the four `DrawTextMesh` calls of `DrawMeshes` are
made on `Normal.Mesh`, `Normal.ScaledMesh` and the `Mesh` and `ScaledMesh` of the selected
example, in that order; the two unscaled meshes get a config that has `FontScale = 1.0f` and
equals `c` in every other field, the two scaled meshes get `c` itself; so the smoothing of an
unscaled mesh is derived with font scale 1 and that of a scaled mesh with the configured
scale, and the GL calls of `DrawMeshes` are those of these four calls.  `DrawMeshes` issues
them unless an assertion of `DrawTextMesh` fails on `ShaderNormal` or on the SDF shader, and
then the smoothing uniforms it sends are the two of each shader that has one. -/
theorem drawMeshes_configs (ndebug : Bool) (invalidLocation : Int)
    (m_resources : FrameResources Pos Cfg Vtx) (fontDrawConfig : FontDrawConfig)
    (fontSdfShader : ShaderRecord) :
    (DrawMeshes.calls m_resources fontDrawConfig fontSdfShader).map (fun c => c.mesh)
      = [m_resources.Normal.Mesh, m_resources.Normal.ScaledMesh,
         (DrawMeshes.example m_resources fontDrawConfig).Mesh,
         (DrawMeshes.example m_resources fontDrawConfig).ScaledMesh]
    ∧ (DrawMeshes.calls m_resources fontDrawConfig fontSdfShader).map
        (fun c => c.fontDrawConfig)
      = [DrawMeshes.drawConfig fontDrawConfig, fontDrawConfig,
         DrawMeshes.drawConfig fontDrawConfig, fontDrawConfig]
    ∧ (DrawMeshes.drawConfig fontDrawConfig).FontScale = F32.one
    ∧ (DrawMeshes.drawConfig fontDrawConfig).OutlineDistance = fontDrawConfig.OutlineDistance
    ∧ (DrawMeshes.drawConfig fontDrawConfig).ShadowOffset = fontDrawConfig.ShadowOffset
    ∧ (DrawMeshes.drawConfig fontDrawConfig).ShadowSmoothing = fontDrawConfig.ShadowSmoothing
    ∧ (DrawMeshes.drawConfig fontDrawConfig).ContourScale = fontDrawConfig.ContourScale
    ∧ (DrawMeshes.drawConfig fontDrawConfig).SdfType = fontDrawConfig.SdfType
    ∧ (∀ font : FontRecord Pos Cfg,
        DrawTextMesh.smoothing font (DrawMeshes.drawConfig fontDrawConfig)
          = F32.div F32.quarter (F32.mul (DrawTextMesh.fontSdfSpread font) F32.one)
        ∧ DrawTextMesh.smoothing font fontDrawConfig
          = F32.div F32.quarter
              (F32.mul (DrawTextMesh.fontSdfSpread font) fontDrawConfig.FontScale))
    ∧ (∀ glCalls, DrawMeshes ndebug invalidLocation m_resources fontDrawConfig fontSdfShader
          = some glCalls →
        ∃ normalMesh normalScaled sdfMesh sdfScaled : List GLCall,
          (DrawMeshes.calls m_resources fontDrawConfig fontSdfShader).map
              (DrawTextMeshCall.run ndebug invalidLocation)
            = [some normalMesh, some normalScaled, some sdfMesh, some sdfScaled]
          ∧ glCalls =
            [DrawMeshesCall.Enable GLCap.CullFace,
             DrawMeshesCall.Enable GLCap.Blend,
             DrawMeshesCall.BlendFunc GLBlendFactor.One GLBlendFactor.OneMinusSrcAlpha]
            ++ normalMesh.map DrawMeshesCall.InDrawTextMesh
            ++ normalScaled.map DrawMeshesCall.InDrawTextMesh
            ++ [DrawMeshesCall.BlendFunc GLBlendFactor.SrcAlpha GLBlendFactor.OneMinusSrcAlpha]
            ++ sdfMesh.map DrawMeshesCall.InDrawTextMesh
            ++ sdfScaled.map DrawMeshesCall.InDrawTextMesh
            ++ [DrawMeshesCall.UnbindArrayBuffer,
                DrawMeshesCall.UnbindElementArrayBuffer,
                DrawMeshesCall.UnbindTexture,
                DrawMeshesCall.UnuseProgram])
    ∧ (DrawMeshes ndebug invalidLocation m_resources fontDrawConfig fontSdfShader = none ↔
        ndebug = false
          ∧ (m_resources.ShaderNormal.Location.ProjMatrix = invalidLocation
            ∨ m_resources.ShaderNormal.Location.Texture = invalidLocation
            ∨ fontSdfShader.Location.ProjMatrix = invalidLocation
            ∨ fontSdfShader.Location.Texture = invalidLocation))
    ∧ (¬ (ndebug = false
          ∧ (m_resources.ShaderNormal.Location.ProjMatrix = invalidLocation
            ∨ m_resources.ShaderNormal.Location.Texture = invalidLocation
            ∨ fontSdfShader.Location.ProjMatrix = invalidLocation
            ∨ fontSdfShader.Location.Texture = invalidLocation)) →
        ∃ normalMesh normalScaled sdfMesh sdfScaled : List GLCall,
          DrawTextMesh ndebug invalidLocation m_resources.Normal.Mesh m_resources.Normal.Font
              m_resources.ShaderNormal m_resources.Projection
              { fontDrawConfig with FontScale := F32.one } = some normalMesh
          ∧ DrawTextMesh ndebug invalidLocation m_resources.Normal.ScaledMesh
              m_resources.Normal.Font m_resources.ShaderNormal m_resources.Projection
              fontDrawConfig = some normalScaled
          ∧ DrawTextMesh ndebug invalidLocation
              (if fontDrawConfig.SdfType = SdfType.Sdf then m_resources.Sdf
                else m_resources.Mtsdf).Mesh
              (if fontDrawConfig.SdfType = SdfType.Sdf then m_resources.Sdf
                else m_resources.Mtsdf).Font
              fontSdfShader m_resources.Projection
              { fontDrawConfig with FontScale := F32.one } = some sdfMesh
          ∧ DrawTextMesh ndebug invalidLocation
              (if fontDrawConfig.SdfType = SdfType.Sdf then m_resources.Sdf
                else m_resources.Mtsdf).ScaledMesh
              (if fontDrawConfig.SdfType = SdfType.Sdf then m_resources.Sdf
                else m_resources.Mtsdf).Font
              fontSdfShader m_resources.Projection fontDrawConfig = some sdfScaled
          ∧ DrawMeshes ndebug invalidLocation m_resources fontDrawConfig fontSdfShader
            = some (
              [DrawMeshesCall.Enable GLCap.CullFace,
               DrawMeshesCall.Enable GLCap.Blend,
               DrawMeshesCall.BlendFunc GLBlendFactor.One GLBlendFactor.OneMinusSrcAlpha]
              ++ normalMesh.map DrawMeshesCall.InDrawTextMesh
              ++ normalScaled.map DrawMeshesCall.InDrawTextMesh
              ++ [DrawMeshesCall.BlendFunc GLBlendFactor.SrcAlpha
                    GLBlendFactor.OneMinusSrcAlpha]
              ++ sdfMesh.map DrawMeshesCall.InDrawTextMesh
              ++ sdfScaled.map DrawMeshesCall.InDrawTextMesh
              ++ [DrawMeshesCall.UnbindArrayBuffer,
                  DrawMeshesCall.UnbindElementArrayBuffer,
                  DrawMeshesCall.UnbindTexture,
                  DrawMeshesCall.UnuseProgram]))
    ∧ (∀ glCalls, DrawMeshes ndebug invalidLocation m_resources fontDrawConfig fontSdfShader
          = some glCalls →
        (m_resources.ShaderNormal.Location.Smoothing ≠ invalidLocation →
          DrawMeshesCall.InDrawTextMesh
              (GLCall.Uniform1f m_resources.ShaderNormal.Location.Smoothing
                (F32.div F32.quarter
                  (F32.mul (DrawTextMesh.fontSdfSpread m_resources.Normal.Font) F32.one)))
            ∈ glCalls
          ∧ DrawMeshesCall.InDrawTextMesh
              (GLCall.Uniform1f m_resources.ShaderNormal.Location.Smoothing
                (F32.div F32.quarter
                  (F32.mul (DrawTextMesh.fontSdfSpread m_resources.Normal.Font)
                    fontDrawConfig.FontScale)))
            ∈ glCalls)
        ∧ (fontSdfShader.Location.Smoothing ≠ invalidLocation →
          DrawMeshesCall.InDrawTextMesh
              (GLCall.Uniform1f fontSdfShader.Location.Smoothing
                (F32.div F32.quarter
                  (F32.mul (DrawTextMesh.fontSdfSpread
                    (DrawMeshes.example m_resources fontDrawConfig).Font) F32.one)))
            ∈ glCalls
          ∧ DrawMeshesCall.InDrawTextMesh
              (GLCall.Uniform1f fontSdfShader.Location.Smoothing
                (F32.div F32.quarter
                  (F32.mul (DrawTextMesh.fontSdfSpread
                    (DrawMeshes.example m_resources fontDrawConfig).Font)
                    fontDrawConfig.FontScale)))
            ∈ glCalls)) := by
  have hsome : ¬ (ndebug = false
      ∧ (m_resources.ShaderNormal.Location.ProjMatrix = invalidLocation
        ∨ m_resources.ShaderNormal.Location.Texture = invalidLocation
        ∨ fontSdfShader.Location.ProjMatrix = invalidLocation
        ∨ fontSdfShader.Location.Texture = invalidLocation)) →
      ∃ normalMesh normalScaled sdfMesh sdfScaled : List GLCall,
        DrawTextMesh ndebug invalidLocation m_resources.Normal.Mesh m_resources.Normal.Font
            m_resources.ShaderNormal m_resources.Projection
            (DrawMeshes.drawConfig fontDrawConfig) = some normalMesh
        ∧ DrawTextMesh ndebug invalidLocation m_resources.Normal.ScaledMesh
            m_resources.Normal.Font m_resources.ShaderNormal m_resources.Projection
            fontDrawConfig = some normalScaled
        ∧ DrawTextMesh ndebug invalidLocation
            (DrawMeshes.example m_resources fontDrawConfig).Mesh
            (DrawMeshes.example m_resources fontDrawConfig).Font fontSdfShader
            m_resources.Projection (DrawMeshes.drawConfig fontDrawConfig) = some sdfMesh
        ∧ DrawTextMesh ndebug invalidLocation
            (DrawMeshes.example m_resources fontDrawConfig).ScaledMesh
            (DrawMeshes.example m_resources fontDrawConfig).Font fontSdfShader
            m_resources.Projection fontDrawConfig = some sdfScaled := by
    intro hok
    have hn : ¬ (ndebug = false ∧ (m_resources.ShaderNormal.Location.ProjMatrix
        = invalidLocation ∨ m_resources.ShaderNormal.Location.Texture = invalidLocation)) := by
      rintro ⟨hd, h | h⟩
      · exact hok ⟨hd, Or.inl h⟩
      · exact hok ⟨hd, Or.inr (Or.inl h)⟩
    have hf : ¬ (ndebug = false ∧ (fontSdfShader.Location.ProjMatrix = invalidLocation
        ∨ fontSdfShader.Location.Texture = invalidLocation)) := by
      rintro ⟨hd, h | h⟩
      · exact hok ⟨hd, Or.inr (Or.inr (Or.inl h))⟩
      · exact hok ⟨hd, Or.inr (Or.inr (Or.inr h))⟩
    obtain ⟨a, ha⟩ := drawTextMesh_some ndebug invalidLocation m_resources.Normal.Mesh
      m_resources.Normal.Font m_resources.ShaderNormal m_resources.Projection
      (DrawMeshes.drawConfig fontDrawConfig) hn
    obtain ⟨b, hb⟩ := drawTextMesh_some ndebug invalidLocation m_resources.Normal.ScaledMesh
      m_resources.Normal.Font m_resources.ShaderNormal m_resources.Projection
      fontDrawConfig hn
    obtain ⟨c, hc⟩ := drawTextMesh_some ndebug invalidLocation
      (DrawMeshes.example m_resources fontDrawConfig).Mesh
      (DrawMeshes.example m_resources fontDrawConfig).Font fontSdfShader
      m_resources.Projection (DrawMeshes.drawConfig fontDrawConfig) hf
    obtain ⟨d, hd⟩ := drawTextMesh_some ndebug invalidLocation
      (DrawMeshes.example m_resources fontDrawConfig).ScaledMesh
      (DrawMeshes.example m_resources fontDrawConfig).Font fontSdfShader
      m_resources.Projection fontDrawConfig hf
    exact ⟨a, b, c, d, ha, hb, hc, hd⟩
  refine ⟨rfl, rfl, rfl, rfl, rfl, rfl, rfl, rfl, fun font => ⟨rfl, rfl⟩, ?_, ?_, ?_, ?_⟩
  · intro glCalls h
    exact drawMeshes_some ndebug invalidLocation m_resources fontDrawConfig fontSdfShader
      glCalls h
  · constructor
    · intro hnone
      by_contra hok
      obtain ⟨a, b, c, d, ha, hb, hc, hd⟩ := hsome hok
      rw [drawMeshes_of_some ndebug invalidLocation m_resources fontDrawConfig fontSdfShader
        a b c d ha hb hc hd] at hnone
      exact Option.noConfusion hnone
    · rintro ⟨hdebug, hloc⟩
      cases e : DrawMeshes ndebug invalidLocation m_resources fontDrawConfig fontSdfShader with
      | none => rfl
      | some glCalls =>
        obtain ⟨a, b, c, d, hrun, _⟩ := drawMeshes_some ndebug invalidLocation m_resources
          fontDrawConfig fontSdfShader glCalls e
        simp only [DrawMeshes.calls, DrawTextMeshCall.run, List.map_cons, List.map_nil,
          List.cons.injEq, and_true] at hrun
        obtain ⟨r1, _, r3, _⟩ := hrun
        rcases hloc with h | h | h | h
        · have := (drawTextMesh_eq_none ndebug invalidLocation m_resources.Normal.Mesh
            m_resources.Normal.Font m_resources.ShaderNormal m_resources.Projection
            (DrawMeshes.drawConfig fontDrawConfig)).2 ⟨hdebug, Or.inl h⟩
          rw [this] at r1
          exact Option.noConfusion r1
        · have := (drawTextMesh_eq_none ndebug invalidLocation m_resources.Normal.Mesh
            m_resources.Normal.Font m_resources.ShaderNormal m_resources.Projection
            (DrawMeshes.drawConfig fontDrawConfig)).2 ⟨hdebug, Or.inr h⟩
          rw [this] at r1
          exact Option.noConfusion r1
        · have := (drawTextMesh_eq_none ndebug invalidLocation
            (DrawMeshes.example m_resources fontDrawConfig).Mesh
            (DrawMeshes.example m_resources fontDrawConfig).Font fontSdfShader
            m_resources.Projection (DrawMeshes.drawConfig fontDrawConfig)).2
            ⟨hdebug, Or.inl h⟩
          rw [this] at r3
          exact Option.noConfusion r3
        · have := (drawTextMesh_eq_none ndebug invalidLocation
            (DrawMeshes.example m_resources fontDrawConfig).Mesh
            (DrawMeshes.example m_resources fontDrawConfig).Font fontSdfShader
            m_resources.Projection (DrawMeshes.drawConfig fontDrawConfig)).2
            ⟨hdebug, Or.inr h⟩
          rw [this] at r3
          exact Option.noConfusion r3
  · intro hok
    obtain ⟨a, b, c, d, ha, hb, hc, hd⟩ := hsome hok
    exact ⟨a, b, c, d, ha, hb, hc, hd,
      drawMeshes_of_some ndebug invalidLocation m_resources fontDrawConfig fontSdfShader
        a b c d ha hb hc hd⟩
  · intro glCalls h
    obtain ⟨a, b, c, d, hrun, hcalls⟩ := drawMeshes_some ndebug invalidLocation m_resources
      fontDrawConfig fontSdfShader glCalls h
    simp only [DrawMeshes.calls, DrawTextMeshCall.run, List.map_cons, List.map_nil,
      List.cons.injEq, and_true] at hrun
    obtain ⟨r1, r2, r3, r4⟩ := hrun
    subst hcalls
    constructor
    · intro hne
      have m1 := drawTextMesh_smoothing_mem ndebug invalidLocation _ _ _ _ _ a r1 hne
      have m2 := drawTextMesh_smoothing_mem ndebug invalidLocation _ _ _ _ _ b r2 hne
      constructor
      · simp only [List.mem_append, List.mem_map]
        exact Or.inl (Or.inl (Or.inl (Or.inl (Or.inl (Or.inr ⟨_, m1, rfl⟩)))))
      · simp only [List.mem_append, List.mem_map]
        exact Or.inl (Or.inl (Or.inl (Or.inl (Or.inr ⟨_, m2, rfl⟩))))
    · intro hne
      have m3 := drawTextMesh_smoothing_mem ndebug invalidLocation _ _ _ _ _ c r3 hne
      have m4 := drawTextMesh_smoothing_mem ndebug invalidLocation _ _ _ _ _ d r4 hne
      constructor
      · simp only [List.mem_append, List.mem_map]
        exact Or.inl (Or.inl (Or.inr ⟨_, m3, rfl⟩))
      · simp only [List.mem_append, List.mem_map]
        exact Or.inl (Or.inr ⟨_, m4, rfl⟩)

end FrameTheorems

section DrawTheorems

variable {Pos Cfg Vtx : Type} [Inhabited Pos] [BEq Cfg]

/-- With an SDF font type `Draw` stores the regenerated meshes in `Normal` and `Sdf`. -/
theorem draw_resources_sdf (ndebug : Bool) (invalidLocation : Int) (helper : AppHelper Pos Vtx)
    (vertexElementIndex : VertexElementUsage → Nat → Int) (framework : DrawFramework Pos Cfg)
    (m_shared : Shared) (m_resources : FrameResources Pos Cfg Vtx)
    (m_positionsScratchpad : List Pos)
    (h : m_shared.GetFontDrawConfig.SdfType = SdfType.Sdf) :
    (Draw ndebug invalidLocation helper vertexElementIndex framework m_shared m_resources
        m_positionsScratchpad).Resources
      = { m_resources with
          Normal := { m_resources.Normal with
            Mesh := (Draw.normalMesh helper vertexElementIndex framework m_shared m_resources
              m_positionsScratchpad).Mesh,
            ScaledMesh := (Draw.normalScaledMesh helper vertexElementIndex framework m_shared
              m_resources m_positionsScratchpad).Mesh },
          Sdf := { m_resources.Sdf with
            Mesh := (Draw.sdfMesh helper vertexElementIndex framework m_shared m_resources
              m_positionsScratchpad).Mesh,
            ScaledMesh := (Draw.sdfScaledMesh helper vertexElementIndex framework m_shared
              m_resources m_positionsScratchpad).Mesh } } := by
  simp only [Draw, Draw.rSdfRecord, h, if_true]

/-- With any other font type `Draw` stores the regenerated meshes in `Normal` and `Mtsdf`. -/
theorem draw_resources_mtsdf (ndebug : Bool) (invalidLocation : Int)
    (helper : AppHelper Pos Vtx) (vertexElementIndex : VertexElementUsage → Nat → Int)
    (framework : DrawFramework Pos Cfg) (m_shared : Shared)
    (m_resources : FrameResources Pos Cfg Vtx) (m_positionsScratchpad : List Pos)
    (h : m_shared.GetFontDrawConfig.SdfType ≠ SdfType.Sdf) :
    (Draw ndebug invalidLocation helper vertexElementIndex framework m_shared m_resources
        m_positionsScratchpad).Resources
      = { m_resources with
          Normal := { m_resources.Normal with
            Mesh := (Draw.normalMesh helper vertexElementIndex framework m_shared m_resources
              m_positionsScratchpad).Mesh,
            ScaledMesh := (Draw.normalScaledMesh helper vertexElementIndex framework m_shared
              m_resources m_positionsScratchpad).Mesh },
          Mtsdf := { m_resources.Mtsdf with
            Mesh := (Draw.sdfMesh helper vertexElementIndex framework m_shared m_resources
              m_positionsScratchpad).Mesh,
            ScaledMesh := (Draw.sdfScaledMesh helper vertexElementIndex framework m_shared
              m_resources m_positionsScratchpad).Mesh } } := by
  simp only [Draw, Draw.rSdfRecord, h, if_false]

/-- The `DrawTextMesh` calls of the frame, whatever the font type. -/
theorem draw_calls (ndebug : Bool) (invalidLocation : Int) (helper : AppHelper Pos Vtx)
    (vertexElementIndex : VertexElementUsage → Nat → Int) (framework : DrawFramework Pos Cfg)
    (m_shared : Shared) (m_resources : FrameResources Pos Cfg Vtx)
    (m_positionsScratchpad : List Pos) :
    DrawMeshes.calls
        (Draw ndebug invalidLocation helper vertexElementIndex framework m_shared m_resources
          m_positionsScratchpad).Resources
        m_shared.GetFontDrawConfig (Draw.fontSdfShader m_shared m_resources)
      = [ { mesh := (Draw.normalMesh helper vertexElementIndex framework m_shared m_resources
              m_positionsScratchpad).Mesh,
            fontRecord := m_resources.Normal.Font, shader := m_resources.ShaderNormal,
            projection := m_resources.Projection,
            fontDrawConfig := DrawMeshes.drawConfig m_shared.GetFontDrawConfig },
          { mesh := (Draw.normalScaledMesh helper vertexElementIndex framework m_shared
              m_resources m_positionsScratchpad).Mesh,
            fontRecord := m_resources.Normal.Font, shader := m_resources.ShaderNormal,
            projection := m_resources.Projection,
            fontDrawConfig := m_shared.GetFontDrawConfig },
          { mesh := (Draw.sdfMesh helper vertexElementIndex framework m_shared m_resources
              m_positionsScratchpad).Mesh,
            fontRecord := (Draw.rSdfRecord m_shared m_resources).Font,
            shader := Draw.fontSdfShader m_shared m_resources,
            projection := m_resources.Projection,
            fontDrawConfig := DrawMeshes.drawConfig m_shared.GetFontDrawConfig },
          { mesh := (Draw.sdfScaledMesh helper vertexElementIndex framework m_shared
              m_resources m_positionsScratchpad).Mesh,
            fontRecord := (Draw.rSdfRecord m_shared m_resources).Font,
            shader := Draw.fontSdfShader m_shared m_resources,
            projection := m_resources.Projection,
            fontDrawConfig := m_shared.GetFontDrawConfig } ] := by
  by_cases h : m_shared.GetFontDrawConfig.SdfType = SdfType.Sdf
  · rw [draw_resources_sdf ndebug invalidLocation helper vertexElementIndex framework m_shared
      m_resources m_positionsScratchpad h]
    simp only [DrawMeshes.calls, DrawMeshes.example, Draw.rSdfRecord, h, if_true]
  · rw [draw_resources_mtsdf ndebug invalidLocation helper vertexElementIndex framework
      m_shared m_resources m_positionsScratchpad h]
    simp only [DrawMeshes.calls, DrawMeshes.example, Draw.rSdfRecord, h, if_false]

/-- Each regenerated mesh caches the handle of the shader its call was given. -/
theorem draw_cachedShader (helper : AppHelper Pos Vtx)
    (vertexElementIndex : VertexElementUsage → Nat → Int) (framework : DrawFramework Pos Cfg)
    (m_shared : Shared) (m_resources : FrameResources Pos Cfg Vtx)
    (m_positionsScratchpad : List Pos) :
    (Draw.normalMesh helper vertexElementIndex framework m_shared m_resources
        m_positionsScratchpad).Mesh.CachedShader = m_resources.ShaderNormal.Program.Get
    ∧ (Draw.sdfMesh helper vertexElementIndex framework m_shared m_resources
        m_positionsScratchpad).Mesh.CachedShader
        = (Draw.fontSdfShader m_shared m_resources).Program.Get
    ∧ (Draw.normalScaledMesh helper vertexElementIndex framework m_shared m_resources
        m_positionsScratchpad).Mesh.CachedShader
        = (Draw.fontSdfShader m_shared m_resources).Program.Get
    ∧ (Draw.sdfScaledMesh helper vertexElementIndex framework m_shared m_resources
        m_positionsScratchpad).Mesh.CachedShader
        = (Draw.fontSdfShader m_shared m_resources).Program.Get :=
  ⟨(regenerate_key helper vertexElementIndex _ _ _ _ _ _ _).2.2,
   (regenerate_key helper vertexElementIndex _ _ _ _ _ _ _).2.2,
   (regenerate_key helper vertexElementIndex _ _ _ _ _ _ _).2.2,
   (regenerate_key helper vertexElementIndex _ _ _ _ _ _ _).2.2⟩

/-- C16: the SDF / MTSDF choice of a frame is made three times from the same test on the
font type `t` of the draw config: when `t` is `Sdf`, `Draw` regenerates the two meshes of the
`Sdf` example with the `Sdf` font and leaves the `Mtsdf` example as it is, `DrawMeshes` draws
the `Sdf` example, and the shader record comes from `ShadersSdf`; for every other `t` the
same holds with `Mtsdf` and `ShadersMtsdf`.  The shader of the third and fourth
`DrawTextMesh` call is that record and their font is the font of the chosen example. -/
theorem draw_sdf_choice_consistent (ndebug : Bool) (invalidLocation : Int)
    (helper : AppHelper Pos Vtx) (vertexElementIndex : VertexElementUsage → Nat → Int)
    (framework : DrawFramework Pos Cfg) (m_shared : Shared)
    (m_resources : FrameResources Pos Cfg Vtx) (m_positionsScratchpad : List Pos) :
    (Draw ndebug invalidLocation helper vertexElementIndex framework m_shared m_resources
        m_positionsScratchpad).Meshes
      = DrawMeshes ndebug invalidLocation
          (Draw ndebug invalidLocation helper vertexElementIndex framework m_shared m_resources
            m_positionsScratchpad).Resources
          m_shared.GetFontDrawConfig (Draw.fontSdfShader m_shared m_resources)
    ∧ (DrawMeshes.calls
          (Draw ndebug invalidLocation helper vertexElementIndex framework m_shared m_resources
            m_positionsScratchpad).Resources
          m_shared.GetFontDrawConfig (Draw.fontSdfShader m_shared m_resources)).map
          (fun c => c.shader)
        = [m_resources.ShaderNormal, m_resources.ShaderNormal,
           Draw.fontSdfShader m_shared m_resources, Draw.fontSdfShader m_shared m_resources]
    ∧
    (m_shared.GetFontDrawConfig.SdfType = SdfType.Sdf →
      (Draw.regenerations framework m_shared m_resources).SdfMesh.1 = m_resources.Sdf.Mesh
      ∧ (Draw.regenerations framework m_shared m_resources).SdfMesh.2.fontRecord
          = m_resources.Sdf.Font
      ∧ (Draw.regenerations framework m_shared m_resources).SdfScaledMesh.1
          = m_resources.Sdf.ScaledMesh
      ∧ (Draw.regenerations framework m_shared m_resources).SdfScaledMesh.2.fontRecord
          = m_resources.Sdf.Font
      ∧ (Draw ndebug invalidLocation helper vertexElementIndex framework m_shared m_resources
          m_positionsScratchpad).Resources.Sdf
          = { m_resources.Sdf with
              Mesh := (Draw.sdfMesh helper vertexElementIndex framework m_shared m_resources
                m_positionsScratchpad).Mesh,
              ScaledMesh := (Draw.sdfScaledMesh helper vertexElementIndex framework m_shared
                m_resources m_positionsScratchpad).Mesh }
      ∧ (Draw ndebug invalidLocation helper vertexElementIndex framework m_shared m_resources
          m_positionsScratchpad).Resources.Mtsdf = m_resources.Mtsdf
      ∧ DrawMeshes.example (Draw ndebug invalidLocation helper vertexElementIndex framework m_shared m_resources
          m_positionsScratchpad).Resources m_shared.GetFontDrawConfig
          = (Draw ndebug invalidLocation helper vertexElementIndex framework m_shared m_resources
          m_positionsScratchpad).Resources.Sdf
      ∧ (DrawMeshes.calls (Draw ndebug invalidLocation helper vertexElementIndex framework m_shared m_resources
          m_positionsScratchpad).Resources m_shared.GetFontDrawConfig
            (Draw.fontSdfShader m_shared m_resources)).map (fun c => c.fontRecord)
          = [m_resources.Normal.Font, m_resources.Normal.Font, m_resources.Sdf.Font,
             m_resources.Sdf.Font]
      ∧ Draw.fontSdfShader m_shared m_resources
          ∈ [m_resources.ShadersSdf.Normal, m_resources.ShadersSdf.Outline,
             m_resources.ShadersSdf.Shadow, m_resources.ShadersSdf.ShadowAndOutline,
             m_resources.ShadersSdf.Contours])
    ∧
    (m_shared.GetFontDrawConfig.SdfType ≠ SdfType.Sdf →
      (Draw.regenerations framework m_shared m_resources).SdfMesh.1 = m_resources.Mtsdf.Mesh
      ∧ (Draw.regenerations framework m_shared m_resources).SdfMesh.2.fontRecord
          = m_resources.Mtsdf.Font
      ∧ (Draw.regenerations framework m_shared m_resources).SdfScaledMesh.1
          = m_resources.Mtsdf.ScaledMesh
      ∧ (Draw.regenerations framework m_shared m_resources).SdfScaledMesh.2.fontRecord
          = m_resources.Mtsdf.Font
      ∧ (Draw ndebug invalidLocation helper vertexElementIndex framework m_shared m_resources
          m_positionsScratchpad).Resources.Mtsdf
          = { m_resources.Mtsdf with
              Mesh := (Draw.sdfMesh helper vertexElementIndex framework m_shared m_resources
                m_positionsScratchpad).Mesh,
              ScaledMesh := (Draw.sdfScaledMesh helper vertexElementIndex framework m_shared
                m_resources m_positionsScratchpad).Mesh }
      ∧ (Draw ndebug invalidLocation helper vertexElementIndex framework m_shared m_resources
          m_positionsScratchpad).Resources.Sdf = m_resources.Sdf
      ∧ DrawMeshes.example (Draw ndebug invalidLocation helper vertexElementIndex framework m_shared m_resources
          m_positionsScratchpad).Resources m_shared.GetFontDrawConfig
          = (Draw ndebug invalidLocation helper vertexElementIndex framework m_shared m_resources
          m_positionsScratchpad).Resources.Mtsdf
      ∧ (DrawMeshes.calls (Draw ndebug invalidLocation helper vertexElementIndex framework m_shared m_resources
          m_positionsScratchpad).Resources m_shared.GetFontDrawConfig
            (Draw.fontSdfShader m_shared m_resources)).map (fun c => c.fontRecord)
          = [m_resources.Normal.Font, m_resources.Normal.Font, m_resources.Mtsdf.Font,
             m_resources.Mtsdf.Font]
      ∧ Draw.fontSdfShader m_shared m_resources
          ∈ [m_resources.ShadersMtsdf.Normal, m_resources.ShadersMtsdf.Outline,
             m_resources.ShadersMtsdf.Shadow, m_resources.ShadersMtsdf.ShadowAndOutline,
             m_resources.ShadersMtsdf.Contours]) := by
  have hcalls := draw_calls ndebug invalidLocation helper vertexElementIndex framework m_shared
    m_resources m_positionsScratchpad
  refine ⟨rfl, by rw [hcalls]; rfl, ?_, ?_⟩
  · intro h
    have hres := draw_resources_sdf ndebug invalidLocation helper vertexElementIndex framework
      m_shared m_resources m_positionsScratchpad h
    have hrec : Draw.rSdfRecord m_shared m_resources = m_resources.Sdf := by
      simp only [Draw.rSdfRecord, h, if_true]
    refine ⟨?_, ?_, ?_, ?_, ?_, ?_, ?_, ?_, ?_⟩
    · simp only [Draw.regenerations, hrec]
    · simp only [Draw.regenerations, hrec]
    · simp only [Draw.regenerations, hrec]
    · simp only [Draw.regenerations, hrec]
    · rw [hres]
    · rw [hres]
    · rw [hres]
      simp only [DrawMeshes.example, h, if_true]
    · rw [hcalls, hrec]
      rfl
    · simp only [Draw.fontSdfShader, SelectShaderRecord, h, if_true]
      cases m_shared.GetSdfMode <;> simp
  · intro h
    have hres := draw_resources_mtsdf ndebug invalidLocation helper vertexElementIndex
      framework m_shared m_resources m_positionsScratchpad h
    have hrec : Draw.rSdfRecord m_shared m_resources = m_resources.Mtsdf := by
      simp only [Draw.rSdfRecord, h, if_false]
    refine ⟨?_, ?_, ?_, ?_, ?_, ?_, ?_, ?_, ?_⟩
    · simp only [Draw.regenerations, hrec]
    · simp only [Draw.regenerations, hrec]
    · simp only [Draw.regenerations, hrec]
    · simp only [Draw.regenerations, hrec]
    · rw [hres]
    · rw [hres]
    · rw [hres]
      simp only [DrawMeshes.example, h, if_false]
    · rw [hcalls, hrec]
      rfl
    · simp only [Draw.fontSdfShader, SelectShaderRecord, h, if_false]
      cases m_shared.GetSdfMode <;> simp

end DrawTheorems

/-- C11, the code at the failing input: in every frame `Draw` hands `fontSdfShader` to the
`RegenerateMeshOnDemand` call on `Normal.ScaledMesh`, while `DrawMeshes` draws that mesh with
`ShaderNormal`; so of the four meshes drawn, `Normal.Mesh` and the two meshes of the chosen
example are drawn with the shader whose handle they cache, and `Normal.ScaledMesh` caches the
handle of `fontSdfShader` but is drawn with `ShaderNormal`.  In the sample frame (outline
mode) that mesh caches program 5 and carries the attribute links 2 and 3 of program 5, and
is drawn with program 4, whose attribute locations are 0 and 1. -/
theorem draw_normalScaledMesh_shader_differs :
    (∀ (Pos Cfg Vtx : Type) [Inhabited Pos] [BEq Cfg] (ndebug : Bool)
        (invalidLocation : Int) (helper : AppHelper Pos Vtx)
        (vertexElementIndex : VertexElementUsage → Nat → Int)
        (framework : DrawFramework Pos Cfg) (m_shared : Shared)
        (m_resources : FrameResources Pos Cfg Vtx) (m_positionsScratchpad : List Pos),
        (Draw.regenerations framework m_shared m_resources).NormalMesh.1
            = m_resources.Normal.Mesh
        ∧ (Draw.regenerations framework m_shared m_resources).NormalMesh.2.shader
            = m_resources.ShaderNormal
        ∧ (Draw.regenerations framework m_shared m_resources).NormalScaledMesh.1
            = m_resources.Normal.ScaledMesh
        ∧ (Draw.regenerations framework m_shared m_resources).NormalScaledMesh.2.shader
            = Draw.fontSdfShader m_shared m_resources
        ∧ (Draw.regenerations framework m_shared m_resources).SdfMesh.2.shader
            = Draw.fontSdfShader m_shared m_resources
        ∧ (Draw.regenerations framework m_shared m_resources).SdfScaledMesh.2.shader
            = Draw.fontSdfShader m_shared m_resources
        ∧ (DrawMeshes.calls
              (Draw ndebug invalidLocation helper vertexElementIndex framework m_shared
                m_resources m_positionsScratchpad).Resources
              m_shared.GetFontDrawConfig (Draw.fontSdfShader m_shared m_resources)).map
              (fun c => c.mesh)
            = [(Draw ndebug invalidLocation helper vertexElementIndex framework m_shared
                  m_resources m_positionsScratchpad).Resources.Normal.Mesh,
               (Draw ndebug invalidLocation helper vertexElementIndex framework m_shared
                  m_resources m_positionsScratchpad).Resources.Normal.ScaledMesh,
               (Draw.sdfMesh helper vertexElementIndex framework m_shared m_resources
                  m_positionsScratchpad).Mesh,
               (Draw.sdfScaledMesh helper vertexElementIndex framework m_shared m_resources
                  m_positionsScratchpad).Mesh]
        ∧ (DrawMeshes.calls
              (Draw ndebug invalidLocation helper vertexElementIndex framework m_shared
                m_resources m_positionsScratchpad).Resources
              m_shared.GetFontDrawConfig (Draw.fontSdfShader m_shared m_resources)).map
              (fun c => c.shader)
            = [m_resources.ShaderNormal, m_resources.ShaderNormal,
               Draw.fontSdfShader m_shared m_resources,
               Draw.fontSdfShader m_shared m_resources]
        ∧ (DrawMeshes.calls
              (Draw ndebug invalidLocation helper vertexElementIndex framework m_shared
                m_resources m_positionsScratchpad).Resources
              m_shared.GetFontDrawConfig (Draw.fontSdfShader m_shared m_resources)).map
              (fun c => (c.mesh.CachedShader, c.shader.Program.Get))
            = [(m_resources.ShaderNormal.Program.Get, m_resources.ShaderNormal.Program.Get),
               ((Draw.fontSdfShader m_shared m_resources).Program.Get,
                 m_resources.ShaderNormal.Program.Get),
               ((Draw.fontSdfShader m_shared m_resources).Program.Get,
                 (Draw.fontSdfShader m_shared m_resources).Program.Get),
               ((Draw.fontSdfShader m_shared m_resources).Program.Get,
                 (Draw.fontSdfShader m_shared m_resources).Program.Get)])
    ∧ (DrawMeshes.calls Sample.frame.Resources Sample.shared.GetFontDrawConfig
          (Draw.fontSdfShader Sample.shared Sample.resources)).map
          (fun c => (c.mesh.CachedShader, c.shader.Program.Get))
        = [(4, 4), (5, 4), (5, 5), (5, 5)]
    ∧ (DrawMeshes.calls Sample.frame.Resources Sample.shared.GetFontDrawConfig
          (Draw.fontSdfShader Sample.shared Sample.resources)).map
          (fun c => (c.mesh.AttribLink.1.AttribIndex, c.mesh.AttribLink.2.AttribIndex,
            c.shader.Program.GetAttribLocation "VertexPosition",
            c.shader.Program.TryGetAttribLocation "VertexTextureCoord"))
        = [(0, 1, 0, 1), (2, 3, 0, 1), (2, 3, 2, 3), (2, 3, 2, 3)] := by
  refine ⟨?_, by decide, by decide⟩
  intro Pos Cfg Vtx _ _ ndebug invalidLocation helper vertexElementIndex framework m_shared
    m_resources m_positionsScratchpad
  have hcalls := draw_calls ndebug invalidLocation helper vertexElementIndex framework m_shared
    m_resources m_positionsScratchpad
  obtain ⟨k1, k2, k3, k4⟩ := draw_cachedShader helper vertexElementIndex framework m_shared
    m_resources m_positionsScratchpad
  refine ⟨rfl, rfl, rfl, rfl, rfl, rfl, ?_, by rw [hcalls]; rfl, ?_⟩
  · rw [hcalls]
    by_cases h : m_shared.GetFontDrawConfig.SdfType = SdfType.Sdf
    · rw [draw_resources_sdf ndebug invalidLocation helper vertexElementIndex framework
        m_shared m_resources m_positionsScratchpad h]
      rfl
    · rw [draw_resources_mtsdf ndebug invalidLocation helper vertexElementIndex framework
        m_shared m_resources m_positionsScratchpad h]
      rfl
  · rw [hcalls]
    simp only [List.map_cons, List.map_nil, k1, k2, k3, k4]

end Fsl
